import Mathlib

/-! # Video mode controller of `Quake/gl_vidsdl.c`

A shallow embedding of the mode-change state machine of `gl_vidsdl.c`
(`VID_ValidMode`, `VID_SetMode`, `VID_Restart`, `VID_Test`, `VID_SyncCvars`)
together with the properties proved about it.

Modelling conventions.

* C `int` values are `Int`.  The numeric value of a cvar (a C `float` holding
  what the console or the sync code stored) is modelled by the integer it
  holds; `(int)x.value` is then the value itself and the truth test
  `x.value ? .. : ..` is `x ≠ 0`.
* The SDL window system is an external collaborator.  It is a parameter: a
  record `SDL σ` of operations over an arbitrary platform state `σ`.  Every
  definition below takes the platform as its first argument, so every theorem
  holds for every platform unless it says otherwise.
* Calls into other subsystems (renderer hooks, audio, input, console) have no
  effect on the state of this module; each call is appended to `trace`.
* `Sys_Error` does not return; functions that can reach it return
  `Except Fatal _`.
-/

namespace GLVidSDL

/-! ## Types -/

/-- Ways in which the process stops inside this module. -/
inductive Fatal where
  /-- The call `Sys_Error ("Couldn't create window")`. -/
  | couldnt_create_window
  /-- The call `Sys_Error ("Couldn't set fullscreen state mode")`. -/
  | couldnt_set_fullscreen_state
  /-- The call `Sys_Error ("Couldn't create GL context")`. -/
  | couldnt_create_GL_context
  /-- An integer division whose divisor is zero. -/
  | divide_by_zero
  deriving DecidableEq, Repr

/-- The attributes passed to `SDL_GL_SetAttribute` / `SDL_GL_GetAttribute`. -/
inductive SDL_GLattr where
  | SDL_GL_DEPTH_SIZE
  | SDL_GL_STENCIL_SIZE
  | SDL_GL_MULTISAMPLEBUFFERS
  | SDL_GL_MULTISAMPLESAMPLES
  deriving DecidableEq, Repr

/-- The fields of `SDL_DisplayMode` (the driver data pointer is left out). -/
structure SDL_DisplayMode where
  format : Nat
  w : Int
  h : Int
  refresh_rate : Int
  deriving DecidableEq, Repr

/-- The record `vmode_t`. -/
structure vmode_t where
  width : Int
  height : Int
  bpp : Int
  deriving DecidableEq, Repr

/-- The record `vid_menu_mode`. -/
structure vid_menu_mode where
  width : Int
  height : Int
  deriving DecidableEq, Repr

/-- The members of `viddef_t` written by this module. -/
structure viddef_t where
  width : Int
  height : Int
  conwidth : Int
  conheight : Int
  numpages : Int
  recalc_refdef : Int
  deriving DecidableEq, Repr

/-- The enumeration `modestate_t`. -/
inductive modestate_t where
  | MS_UNINIT
  | MS_WINDOWED
  | MS_FULLSCREEN
  deriving DecidableEq, Repr

/-- The enumeration `keydest_t` (where key events go). -/
inductive keydest_t where
  | key_game
  | key_console
  | key_message
  | key_menu
  deriving DecidableEq, Repr

/-- The video cvars registered by `VID_Init`, each by its numeric value. -/
structure Cvars where
  vid_fullscreen : Int
  vid_width : Int
  vid_height : Int
  vid_bpp : Int
  vid_vsync : Int
  vid_fsaa : Int
  vid_desktopfullscreen : Int
  deriving DecidableEq, Repr

/-- Names of the video cvars, for the generic cvar setters. -/
inductive CvarId where
  | vid_fullscreen
  | vid_width
  | vid_height
  | vid_bpp
  | vid_vsync
  | vid_fsaa
  | vid_desktopfullscreen
  deriving DecidableEq, Repr

/-- Calls that leave this module, in the order in which they are made. -/
inductive Event where
  | TexMgr_DeleteTextureObjects
  | GLSLGamma_DeleteTexture
  | R_DeleteShaders
  | GL_DeleteBModelVertexBuffer
  | GLMesh_DeleteVertexBuffers
  | VID_SetMode (width height bpp : Int) (fullscreen : Bool)
  | GL_Init
  | TexMgr_ReloadImages
  | GL_BuildBModelVertexBuffer
  | GLMesh_LoadVertexBuffers
  | GL_SetupState
  | Fog_SetupState
  | TexMgr_RecalcWarpImageSize
  | IN_Deactivate (free_cursor : Bool)
  | IN_Activate
  | CDAudio_Pause
  | BGM_Pause
  | CDAudio_Resume
  | BGM_Resume
  | Key_ClearStates
  | IN_ClearStates
  | SCR_ModalMessage
  | S_ClearBuffer
  | Sbar_Changed
  | Cbuf_AddText_vid_restart
  /-- The call `Con_Printf ("%dx%dx%d %s is not a valid mode\n", ..)`. -/
  | Con_Printf_not_a_valid_mode (width height bpp : Int) (fullscreen : Bool)
  /-- The call `Con_SafePrintf ("Video mode %dx%dx%d (%d-bit z-buffer, %dx FSAA) initialized\n", ..)`. -/
  | Con_SafePrintf_initialized (width height bpp depthbits fsaa_obtained : Int)
  /-- The call `Con_Printf("%s %d requires engine restart to take effect\n", ..)`. -/
  | Con_Printf_requires_engine_restart (value : Int)
  | Con_DPrintf_toggle_failed
  | SDL_GL_SetAttribute (attr : SDL_GLattr) (value : Int)
  | SDL_CreateWindow (width height : Int) (flags : Nat)
  | SDL_SetWindowFullscreen (flags : Nat)
  | SDL_SetWindowSize (width height : Int)
  | SDL_SetWindowPosition
  | SDL_SetWindowDisplayMode (mode : Option SDL_DisplayMode)
  | SDL_ShowWindow
  | SDL_GL_CreateContext
  | SDL_GL_SetSwapInterval (interval : Int)
  | PL_SetWindowIcon
  | VID_Gamma_Init
  /-- The call `Con_SafePrintf ("\n")` of `VID_DescribeModes_f`. -/
  | Con_SafePrintf_newline
  /-- The call `Con_SafePrintf ("   %4i x %4i x %i", ..)`. -/
  | Con_SafePrintf_mode (width height bpp : Int)
  /-- The call `Con_Printf ("\n%i modes\n", count)`. -/
  | Con_Printf_modes (count : Int)
  deriving DecidableEq, Repr

/-- The window system as this module uses it.  `σ` is the state of the
platform; queries read it, commands return the new state and their result.
The window flag constants and the `SDL_BITSPERPIXEL` accessor come from the
SDL headers, which are not part of the sources, and are parameters too.
The mode list of display 0 does not depend on the window. -/
structure SDL (σ : Type) where
  SDL_WINDOW_FULLSCREEN : Nat
  SDL_WINDOW_FULLSCREEN_DESKTOP : Nat
  SDL_WINDOW_OPENGL : Nat
  SDL_WINDOW_HIDDEN : Nat
  SDL_BITSPERPIXEL : Nat → Int
  /-- The result of `SDL_GetNumDisplayModes(0)`. -/
  SDL_GetNumDisplayModes : Int
  /-- The call `SDL_GetDisplayMode(0, i, &mode)`: the mode when it returns 0. -/
  SDL_GetDisplayMode : Int → Option SDL_DisplayMode
  /-- The pair left in `w, h` by `SDL_GetWindowSize(draw_context, &w, &h)`. -/
  SDL_GetWindowSize : σ → Int × Int
  SDL_GetWindowPixelFormat : σ → Nat
  SDL_GetWindowFlags : σ → Nat
  SDL_GL_GetSwapInterval : σ → Int
  /-- The call `SDL_GL_GetAttribute(attr, &v)`: the value when it does not return -1. -/
  SDL_GL_GetAttribute : σ → SDL_GLattr → Option Int
  SDL_GL_SetAttribute : σ → SDL_GLattr → Int → σ
  /-- The call `SDL_CreateWindow (..)`: the new state and whether the result is non-NULL. -/
  SDL_CreateWindow : σ → Int → Int → Nat → σ × Bool
  /-- The call `SDL_SetWindowFullscreen (draw_context, flags)`: new state and return code. -/
  SDL_SetWindowFullscreen : σ → Nat → σ × Int
  SDL_SetWindowSize : σ → Int → Int → σ
  SDL_SetWindowPosition : σ → σ
  SDL_SetWindowDisplayMode : σ → Option SDL_DisplayMode → σ
  SDL_ShowWindow : σ → σ
  /-- The call `SDL_GL_CreateContext(draw_context)`: new state, whether the result is non-NULL. -/
  SDL_GL_CreateContext : σ → σ × Bool
  /-- The call `SDL_GL_SetSwapInterval (n)`: new state and return code. -/
  SDL_GL_SetSwapInterval : σ → Int → σ × Int

/-- The file-scope variables of `gl_vidsdl.c`, the globals of other modules it
reads (`key_dest`, `scr_conwidth`, `scr_conscale`, `scr_disabled_for_loading`),
the platform state and the trace of outgoing calls. -/
structure VidState (σ : Type) where
  sdl : σ
  cv : Cvars
  /-- Whether `draw_context != NULL`. -/
  draw_context : Bool
  /-- Whether `gl_context != NULL`. -/
  gl_context : Bool
  vid_locked : Bool
  vid_changed : Bool
  vid_initialized : Bool
  fsaa : Int
  vid : viddef_t
  modestate : modestate_t
  gl_swap_control : Bool
  gl_vbo_able : Bool
  gl_stencilbits : Int
  scr_disabled_for_loading : Int
  key_dest : keydest_t
  scr_conwidth : Int
  scr_conscale : Int
  modelist : List vmode_t
  vid_menu_modes : List vid_menu_mode
  vid_menu_bpps : List Int
  /-- The function-local `static qboolean vid_toggle_works` of `VID_Toggle`. -/
  vid_toggle_works : Bool
  trace : List Event
  deriving DecidableEq

variable {σ : Type}

/-! ## Cvars -/

/-- The numeric value of a cvar. -/
def Cvars.get (c : Cvars) : CvarId → Int
  | .vid_fullscreen => c.vid_fullscreen
  | .vid_width => c.vid_width
  | .vid_height => c.vid_height
  | .vid_bpp => c.vid_bpp
  | .vid_vsync => c.vid_vsync
  | .vid_fsaa => c.vid_fsaa
  | .vid_desktopfullscreen => c.vid_desktopfullscreen

/-- Store a numeric value in a cvar. -/
def Cvars.set (c : Cvars) : CvarId → Int → Cvars
  | .vid_fullscreen, x => { c with vid_fullscreen := x }
  | .vid_width, x => { c with vid_width := x }
  | .vid_height, x => { c with vid_height := x }
  | .vid_bpp, x => { c with vid_bpp := x }
  | .vid_vsync, x => { c with vid_vsync := x }
  | .vid_fsaa, x => { c with vid_fsaa := x }
  | .vid_desktopfullscreen, x => { c with vid_desktopfullscreen := x }

/-- Append one outgoing call to the trace. -/
def emit (s : VidState σ) (e : Event) : VidState σ :=
  { s with trace := s.trace ++ [e] }

/-- The callback `VID_Changed_f`: a value has changed that requires a `vid_restart`. -/
def VID_Changed_f (s : VidState σ) : VidState σ :=
  { s with vid_changed := true }

/-- The callback `VID_FSAA_f`: warn that `vid_fsaa` requires an engine restart. -/
def VID_FSAA_f (s : VidState σ) : VidState σ :=
  if s.vid_initialized then emit s (.Con_Printf_requires_engine_restart s.cv.vid_fsaa) else s

/-- Modelled from the spec: `Cvar_SetQuick` is defined in `cvar.c`, which is not
part of the sources.  The pending-change flag is "set whenever any
RequestedConfig field changes": a call that stores the value the cvar already
holds changes nothing, any other call stores the value and then runs the
callback installed by `VID_Init` (`VID_FSAA_f` for `vid_fsaa`, `VID_Changed_f`
for the other six). -/
def Cvar_SetQuick (s : VidState σ) (var : CvarId) (value : Int) : VidState σ :=
  if s.cv.get var = value then s
  else
    let s := { s with cv := s.cv.set var value }
    match var with
    | .vid_fsaa => VID_FSAA_f s
    | _ => VID_Changed_f s

/-- Modelled from the spec: `Cvar_SetValueQuick` of `cvar.c` (not part of the
sources) prints the number and hands it to `Cvar_SetQuick`. -/
def Cvar_SetValueQuick (s : VidState σ) (var : CvarId) (value : Int) : VidState σ :=
  Cvar_SetQuick s var value

/-! ## Queries on the live surface -/

/-- The query `VID_GetCurrentWidth`. -/
def VID_GetCurrentWidth (P : SDL σ) (s : VidState σ) : Int :=
  (P.SDL_GetWindowSize s.sdl).1

/-- The query `VID_GetCurrentHeight`. -/
def VID_GetCurrentHeight (P : SDL σ) (s : VidState σ) : Int :=
  (P.SDL_GetWindowSize s.sdl).2

/-- The query `VID_GetCurrentBPP`. -/
def VID_GetCurrentBPP (P : SDL σ) (s : VidState σ) : Int :=
  P.SDL_BITSPERPIXEL (P.SDL_GetWindowPixelFormat s.sdl)

/-- The query `VID_GetFullscreen`. -/
def VID_GetFullscreen (P : SDL σ) (s : VidState σ) : Bool :=
  (P.SDL_GetWindowFlags s.sdl &&& P.SDL_WINDOW_FULLSCREEN) != 0

/-- The query `VID_GetDesktopFullscreen`. -/
def VID_GetDesktopFullscreen (P : SDL σ) (s : VidState σ) : Bool :=
  (P.SDL_GetWindowFlags s.sdl &&& P.SDL_WINDOW_FULLSCREEN_DESKTOP) != 0

/-- The query `VID_GetVSync`. -/
def VID_GetVSync (P : SDL σ) (s : VidState σ) : Bool :=
  P.SDL_GL_GetSwapInterval s.sdl == 1

/-- The function `VID_SDL2_GetDisplayMode`: the first mode of display 0 with the requested
width, height and bits per pixel, `none` for the NULL result. -/
def VID_SDL2_GetDisplayMode (P : SDL σ) (width height bpp : Int) : Option SDL_DisplayMode :=
  (List.range P.SDL_GetNumDisplayModes.toNat).findSome? fun i =>
    match P.SDL_GetDisplayMode (i : Int) with
    | some mode =>
      if mode.w = width ∧ mode.h = height ∧ P.SDL_BITSPERPIXEL mode.format = bpp then some mode
      else none
    | none => none

/-- The function `VID_ValidMode`. -/
def VID_ValidMode (P : SDL σ) (cv : Cvars) (width height bpp : Int) (fullscreen : Bool) : Bool :=
  -- ignore width / height / bpp if vid_desktopfullscreen is enabled
  if fullscreen && cv.vid_desktopfullscreen != 0 then true
  else if width < 320 then false
  else if height < 200 then false
  else
    let bpp := if fullscreen && (VID_SDL2_GetDisplayMode P width height bpp).isNone then 0 else bpp
    if bpp = 16 then true
    else if bpp = 24 then true
    else if bpp = 32 then true
    else false

/-! ## Commands on the platform

Each wrapper performs one SDL call on the platform state and records it. -/

/-- Perform `SDL_GL_SetAttribute(attr, value)`. -/
def VidState.SDL_GL_SetAttribute (s : VidState σ) (P : SDL σ) (attr : SDL_GLattr) (value : Int) :
    VidState σ :=
  emit { s with sdl := P.SDL_GL_SetAttribute s.sdl attr value } (.SDL_GL_SetAttribute attr value)

/-- Perform `draw_context = SDL_CreateWindow (caption, .., width, height, flags)`. -/
def VidState.SDL_CreateWindow (s : VidState σ) (P : SDL σ) (width height : Int) (flags : Nat) :
    VidState σ :=
  emit { s with sdl := (P.SDL_CreateWindow s.sdl width height flags).1,
                draw_context := (P.SDL_CreateWindow s.sdl width height flags).2 }
    (.SDL_CreateWindow width height flags)

/-- Perform `SDL_SetWindowFullscreen (draw_context, flags)`; the second component is the
return code. -/
def VidState.SDL_SetWindowFullscreen (s : VidState σ) (P : SDL σ) (flags : Nat) :
    VidState σ × Int :=
  (emit { s with sdl := (P.SDL_SetWindowFullscreen s.sdl flags).1 } (.SDL_SetWindowFullscreen flags),
   (P.SDL_SetWindowFullscreen s.sdl flags).2)

/-- Perform `SDL_SetWindowSize (draw_context, width, height)`. -/
def VidState.SDL_SetWindowSize (s : VidState σ) (P : SDL σ) (width height : Int) : VidState σ :=
  emit { s with sdl := P.SDL_SetWindowSize s.sdl width height } (.SDL_SetWindowSize width height)

/-- Perform `SDL_SetWindowPosition (draw_context, SDL_WINDOWPOS_CENTERED, SDL_WINDOWPOS_CENTERED)`. -/
def VidState.SDL_SetWindowPosition (s : VidState σ) (P : SDL σ) : VidState σ :=
  emit { s with sdl := P.SDL_SetWindowPosition s.sdl } .SDL_SetWindowPosition

/-- Perform `SDL_SetWindowDisplayMode (draw_context, mode)`. -/
def VidState.SDL_SetWindowDisplayMode (s : VidState σ) (P : SDL σ) (mode : Option SDL_DisplayMode) :
    VidState σ :=
  emit { s with sdl := P.SDL_SetWindowDisplayMode s.sdl mode } (.SDL_SetWindowDisplayMode mode)

/-- Perform `SDL_ShowWindow (draw_context)`. -/
def VidState.SDL_ShowWindow (s : VidState σ) (P : SDL σ) : VidState σ :=
  emit { s with sdl := P.SDL_ShowWindow s.sdl } .SDL_ShowWindow

/-- Perform `gl_context = SDL_GL_CreateContext(draw_context)`. -/
def VidState.SDL_GL_CreateContext (s : VidState σ) (P : SDL σ) : VidState σ :=
  emit { s with sdl := (P.SDL_GL_CreateContext s.sdl).1,
                gl_context := (P.SDL_GL_CreateContext s.sdl).2 } .SDL_GL_CreateContext

/-- Perform `SDL_GL_SetSwapInterval (interval)`; the second component is the return code. -/
def VidState.SDL_GL_SetSwapInterval (s : VidState σ) (P : SDL σ) (interval : Int) :
    VidState σ × Int :=
  (emit { s with sdl := (P.SDL_GL_SetSwapInterval s.sdl interval).1 }
    (.SDL_GL_SetSwapInterval interval),
   (P.SDL_GL_SetSwapInterval s.sdl interval).2)

/-! ## Integer helpers -/

/-- The value of `x & 0xFFFFFFF8` for an `int x`: the operand is converted to
`unsigned` (32 bits), masked, and stored back into an `int`. -/
def and_FFFFFFF8 (x : Int) : Int :=
  let u : Nat := (x % 4294967296).toNat &&& 0xFFFFFFF8
  if u < 2147483648 then (u : Int) else (u : Int) - 4294967296

/-- A product of two `int`s, wrapped to 32 bits. -/
def mul_int (a b : Int) : Int :=
  let u : Nat := ((a * b) % 4294967296).toNat
  if u < 2147483648 then (u : Int) else (u : Int) - 4294967296

/-- Modelled from the spec: the macro `CLAMP(_minval, x, _maxval)` comes from
`q_stdinc.h`, which is not part of the sources; it limits `x` to the range
from `_minval` to `_maxval`, testing the lower bound first. -/
def CLAMP (minval x maxval : Int) : Int :=
  if x < minval then minval else if x > maxval then maxval else x

/-! ## `VID_SetMode` -/

/-- The part of `VID_SetMode` that pauses audio and sets the GL attributes
(from `CDAudio_Pause ()` to the `SDL_GL_MULTISAMPLESAMPLES` attribute). -/
def VID_SetMode_attributes (P : SDL σ) (s : VidState σ) (bpp : Int) : VidState σ :=
  let s := emit s .CDAudio_Pause
  let s := emit s .BGM_Pause
  /- z-buffer depth -/
  let depthbits : Int := if bpp = 16 then 16 else 24
  let stencilbits : Int := if bpp = 16 then 0 else 8
  let s := s.SDL_GL_SetAttribute P .SDL_GL_DEPTH_SIZE depthbits
  let s := s.SDL_GL_SetAttribute P .SDL_GL_STENCIL_SIZE stencilbits
  /- fsaa -/
  let s := s.SDL_GL_SetAttribute P .SDL_GL_MULTISAMPLEBUFFERS (if s.fsaa > 0 then 1 else 0)
  s.SDL_GL_SetAttribute P .SDL_GL_MULTISAMPLESAMPLES s.fsaa

/-- The part of `VID_SetMode` under "Create the window if needed, hidden". -/
def VID_SetMode_window (P : SDL σ) (s : VidState σ) (width height : Int) :
    Except Fatal (VidState σ) :=
  if !s.draw_context then
    let flags := P.SDL_WINDOW_OPENGL ||| P.SDL_WINDOW_HIDDEN
    let s := s.SDL_CreateWindow P width height flags
    let s :=
      if !s.draw_context then -- scale back fsaa
        let s := s.SDL_GL_SetAttribute P .SDL_GL_MULTISAMPLEBUFFERS 0
        let s := s.SDL_GL_SetAttribute P .SDL_GL_MULTISAMPLESAMPLES 0
        s.SDL_CreateWindow P width height flags
      else s
    let s :=
      if !s.draw_context then -- scale back SDL_GL_DEPTH_SIZE
        let s := s.SDL_GL_SetAttribute P .SDL_GL_DEPTH_SIZE 16
        s.SDL_CreateWindow P width height flags
      else s
    let s :=
      if !s.draw_context then -- scale back SDL_GL_STENCIL_SIZE
        let s := s.SDL_GL_SetAttribute P .SDL_GL_STENCIL_SIZE 0
        s.SDL_CreateWindow P width height flags
      else s
    if !s.draw_context then .error .couldnt_create_window
    else .ok s
  else .ok s

/-- The step of `VID_SetMode` under "Ensure the window is not fullscreen". -/
def VID_SetMode_unfullscreen (P : SDL σ) (s : VidState σ) : Except Fatal (VidState σ) :=
  if VID_GetFullscreen P s then
    if (s.SDL_SetWindowFullscreen P 0).2 != 0 then .error .couldnt_set_fullscreen_state
    else .ok (s.SDL_SetWindowFullscreen P 0).1
  else .ok s

/-- The step of `VID_SetMode` under "Set window size and display mode". -/
def VID_SetMode_size (P : SDL σ) (s : VidState σ) (width height bpp : Int) : VidState σ :=
  let s := s.SDL_SetWindowSize P width height
  let s := s.SDL_SetWindowPosition P
  s.SDL_SetWindowDisplayMode P (VID_SDL2_GetDisplayMode P width height bpp)

/-- The step of `VID_SetMode` under "Make window fullscreen if needed". -/
def VID_SetMode_fullscreen (P : SDL σ) (s : VidState σ) (fullscreen : Bool) :
    Except Fatal (VidState σ) :=
  if fullscreen then
    let flags := if s.cv.vid_desktopfullscreen != 0 then P.SDL_WINDOW_FULLSCREEN_DESKTOP
      else P.SDL_WINDOW_FULLSCREEN
    if (s.SDL_SetWindowFullscreen P flags).2 != 0 then .error .couldnt_set_fullscreen_state
    else .ok (s.SDL_SetWindowFullscreen P flags).1
  else .ok s

/-- The step of `VID_SetMode` under "Create GL context if needed". -/
def VID_SetMode_context (P : SDL σ) (s : VidState σ) : Except Fatal (VidState σ) :=
  if !s.gl_context then
    let s := s.SDL_GL_CreateContext P
    if !s.gl_context then .error .couldnt_create_GL_context
    else .ok s
  else .ok s

/-- The step of `VID_SetMode` that sets the swap interval and `gl_swap_control`. -/
def VID_SetMode_swap (P : SDL σ) (s : VidState σ) : VidState σ :=
  let s := { s with gl_swap_control := true }
  let r := s.SDL_GL_SetSwapInterval P (if s.cv.vid_vsync != 0 then 1 else 0)
  if r.2 = -1 then { r.1 with gl_swap_control := false } else r.1

/-- The function `ClearAllStates`. -/
def ClearAllStates (s : VidState σ) : VidState σ :=
  emit (emit s .Key_ClearStates) .IN_ClearStates

/-- The tail of `VID_SetMode`, from `vid.width = VID_GetCurrentWidth()` to
`vid_changed = false`; `temp` is the saved `scr_disabled_for_loading`. -/
def VID_SetMode_readback (P : SDL σ) (s : VidState σ) (temp : Int) : Except Fatal (VidState σ) :=
  let width := VID_GetCurrentWidth P s
  let height := VID_GetCurrentHeight P s
  let conwidth := and_FFFFFFF8 width
  if width = 0 then .error .divide_by_zero
  else
    let conheight := Int.tdiv (mul_int conwidth height) width
    let s := { s with vid := { s.vid with width := width, height := height, conwidth := conwidth,
                                          conheight := conheight, numpages := 2 } }
    -- read the obtained z-buffer depth
    let depthbits := (P.SDL_GL_GetAttribute s.sdl .SDL_GL_DEPTH_SIZE).getD 0
    -- read obtained fsaa samples
    let fsaa_obtained := (P.SDL_GL_GetAttribute s.sdl .SDL_GL_MULTISAMPLESAMPLES).getD 0
    -- read stencil bits
    let s := { s with gl_stencilbits := (P.SDL_GL_GetAttribute s.sdl .SDL_GL_STENCIL_SIZE).getD 0 }
    let s := { s with modestate := if VID_GetFullscreen P s then .MS_FULLSCREEN else .MS_WINDOWED }
    let s := emit s .CDAudio_Resume
    let s := emit s .BGM_Resume
    let s := { s with scr_disabled_for_loading := temp }
    -- fix the leftover Alt from any Alt-Tab or the like that switched us away
    let s := ClearAllStates s
    let s := emit s (.Con_SafePrintf_initialized (VID_GetCurrentWidth P s) (VID_GetCurrentHeight P s)
      (VID_GetCurrentBPP P s) depthbits fsaa_obtained)
    let s := { s with vid := { s.vid with recalc_refdef := 1 } }
    -- no pending changes
    .ok { s with vid_changed := false }

/-- The function `VID_SetMode`.  The call itself is recorded first; the body then
runs the steps above in the order of the source. -/
def VID_SetMode (P : SDL σ) (s : VidState σ) (width height bpp : Int) (fullscreen : Bool) :
    Except Fatal (VidState σ) :=
  let s := emit s (.VID_SetMode width height bpp fullscreen)
  -- so Con_Printfs don't mess us up by forcing vid and snd updates
  let temp := s.scr_disabled_for_loading
  let s := { s with scr_disabled_for_loading := 1 }
  let s := VID_SetMode_attributes P s bpp
  match VID_SetMode_window P s width height with
  | .error e => .error e
  | .ok s =>
    match VID_SetMode_unfullscreen P s with
    | .error e => .error e
    | .ok s =>
      let s := VID_SetMode_size P s width height bpp
      match VID_SetMode_fullscreen P s fullscreen with
      | .error e => .error e
      | .ok s =>
        let s := s.SDL_ShowWindow P
        match VID_SetMode_context P s with
        | .error e => .error e
        | .ok s =>
          let s := VID_SetMode_swap P s
          VID_SetMode_readback P s temp

/-! ## Resync, restart, test -/

/-- The function `VID_SyncCvars`: set vid cvars to match current video mode. -/
def VID_SyncCvars (P : SDL σ) (s : VidState σ) : VidState σ :=
  let s :=
    if s.draw_context then
      let s :=
        if !VID_GetDesktopFullscreen P s then
          let s := Cvar_SetValueQuick s .vid_width (VID_GetCurrentWidth P s)
          Cvar_SetValueQuick s .vid_height (VID_GetCurrentHeight P s)
        else s
      let s := Cvar_SetValueQuick s .vid_bpp (VID_GetCurrentBPP P s)
      let s := Cvar_SetQuick s .vid_fullscreen (if VID_GetFullscreen P s then 1 else 0)
      Cvar_SetQuick s .vid_vsync (if VID_GetVSync P s then 1 else 0)
    else s
  { s with vid_changed := false }

/-- The five teardown calls of `VID_Restart`, in source order. -/
def teardown_hooks : List Event :=
  [.TexMgr_DeleteTextureObjects, .GLSLGamma_DeleteTexture, .R_DeleteShaders,
   .GL_DeleteBModelVertexBuffer, .GLMesh_DeleteVertexBuffers]

/-- The seven recreation calls of `VID_Restart`, in source order. -/
def recreation_hooks : List Event :=
  [.GL_Init, .TexMgr_ReloadImages, .GL_BuildBModelVertexBuffer, .GLMesh_LoadVertexBuffers,
   .GL_SetupState, .Fog_SetupState, .TexMgr_RecalcWarpImageSize]

/-- The part of `VID_Restart` under "conwidth and conheight need to be recalculated". -/
def VID_Restart_console (s : VidState σ) : Except Fatal (VidState σ) :=
  let conwidth : Int :=
    if s.scr_conwidth > 0 then s.scr_conwidth
    else if s.scr_conscale > 0 then Int.tdiv s.vid.width s.scr_conscale
    else s.vid.width
  let conwidth := CLAMP 320 conwidth s.vid.width
  let conwidth := and_FFFFFFF8 conwidth
  if s.vid.width = 0 then .error .divide_by_zero
  else
    .ok { s with vid := { s.vid with conwidth := conwidth,
                                     conheight := Int.tdiv (mul_int conwidth s.vid.height) s.vid.width } }

/-- The part of `VID_Restart` under "update mouse grab". -/
def VID_Restart_grab (s : VidState σ) : VidState σ :=
  if s.key_dest = .key_console ∨ s.key_dest = .key_menu then
    if s.modestate = .MS_WINDOWED then emit s (.IN_Deactivate true)
    else if s.modestate = .MS_FULLSCREEN then emit s .IN_Activate
    else s
  else s

/-- The function `VID_Restart`: change video modes on the fly. -/
def VID_Restart (P : SDL σ) (s : VidState σ) : Except Fatal (VidState σ) :=
  if s.vid_locked || !s.vid_changed then .ok s
  else
    let width := s.cv.vid_width
    let height := s.cv.vid_height
    let bpp := s.cv.vid_bpp
    let fullscreen : Bool := s.cv.vid_fullscreen != 0
    -- validate new mode
    if !VID_ValidMode P s.cv width height bpp fullscreen then
      .ok (emit s (.Con_Printf_not_a_valid_mode width height bpp fullscreen))
    else
      let s := emit s .TexMgr_DeleteTextureObjects
      let s := emit s .GLSLGamma_DeleteTexture
      let s := emit s .R_DeleteShaders
      let s := emit s .GL_DeleteBModelVertexBuffer
      let s := emit s .GLMesh_DeleteVertexBuffers
      -- set new mode
      match VID_SetMode P s width height bpp fullscreen with
      | .error e => .error e
      | .ok s =>
        let s := emit s .GL_Init
        let s := emit s .TexMgr_ReloadImages
        let s := emit s .GL_BuildBModelVertexBuffer
        let s := emit s .GLMesh_LoadVertexBuffers
        let s := emit s .GL_SetupState
        let s := emit s .Fog_SetupState
        -- warpimages needs to be recalculated
        let s := emit s .TexMgr_RecalcWarpImageSize
        match VID_Restart_console s with
        | .error e => .error e
        | .ok s =>
          -- keep cvars in line with actual mode
          let s := VID_SyncCvars P s
          .ok (VID_Restart_grab s)

/-- The function `VID_Test`: like `vid_restart`, but asks for confirmation after
switching modes.  `keep` is the answer returned by `SCR_ModalMessage`. -/
def VID_Test (P : SDL σ) (keep : Bool) (s : VidState σ) : Except Fatal (VidState σ) :=
  if s.vid_locked || !s.vid_changed then .ok s
  else
    -- now try the switch
    let old_width := VID_GetCurrentWidth P s
    let old_height := VID_GetCurrentHeight P s
    let old_bpp := VID_GetCurrentBPP P s
    let old_fullscreen : Bool := VID_GetFullscreen P s
    match VID_Restart P s with
    | .error e => .error e
    | .ok s =>
      -- pop up confirmation dialoge
      let s := emit s .SCR_ModalMessage
      if !keep then
        -- revert cvars and mode
        let s := Cvar_SetValueQuick s .vid_width old_width
        let s := Cvar_SetValueQuick s .vid_height old_height
        let s := Cvar_SetValueQuick s .vid_bpp old_bpp
        let s := Cvar_SetQuick s .vid_fullscreen (if old_fullscreen then 1 else 0)
        VID_Restart P s
      else .ok s

/-- The function `VID_Unlock`. -/
def VID_Unlock (P : SDL σ) (s : VidState σ) : VidState σ :=
  VID_SyncCvars P { s with vid_locked := false }

/-! ## Fullscreen toggle -/

/-- The code of `VID_Toggle` at its label `vrestart`: flip the `vid_fullscreen`
cvar and queue `vid_restart`. -/
def VID_Toggle_vrestart (P : SDL σ) (s : VidState σ) : VidState σ :=
  let s := Cvar_SetQuick s .vid_fullscreen (if VID_GetFullscreen P s then 0 else 1)
  emit s .Cbuf_AddText_vid_restart

/-- The function `VID_Toggle`, called by the alt-return key binding.  The
"update mouse grab" lines are the same as in `VID_Restart`. -/
def VID_Toggle (P : SDL σ) (s : VidState σ) : VidState σ :=
  let s := emit s .S_ClearBuffer
  if !s.vid_toggle_works then VID_Toggle_vrestart P s
  else if s.gl_vbo_able then
    VID_Toggle_vrestart P { s with vid_toggle_works := false }
  else
    let flags : Nat :=
      if !VID_GetFullscreen P s then
        (if s.cv.vid_desktopfullscreen != 0 then P.SDL_WINDOW_FULLSCREEN_DESKTOP
          else P.SDL_WINDOW_FULLSCREEN)
      else 0
    let toggleWorked : Bool := (s.SDL_SetWindowFullscreen P flags).2 == 0
    let s := (s.SDL_SetWindowFullscreen P flags).1
    if toggleWorked then
      let s := emit s .Sbar_Changed -- Sbar seems to need refreshing
      let s := { s with modestate := if VID_GetFullscreen P s then .MS_FULLSCREEN
                                     else .MS_WINDOWED }
      let s := VID_SyncCvars P s
      -- update mouse grab
      VID_Restart_grab s
    else
      let s := { s with vid_toggle_works := false }
      let s := emit s .Con_DPrintf_toggle_failed
      VID_Toggle_vrestart P s

/-! ## Mode catalog, menu lists, describe-modes -/

/-- The constant `MAX_MODE_LIST`. -/
def MAX_MODE_LIST : Nat := 600

/-- The constant `MAX_BPPS_LIST`. -/
def MAX_BPPS_LIST : Nat := 5

/-- The function `VID_InitModelist`: the catalog is filled from the display
modes, in their order, until `MAX_MODE_LIST` entries are stored. -/
def VID_InitModelist (P : SDL σ) (s : VidState σ) : VidState σ :=
  { s with modelist :=
      (List.range P.SDL_GetNumDisplayModes.toNat).foldl (fun (list : List vmode_t) i =>
        if list.length ≥ MAX_MODE_LIST then list -- break
        else
          match P.SDL_GetDisplayMode (i : Int) with
          | some mode => list ++ [⟨mode.w, mode.h, P.SDL_BITSPERPIXEL mode.format⟩]
          | none => list) [] }

/-- One iteration of the outer loop of `VID_Menu_Init`: `j` is where the inner
loop stops, the entry is appended when that is the end of the list. -/
def VID_Menu_Init_step (menu : List vid_menu_mode) (m : vmode_t) : List vid_menu_mode :=
  let w := m.width
  let h := m.height
  let j := menu.findIdx fun e => e.width == w && e.height == h
  if j = menu.length then menu ++ [⟨w, h⟩] else menu

/-- The function `VID_Menu_Init`. -/
def VID_Menu_Init (s : VidState σ) : VidState σ :=
  { s with vid_menu_modes := s.modelist.foldl VID_Menu_Init_step s.vid_menu_modes }

/-- One iteration of the first loop of `VID_Menu_RebuildBppList`.  The loop
leaves at the first iteration that finds the list full; since the list never
shrinks, that is the same as doing nothing in that and every later iteration. -/
def VID_Menu_RebuildBppList_step (vid_width vid_height : Int) (bpps : List Int) (m : vmode_t) :
    List Int :=
  if bpps.length ≥ MAX_BPPS_LIST then bpps -- break
  -- bpp list is limited to bpps available with current width/height
  else if m.width ≠ vid_width ∨ m.height ≠ vid_height then bpps -- continue
  else
    let b := m.bpp
    let j := bpps.findIdx fun x => x == b
    if j = bpps.length then bpps ++ [b] else bpps

/-- The function `VID_Menu_RebuildBppList`: regenerates the bpp list based on
the current `vid_width` and `vid_height`.  `modelist` is a zero-initialised
static array, so `modelist[0].bpp` reads 0 while the catalog is empty. -/
def VID_Menu_RebuildBppList (s : VidState σ) : VidState σ :=
  let bpps := s.modelist.foldl
    (VID_Menu_RebuildBppList_step s.cv.vid_width s.cv.vid_height) []
  let s := { s with vid_menu_bpps := bpps }
  -- if there are no valid fullscreen bpps for this width/height, just pick one
  if bpps.length = 0 then
    Cvar_SetValueQuick s .vid_bpp ((s.modelist.head?.map fun m => m.bpp).getD 0)
  else
    -- if vid_bpp is not in the new list, change vid_bpp
    let i := bpps.findIdx fun x => x == s.cv.vid_bpp
    if i = bpps.length then Cvar_SetValueQuick s .vid_bpp (bpps.getD 0 0) else s

/-- The index arithmetic shared by `VID_Menu_ChooseNextMode` and
`VID_Menu_ChooseNextBpp`: `found` is where the search loop stopped, `n` the
length of the list. -/
def VID_Menu_next_index (found n dir : Int) : Int :=
  if found = n then 0 -- can't find it in list
  else
    let i := found + dir
    if i ≥ n then 0
    else if i < 0 then n - 1
    else i

/-- The function `VID_Menu_ChooseNextMode`: chooses the next resolution in
order, then updates the `vid_width` and `vid_height` cvars, then updates the
bpp list. -/
def VID_Menu_ChooseNextMode (s : VidState σ) (dir : Int) : VidState σ :=
  if s.vid_menu_modes.length ≠ 0 then
    let found := s.vid_menu_modes.findIdx fun e =>
      e.width == s.cv.vid_width && e.height == s.cv.vid_height
    let i := VID_Menu_next_index found s.vid_menu_modes.length dir
    let entry := s.vid_menu_modes.getD i.toNat ⟨0, 0⟩
    let s := Cvar_SetValueQuick s .vid_width entry.width
    let s := Cvar_SetValueQuick s .vid_height entry.height
    VID_Menu_RebuildBppList s
  else s

/-- The function `VID_Menu_ChooseNextBpp`: chooses the next bpp in order, then
updates the `vid_bpp` cvar. -/
def VID_Menu_ChooseNextBpp (s : VidState σ) (dir : Int) : VidState σ :=
  if s.vid_menu_bpps.length ≠ 0 then
    let found := s.vid_menu_bpps.findIdx fun x => x == s.cv.vid_bpp
    let i := VID_Menu_next_index found s.vid_menu_bpps.length dir
    Cvar_SetValueQuick s .vid_bpp (s.vid_menu_bpps.getD i.toNat 0)
  else s

/-- The loop variables of `VID_DescribeModes_f`: the entry printed last, the
number of entries printed and the console calls made so far. -/
structure DescribeModes where
  last : vmode_t
  count : Int
  out : List Event
  deriving DecidableEq, Repr

/-- One iteration of the loop of `VID_DescribeModes_f`. -/
def VID_DescribeModes_step (d : DescribeModes) (m : vmode_t) : DescribeModes :=
  if d.last.width ≠ m.width ∨ d.last.height ≠ m.height ∨ d.last.bpp ≠ m.bpp then
    let out := if d.count > 0 then d.out ++ [.Con_SafePrintf_newline] else d.out
    { last := m, count := d.count + 1,
      out := out ++ [.Con_SafePrintf_mode m.width m.height m.bpp] }
  else d

/-- The loop of `VID_DescribeModes_f`, from `lastwidth = lastheight = lastbpp = count = 0`. -/
def VID_DescribeModes_loop (modelist : List vmode_t) : DescribeModes :=
  modelist.foldl VID_DescribeModes_step ⟨⟨0, 0, 0⟩, 0, []⟩

/-- The function `VID_DescribeModes_f`, the command `vid_describemodes`. -/
def VID_DescribeModes_f (s : VidState σ) : VidState σ :=
  let d := VID_DescribeModes_loop s.modelist
  { s with trace := s.trace ++ d.out ++ [.Con_Printf_modes d.count] }

/-- The mode lines of a list of console calls, in order. -/
def printed_modes : List Event → List vmode_t
  | [] => []
  | .Con_SafePrintf_mode w h b :: t => ⟨w, h, b⟩ :: printed_modes t
  | _ :: t => printed_modes t

/-! ## An in-memory platform

A window system that does what it is asked: used to run the functions on
concrete inputs. -/

/-- The state of the in-memory platform: the one window and the GL attributes. -/
structure Win where
  w : Int
  h : Int
  format : Nat
  flags : Nat
  swap : Int
  depth : Int
  stencil : Int
  msbuffers : Int
  mssamples : Int
  deriving DecidableEq, Repr

/-- The in-memory platform over a fixed list of display modes.  Pixel formats
are numbered by their bits per pixel; every command succeeds and stores what
it was given. -/
def memSDL (modes : List SDL_DisplayMode) : SDL Win where
  SDL_WINDOW_FULLSCREEN := 0x1
  SDL_WINDOW_FULLSCREEN_DESKTOP := 0x1001
  SDL_WINDOW_OPENGL := 0x2
  SDL_WINDOW_HIDDEN := 0x8
  SDL_BITSPERPIXEL := fun f => (f : Int)
  SDL_GetNumDisplayModes := (modes.length : Int)
  SDL_GetDisplayMode := fun i => modes.get? i.toNat
  SDL_GetWindowSize := fun p => (p.w, p.h)
  SDL_GetWindowPixelFormat := fun p => p.format
  SDL_GetWindowFlags := fun p => p.flags
  SDL_GL_GetSwapInterval := fun p => p.swap
  SDL_GL_GetAttribute := fun p a =>
    match a with
    | .SDL_GL_DEPTH_SIZE => some p.depth
    | .SDL_GL_STENCIL_SIZE => some p.stencil
    | .SDL_GL_MULTISAMPLEBUFFERS => some p.msbuffers
    | .SDL_GL_MULTISAMPLESAMPLES => some p.mssamples
  SDL_GL_SetAttribute := fun p a v =>
    match a with
    | .SDL_GL_DEPTH_SIZE => { p with depth := v }
    | .SDL_GL_STENCIL_SIZE => { p with stencil := v }
    | .SDL_GL_MULTISAMPLEBUFFERS => { p with msbuffers := v }
    | .SDL_GL_MULTISAMPLESAMPLES => { p with mssamples := v }
  SDL_CreateWindow := fun p w h f => ({ p with w := w, h := h, flags := f }, true)
  SDL_SetWindowFullscreen := fun p f => ({ p with flags := f }, 0)
  SDL_SetWindowSize := fun p w h => { p with w := w, h := h }
  SDL_SetWindowPosition := fun p => p
  SDL_SetWindowDisplayMode := fun p m =>
    match m with
    | some m => { p with format := m.format }
    | none => p
  SDL_ShowWindow := fun p => p
  SDL_GL_CreateContext := fun p => (p, true)
  SDL_GL_SetSwapInterval := fun p n => ({ p with swap := n }, 0)

/-- A platform that reports no display mode at all. -/
def noModes : SDL Win := memSDL []

/-- A platform whose display offers 800x600x16, 640x480x32 and 640x480x16. -/
def someModes : SDL Win :=
  memSDL [⟨16, 800, 600, 60⟩, ⟨32, 640, 480, 60⟩, ⟨16, 640, 480, 60⟩]

/-- The session state with an 800x600x16 window open, windowed, the cvars in
line with it and nothing pending; `cv` and `win` are then varied by the examples. -/
def liveState (cv : Cvars) (win : Win) (locked changed : Bool) : VidState Win where
  sdl := win
  cv := cv
  draw_context := true
  gl_context := true
  vid_locked := locked
  vid_changed := changed
  vid_initialized := true
  fsaa := 0
  vid := ⟨win.w, win.h, and_FFFFFFF8 win.w, Int.tdiv (mul_int (and_FFFFFFF8 win.w) win.h) win.w, 2, 1⟩
  modestate := .MS_WINDOWED
  gl_swap_control := true
  gl_vbo_able := false
  gl_stencilbits := 0
  scr_disabled_for_loading := 0
  key_dest := .key_menu
  scr_conwidth := 0
  scr_conscale := 1
  modelist := []
  vid_menu_modes := []
  vid_menu_bpps := []
  vid_toggle_works := false
  trace := []

/-- An 800x600 window with 16 bits per pixel, not fullscreen, swap interval 0. -/
def win800 : Win := ⟨800, 600, 16, 0, 0, 16, 0, 0, 0⟩

/-- The cvars asking for `width`x`height`x`bpp` with the given fullscreen flag,
vsync off, no antialiasing, desktop-fullscreen off. -/
def request (width height bpp fullscreen : Int) : Cvars :=
  ⟨fullscreen, width, height, bpp, 0, 0, 0⟩

/-! ## Trace vocabulary -/

/-- Whether an event is a call of `VID_SetMode`. -/
def Event.isModeSwitch : Event → Bool
  | .VID_SetMode _ _ _ _ => true
  | _ => false

/-- Events that are neither a call of `VID_SetMode` nor one of the twelve
teardown and recreation hooks. -/
def Event.internal (e : Event) : Bool :=
  !e.isModeSwitch && !teardown_hooks.contains e && !recreation_hooks.contains e

/-- The relation "`s'` is reached from `s` by work below the hooks": the cvars
and the lock are as in `s`, an existing window is still there, and the trace
of `s'` is that of `s` followed by internal events only. -/
structure Quiet (s s' : VidState σ) : Prop where
  cv : s'.cv = s.cv
  vid_locked : s'.vid_locked = s.vid_locked
  draw_context : s.draw_context = true → s'.draw_context = true
  trace : ∃ t, s'.trace = s.trace ++ t ∧ ∀ e ∈ t, e.internal = true

/-! ## Sample runs -/

/-- The state a run returned, or `s` when the run ended in a fatal error. -/
def returned (s : VidState σ) (r : Except Fatal (VidState σ)) : VidState σ :=
  match r with
  | .ok t => t
  | .error _ => s

/-- An unlocked session showing 800x600x16 windowed, with 640x480x32
fullscreen requested and pending. -/
def pending640 : VidState Win :=
  liveState (request 640 480 32 1) win800 false true

/-- An unlocked session showing 800x600x16 windowed, with 640x480x16
windowed and vsync requested and pending. -/
def pendingWindowed : VidState Win :=
  liveState ⟨0, 640, 480, 16, 1, 0, 0⟩ win800 false true

/-- The platform grants the mode `width`x`height`x`bpp` (fullscreen or not)
exactly: from every state, `VID_SetMode` with these arguments returns, and the
live surface then reports this width, height, depth and fullscreen flag. -/
def Grants (P : SDL σ) (width height bpp : Int) (fullscreen : Bool) : Prop :=
  ∀ s : VidState σ, ∃ s', VID_SetMode P s width height bpp fullscreen = .ok s' ∧
    VID_GetCurrentWidth P s' = width ∧ VID_GetCurrentHeight P s' = height ∧
    VID_GetCurrentBPP P s' = bpp ∧ VID_GetFullscreen P s' = fullscreen

/-- A platform whose display offers 640x480 with 8 and with 16 bits per pixel. -/
def lowColour : SDL Win :=
  memSDL [⟨8, 640, 480, 60⟩, ⟨16, 640, 480, 60⟩]

/-- An unlocked session showing 640x480x8 windowed (the mode `VID_Init` falls
back to on an 8-bit desktop), with 640x480x16 windowed requested and pending. -/
def pendingLowColour : VidState Win :=
  liveState (request 640 480 16 0) ⟨640, 480, 8, 0, 0, 24, 8, 0, 0⟩ false true

/-- An unlocked session showing 800x600x16 windowed, with 1024x768x32
fullscreen, a mode the display of `someModes` does not list, requested and
pending. -/
def pendingInvalid : VidState Win :=
  liveState (request 1024 768 32 1) win800 false true

/-- The relation between console size and surface size in a `vid` record:
`conwidth` is a multiple of 8 between 320 and `width`; `conheight` is
`conwidth * height / width` in C `int` arithmetic, which is the exact quotient
whenever the product fits in an `int`; and `conheight` does not exceed `height`. -/
def console_resolution_ok (v : viddef_t) : Prop :=
  8 ∣ v.conwidth ∧ 320 ≤ v.conwidth ∧ v.conwidth ≤ v.width ∧
  v.conheight = Int.tdiv (mul_int v.conwidth v.height) v.width ∧
  (v.conwidth * v.height < 2147483648 → v.conheight = v.conwidth * v.height / v.width) ∧
  v.conheight ≤ v.height

/-- In a `vid` record, `conwidth` is the largest multiple of 8 not exceeding `width`. -/
def conwidth_is_masked_width (v : viddef_t) : Prop :=
  v.conwidth = v.width - v.width % 8 ∧ ∀ m : Int, 8 ∣ m → m ≤ v.width → m ≤ v.conwidth

/-! ## Vocabulary for the fullscreen toggle -/

/-- The flags `VID_Toggle` hands to `SDL_SetWindowFullscreen` when it flips the
surface directly. -/
def VID_Toggle_flags (P : SDL σ) (s : VidState σ) : Nat :=
  if !VID_GetFullscreen P s then
    (if s.cv.vid_desktopfullscreen != 0 then P.SDL_WINDOW_FULLSCREEN_DESKTOP
      else P.SDL_WINDOW_FULLSCREEN)
  else 0

/-- A call of `VID_Toggle` in `s` tries the direct fullscreen flip and the
platform rejects it: the capability flag is set, vertex buffers are not in
use, and `SDL_SetWindowFullscreen` does not return 0. -/
def flip_rejected (P : SDL σ) (s : VidState σ) : Prop :=
  s.vid_toggle_works = true ∧ s.gl_vbo_able = false ∧
  (P.SDL_SetWindowFullscreen s.sdl (VID_Toggle_flags P s)).2 ≠ 0

/-- The step from `s` to `s'` is the full-restart path of `VID_Toggle`: the
outgoing calls are `S_ClearBuffer` and the queueing of `vid_restart` and no
other (so no direct flip on the surface), the platform state is untouched,
and the cvars are those of `s` with `vid_fullscreen` set to the negation of
the live fullscreen state. -/
def full_restart_path (P : SDL σ) (s s' : VidState σ) : Prop :=
  s'.trace = s.trace ++ [.S_ClearBuffer, .Cbuf_AddText_vid_restart] ∧ s'.sdl = s.sdl ∧
  s'.cv = s.cv.set .vid_fullscreen (if VID_GetFullscreen P s then 0 else 1) ∧
  s'.cv.vid_fullscreen = (if VID_GetFullscreen P s then 0 else 1)

/-- One step of a session as far as the capability flag is concerned: a call of
`VID_Toggle`, or anything else, which leaves the function-local flag alone. -/
def toggle_or_other (P : SDL σ) (s s' : VidState σ) : Prop :=
  s' = VID_Toggle P s ∨ s'.vid_toggle_works = s.vid_toggle_works

/-- An in-memory platform that rejects every `SDL_SetWindowFullscreen`. -/
def noFlip : SDL Win :=
  { memSDL [] with SDL_SetWindowFullscreen := fun p _ => (p, -1) }

/-- A session showing 800x600x16 windowed in which the direct flip has not
been tried yet and the capability flag is (hypothetically) set. -/
def flipUntried : VidState Win :=
  { liveState (request 800 600 16 0) win800 false false with vid_toggle_works := true }

/-! ## Vocabulary for the menu lists -/

/-- The distinct elements of a list, in order of first occurrence: the head,
then the distinct elements of the tail other than the head. -/
def first_occurrences {α : Type} [DecidableEq α] : List α → List α
  | [] => []
  | x :: xs => x :: (first_occurrences xs).filter (fun y => y ≠ x)

/-- The (width, height) pairs of a mode catalog, entry by entry. -/
def menu_sizes (modelist : List vmode_t) : List vid_menu_mode :=
  modelist.map fun m => ⟨m.width, m.height⟩

/-- A catalog with two sizes, in three and two depths, interleaved. -/
def sampleCatalog : List vmode_t :=
  [⟨800, 600, 32⟩, ⟨800, 600, 16⟩, ⟨640, 480, 32⟩, ⟨800, 600, 24⟩, ⟨640, 480, 16⟩]

/-- A session showing 800x600x16 windowed whose catalog is `sampleCatalog`;
the menu lists are still empty. -/
def menuSample : VidState Win :=
  { liveState (request 800 600 16 0) win800 false false with modelist := sampleCatalog }

/-- The depths of the catalog entries with the given width and height, entry
by entry. -/
def matching_depths (modelist : List vmode_t) (width height : Int) : List Int :=
  (modelist.filter fun m => m.width = width ∧ m.height = height).map fun m => m.bpp

/-- The session `menuSample` after `VID_Menu_Init` and `VID_Menu_RebuildBppList`:
the menu offers 800x600 and 640x480, and for 800x600 the depths 32, 16, 24. -/
def menuReady : VidState Win :=
  VID_Menu_RebuildBppList (VID_Menu_Init menuSample)

/-! ## Vocabulary for `vid_describemodes` -/

/-- The entries of a list that differ from the entry before them; `last` stands
before the first entry. -/
def adjacent_distinct (last : vmode_t) : List vmode_t → List vmode_t
  | [] => []
  | m :: t => if last ≠ m then m :: adjacent_distinct m t else adjacent_distinct last t

/-- Equal entries of the list stand next to each other: an entry followed by a
different one does not occur again further on. -/
def equal_entries_adjacent (l : List vmode_t) : Prop :=
  ∀ (l₁ : List vmode_t) (a b : vmode_t) (l₂ : List vmode_t),
    l = l₁ ++ a :: b :: l₂ → a ≠ b → a ∉ l₂

/-- A session whose catalog lists 800x600x16 again after 640x480x16. -/
def describeSplit : VidState Win :=
  { liveState (request 800 600 16 0) win800 false false with
    modelist := [⟨800, 600, 16⟩, ⟨640, 480, 16⟩, ⟨800, 600, 16⟩] }

/-- A session whose catalog lists 800x600x16 twice, then 640x480x16. -/
def describeGrouped : VidState Win :=
  { liveState (request 800 600 16 0) win800 false false with
    modelist := [⟨800, 600, 16⟩, ⟨800, 600, 16⟩, ⟨640, 480, 16⟩] }

/-! ## Vocabulary for window creation -/

/-- The GL attributes in force at a call of `SDL_CreateWindow`. -/
structure GLAttrs where
  depth : Int
  stencil : Int
  msbuffers : Int
  mssamples : Int
  deriving DecidableEq, Repr

/-- The attribute set after `SDL_GL_SetAttribute (attr, value)`. -/
def GLAttrs.set (a : GLAttrs) : SDL_GLattr → Int → GLAttrs
  | .SDL_GL_DEPTH_SIZE, v => { a with depth := v }
  | .SDL_GL_STENCIL_SIZE, v => { a with stencil := v }
  | .SDL_GL_MULTISAMPLEBUFFERS, v => { a with msbuffers := v }
  | .SDL_GL_MULTISAMPLESAMPLES, v => { a with mssamples := v }

/-- The attribute sets with which a trace attempts to create the window: one
entry per `SDL_CreateWindow` call, holding the values of the
`SDL_GL_SetAttribute` calls made before it (`a` where none was made). -/
def window_attempts (a : GLAttrs) : List Event → List GLAttrs
  | [] => []
  | .SDL_GL_SetAttribute attr v :: t => window_attempts (a.set attr v) t
  | .SDL_CreateWindow _ _ _ :: t => a :: window_attempts a t
  | _ :: t => window_attempts a t

/-- The four attribute sets of the fallback order: (depth 16 if bpp = 16 else
24, stencil 0 if bpp = 16 else 8, samples = fsaa), then the same with
multisampling disabled, then with depth 16, then with stencil 0. -/
def fallback_order (bpp fsaa : Int) : List GLAttrs :=
  let depth : Int := if bpp = 16 then 16 else 24
  let stencil : Int := if bpp = 16 then 0 else 8
  [⟨depth, stencil, if fsaa > 0 then 1 else 0, fsaa⟩,
   ⟨depth, stencil, 0, 0⟩,
   ⟨16, stencil, 0, 0⟩,
   ⟨16, 0, 0, 0⟩]

/-- The states after each of the four attempts to create the window, were
they all made: the first with the attributes as they are, then "retry
disabling multisampling", "retry with 16-bit depth buffer", "retry with
stencil disabled". -/
def fallback_attempts (P : SDL σ) (s : VidState σ) (width height : Int) : List (VidState σ) :=
  let flags := P.SDL_WINDOW_OPENGL ||| P.SDL_WINDOW_HIDDEN
  let a1 := s.SDL_CreateWindow P width height flags
  let a2 := ((a1.SDL_GL_SetAttribute P .SDL_GL_MULTISAMPLEBUFFERS 0).SDL_GL_SetAttribute P
    .SDL_GL_MULTISAMPLESAMPLES 0).SDL_CreateWindow P width height flags
  let a3 := (a2.SDL_GL_SetAttribute P .SDL_GL_DEPTH_SIZE 16).SDL_CreateWindow P width height flags
  let a4 := (a3.SDL_GL_SetAttribute P .SDL_GL_STENCIL_SIZE 0).SDL_CreateWindow P width height flags
  [a1, a2, a3, a4]

/-- The state in which `VID_SetMode` reaches "Create the window if needed":
the call is recorded, screen updates are disabled, audio is paused and the
four GL attributes are set. -/
def VID_SetMode_before_window (P : SDL σ) (s : VidState σ) (width height bpp : Int)
    (fullscreen : Bool) : VidState σ :=
  VID_SetMode_attributes P
    { emit s (.VID_SetMode width height bpp fullscreen) with scr_disabled_for_loading := 1 } bpp

/-- Whether an event is a call that takes part in creating the window. -/
def Event.isWindowCreation : Event → Bool
  | .SDL_GL_SetAttribute _ _ => true
  | .SDL_CreateWindow _ _ _ => true
  | _ => false

/-- The relation "`s'` is reached from `s` by the work of `VID_SetMode` after
the window exists": the capability flag of `VID_Toggle` is as in `s` and the
trace of `s'` is that of `s` followed by calls that take no part in creating
the window. -/
structure AfterWindow (s s' : VidState σ) : Prop where
  vid_toggle_works : s'.vid_toggle_works = s.vid_toggle_works
  trace : ∃ t, s'.trace = s.trace ++ t ∧ ∀ e ∈ t, e.isWindowCreation = false

/-- An in-memory platform that cannot create a multisampled window. -/
def noMultisample : SDL Win :=
  { memSDL [] with
    SDL_CreateWindow := fun p w h f =>
      if p.mssamples > 0 then (p, false) else ({ p with w := w, h := h, flags := f }, true) }

/-- A session at startup: no window, no GL context, 4x antialiasing asked for. -/
def noWindow : VidState Win :=
  { liveState (request 800 600 32 0) ⟨0, 0, 32, 0, 0, 0, 0, 0, 0⟩ false true with
    draw_context := false, gl_context := false, fsaa := 4, vid := ⟨0, 0, 0, 0, 0, 0⟩ }

/-- The states after each of the four attempts of a call of `VID_SetMode`,
were they all made. -/
def VID_SetMode_attempts (P : SDL σ) (s : VidState σ) (width height bpp : Int)
    (fullscreen : Bool) : List (VidState σ) :=
  fallback_attempts P (VID_SetMode_before_window P s width height bpp fullscreen) width height

/-! ## Startup -/

/-- A command-line parameter that takes a number: `present` is whether
`COM_CheckParm` finds it, `value` the `Q_atoi` of the argument after it, when
there is one (`p < com_argc-1`). -/
structure Parm where
  present : Bool
  value : Option Int
  deriving DecidableEq, Repr

/-- The number given for a parameter: what the code under `if (p && p < com_argc-1)` reads. -/
def Parm.arg (p : Parm) : Option Int :=
  if p.present then p.value else none

/-- The command line as `VID_Init` reads it; `window` stands for "-window" or
"-w", `fullscreen` for "-fullscreen" or "-f". -/
structure CommandLine where
  current : Bool
  width : Parm
  height : Parm
  bpp : Parm
  window : Bool
  fullscreen : Bool
  fsaa : Parm
  deriving DecidableEq, Repr

/-- Modelled from the spec: `CFG_ReadCvars` and `CFG_ReadCvarOverrides` come from
`cfgfile.c`, which is not part of the sources.  The requested configuration is
"sourced from persisted settings": each value found for one of the video cvars
is stored into that cvar. -/
def CFG_ReadCvars (s : VidState σ) (values : List (CvarId × Int)) : VidState σ :=
  values.foldl (fun s a => Cvar_SetQuick s a.1 a.2) s

/-- The part of `VID_Init` that chooses the mode to set, from the cvars and the
command line: `(width, height, bpp, fullscreen)`. -/
def VID_Init_mode (P : SDL σ) (desktop : SDL_DisplayMode) (args : CommandLine) (cv : Cvars) :
    Int × Int × Int × Bool :=
  let display_width := desktop.w
  let display_height := desktop.h
  let display_bpp := P.SDL_BITSPERPIXEL desktop.format
  let width := cv.vid_width
  let height := cv.vid_height
  let bpp := cv.vid_bpp
  let fullscreen : Bool := cv.vid_fullscreen != 0
  let m : Int × Int × Int × Bool :=
    if args.current then (display_width, display_height, display_bpp, true)
    else
      let wh : Int × Int :=
        match args.width.arg with
        | some v => (v, if !args.height.present then Int.tdiv (mul_int v 3) 4 else height)
        | none => (width, height)
      let wh : Int × Int :=
        match args.height.arg with
        | some v => (if !args.width.present then Int.tdiv (mul_int v 4) 3 else wh.1, v)
        | none => wh
      let bpp := match args.bpp.arg with
        | some v => v
        | none => bpp
      let fullscreen :=
        if args.window then false
        else if args.fullscreen then true
        else fullscreen
      (wh.1, wh.2, bpp, fullscreen)
  let m := if !VID_ValidMode P cv m.1 m.2.1 m.2.2.1 m.2.2.2 then
      (cv.vid_width, cv.vid_height, cv.vid_bpp, cv.vid_fullscreen != 0)
    else m
  if !VID_ValidMode P cv m.1 m.2.1 m.2.2.1 m.2.2.2 then (640, 480, display_bpp, false)
  else m

/-- The function `VID_Init`.  `desktop` is the mode `SDL_GetDesktopDisplayMode`
reports, `config` and `overrides` are the values found by `CFG_ReadCvars` and
`CFG_ReadCvarOverrides`, `args` is the command line. -/
def VID_Init (P : SDL σ) (desktop : SDL_DisplayMode) (config overrides : List (CvarId × Int))
    (args : CommandLine) (s : VidState σ) : Except Fatal (VidState σ) :=
  let display_bpp := P.SDL_BITSPERPIXEL desktop.format
  let s := Cvar_SetValueQuick s .vid_bpp display_bpp
  let s := CFG_ReadCvars s config
  let s := CFG_ReadCvars s overrides
  let s := VID_InitModelist P s
  let m := VID_Init_mode P desktop args s.cv
  let fsaa := match args.fsaa.arg with
    | some v => v
    | none => s.cv.vid_fsaa
  let s := { s with fsaa := fsaa }
  let s := { s with vid_initialized := true }
  -- set window icon
  let s := emit s .PL_SetWindowIcon
  match VID_SetMode P s m.1 m.2.1 m.2.2.1 m.2.2.2 with
  | .error e => .error e
  | .ok s =>
    let s := emit s .GL_Init
    let s := emit s .GL_SetupState
    let s := emit s .VID_Gamma_Init
    let s := VID_Menu_Init s
    -- current vid settings should override config file settings.
    -- so we have to lock the vid mode from now until after all config files are read.
    .ok { s with vid_locked := true }

/-- The file-scope variables as their initialisers leave them, before
`VID_Init`: no window, nothing locked or pending, the cvars at their defaults
(800x600x16, windowed). -/
def startup : VidState Win where
  sdl := ⟨0, 0, 16, 0, 0, 0, 0, 0, 0⟩
  cv := ⟨0, 800, 600, 16, 0, 0, 0⟩
  draw_context := false
  gl_context := false
  vid_locked := false
  vid_changed := false
  vid_initialized := false
  fsaa := 0
  vid := ⟨0, 0, 0, 0, 0, 0⟩
  modestate := .MS_UNINIT
  gl_swap_control := false
  gl_vbo_able := false
  gl_stencilbits := 0
  scr_disabled_for_loading := 0
  key_dest := .key_game
  scr_conwidth := 0
  scr_conscale := 1
  modelist := []
  vid_menu_modes := []
  vid_menu_bpps := []
  vid_toggle_works := false
  trace := []

/-- The command line `-width 1024 -height 768`. -/
def args1024 : CommandLine :=
  ⟨false, ⟨true, some 1024⟩, ⟨true, some 768⟩, ⟨false, none⟩, false, false, ⟨false, none⟩⟩

/-- A 1280x1024 desktop with 16 bits per pixel. -/
def desktop1280 : SDL_DisplayMode := ⟨16, 1280, 1024, 60⟩

/-- The live surface is in desktop-fullscreen presentation: every bit of
`SDL_WINDOW_FULLSCREEN_DESKTOP` is set in its window flags.  (In SDL2 the
constant is `0x1001`, the fullscreen bit `0x1` together with the desktop bit
`0x1000`; an exclusive-fullscreen window has `0x1` alone.) -/
def desktop_fullscreen (P : SDL σ) (s : VidState σ) : Bool :=
  (P.SDL_GetWindowFlags s.sdl &&& P.SDL_WINDOW_FULLSCREEN_DESKTOP) ==
    P.SDL_WINDOW_FULLSCREEN_DESKTOP

/-- The live surface is windowed: no bit of `SDL_WINDOW_FULLSCREEN_DESKTOP`
(neither the fullscreen bit nor the desktop bit) is set in its window flags. -/
def windowed_surface (P : SDL σ) (s : VidState σ) : Prop :=
  P.SDL_GetWindowFlags s.sdl &&& P.SDL_WINDOW_FULLSCREEN_DESKTOP = 0

/-- The requested configuration equals the live surface, as far as the
session keeps it so: `vid_bpp`, `vid_fullscreen` and `vid_vsync` hold the live
values, and on a windowed surface `vid_width` and `vid_height` hold the live
size.  Nothing is said of `vid_width` and `vid_height` on a fullscreen
surface, of either kind. -/
def in_sync (P : SDL σ) (s : VidState σ) : Prop :=
  s.cv.vid_bpp = VID_GetCurrentBPP P s ∧
  s.cv.vid_fullscreen = (if VID_GetFullscreen P s then 1 else 0) ∧
  s.cv.vid_vsync = (if VID_GetVSync P s then 1 else 0) ∧
  (windowed_surface P s →
    s.cv.vid_width = VID_GetCurrentWidth P s ∧ s.cv.vid_height = VID_GetCurrentHeight P s)

/-- One step of a session: a settings change, or a returning call of one of
the commands. -/
inductive Step (P : SDL σ) : VidState σ → VidState σ → Prop where
  | set (s : VidState σ) (var : CvarId) (value : Int) : Step P s (Cvar_SetQuick s var value)
  | restart (s s' : VidState σ) (h : VID_Restart P s = .ok s') : Step P s s'
  | test (s s' : VidState σ) (keep : Bool) (h : VID_Test P keep s = .ok s') : Step P s s'
  | unlock (s : VidState σ) : Step P s (VID_Unlock P s)
  | toggle (s : VidState σ) : Step P s (VID_Toggle P s)
  | sync (s : VidState σ) : Step P s (VID_SyncCvars P s)

/-- A surface is open and the capability flag of `VID_Toggle` is off. -/
def surface_ok (s : VidState σ) : Prop :=
  s.draw_context = true ∧ s.vid_toggle_works = false

/-- The invariant of a running session: a surface is open, the capability
flag of `VID_Toggle` is off, and if nothing is pending then the requested
configuration is in line with the live surface, in the sense of `in_sync`. -/
def session_ok (P : SDL σ) (s : VidState σ) : Prop :=
  surface_ok s ∧ (s.vid_changed = false → in_sync P s)

/-- The session `VID_Init` leaves when started with `-width 1024 -height 768`
on a 16-bit desktop, with the cvars at their defaults. -/
def afterInit : VidState Win :=
  returned startup (VID_Init someModes desktop1280 [] [] args1024 startup)

/-- The session `afterInit`, unlocked, with 640x480 then requested. -/
def request640 : VidState Win :=
  Cvar_SetQuick (Cvar_SetQuick (VID_Unlock someModes afterInit) .vid_width 640) .vid_height 480

/-- The session `request640` after `VID_Restart`. -/
def afterRestart : VidState Win :=
  returned request640 (VID_Restart someModes request640)

/-! ## Exclusive fullscreen -/

/-- A session showing an 800x600x16 surface in exclusive fullscreen (window
flags `SDL_WINDOW_FULLSCREEN` alone), with 1024x768 in `vid_width` and
`vid_height`, the change pending. -/
def exclusive800 : VidState Win :=
  liveState (request 1024 768 16 1) ⟨800, 600, 16, 0x1, 0, 16, 0, 0, 0⟩ false true

/-- The command line `-fullscreen -width 800 -height 600`. -/
def argsFullscreen800 : CommandLine :=
  ⟨false, ⟨true, some 800⟩, ⟨true, some 600⟩, ⟨false, none⟩, false, true, ⟨false, none⟩⟩

/-- The session `VID_Init` leaves when started with
`-fullscreen -width 800 -height 600` on a 16-bit desktop, the configuration
file holding `vid_width 1024` and `vid_height 768`. -/
def afterInitFullscreen : VidState Win :=
  returned startup (VID_Init someModes desktop1280 [(.vid_width, 1024), (.vid_height, 768)] []
    argsFullscreen800 startup)

/-- An in-memory platform, with the display of `someModes`, on which a window
made fullscreen takes the 1920x1080 size of the desktop, whatever size it was
given before.  (A comment in `VID_Toggle` records `SDL_SetWindowFullscreen`
"changing the window size on SDL2/WinXP".) -/
def resizingFullscreen : SDL Win :=
  { someModes with
    SDL_SetWindowFullscreen := fun p f =>
      if f = 0 then ({ p with flags := f }, 0)
      else ({ p with flags := f, w := 1920, h := 1080 }, 0) }

/-! ## Mode validation -/

/-- C1. A windowed request (`fullscreen = false`) passes `VID_ValidMode` exactly
when `width >= 320`, `height >= 200` and `bpp` is 16, 24 or 32, on every
platform and for every setting of the cvars.  In particular 319x600x16 is
rejected, 320x200x16 is accepted and 640x480x17 is rejected. -/
theorem VID_ValidMode_windowed (P : SDL σ) (cv : Cvars) :
    (∀ width height bpp : Int,
      VID_ValidMode P cv width height bpp false = true ↔
        320 ≤ width ∧ 200 ≤ height ∧ (bpp = 16 ∨ bpp = 24 ∨ bpp = 32)) ∧
    VID_ValidMode P cv 319 600 16 false = false ∧
    VID_ValidMode P cv 320 200 16 false = true ∧
    VID_ValidMode P cv 640 480 17 false = false := by
  refine ⟨?_, ?_, ?_, ?_⟩
  · intro width height bpp
    simp only [VID_ValidMode, Bool.false_and, Bool.false_eq_true, if_false]
    constructor
    · intro h
      split at h
      · exact absurd h (by simp)
      · split at h
        · exact absurd h (by simp)
        · refine ⟨by omega, by omega, ?_⟩
          by_contra hb
          simp only [not_or] at hb
          simp [hb.1, hb.2.1, hb.2.2] at h
    · rintro ⟨hw, hh, hb⟩
      rw [if_neg (by omega), if_neg (by omega)]
      rcases hb with hb | hb | hb <;> simp [hb]
  · simp [VID_ValidMode]
  · simp [VID_ValidMode]
  · simp [VID_ValidMode]

/-- C2. With the `vid_desktopfullscreen` setting non-zero, every fullscreen
request passes `VID_ValidMode`, whatever its width, height and depth and
whatever modes the platform reports. -/
theorem VID_ValidMode_desktopfullscreen (P : SDL σ) (cv : Cvars) (width height bpp : Int)
    (hd : cv.vid_desktopfullscreen ≠ 0) :
    VID_ValidMode P cv width height bpp true = true := by
  simp [VID_ValidMode, hd]

/-- C2, on an input: 100x50x17 fullscreen is accepted on a platform without
any display mode once `vid_desktopfullscreen` is 1. -/
theorem VID_ValidMode_desktopfullscreen_witness :
    (⟨1, 100, 50, 17, 0, 0, 1⟩ : Cvars).vid_desktopfullscreen ≠ 0 ∧
    VID_ValidMode noModes ⟨1, 100, 50, 17, 0, 0, 1⟩ 100 50 17 true = true :=
  ⟨by decide, VID_ValidMode_desktopfullscreen noModes ⟨1, 100, 50, 17, 0, 0, 1⟩ 100 50 17 (by decide)⟩

/-- C3 as stated fails: with desktop-fullscreen off, the fullscreen request
1024x768x32 (width >= 320, height >= 200) has no exactly matching mode on a
display that offers 800x600x16, 640x480x32 and 640x480x16, and
`VID_ValidMode` returns false for it. -/
theorem VID_ValidMode_fullscreen_unmatched_counterexample :
    (request 1024 768 32 1).vid_desktopfullscreen = 0 ∧
    (320 : Int) ≤ 1024 ∧ (200 : Int) ≤ 768 ∧
    VID_SDL2_GetDisplayMode someModes 1024 768 32 = none ∧
    VID_ValidMode someModes (request 1024 768 32 1) 1024 768 32 true = false := by
  decide

/-- C3, amended.  For a fullscreen request with the desktop-fullscreen setting
off, `width >= 320` and `height >= 200`: when no platform-reported display
mode matches (width, height, bpp) exactly, `VID_ValidMode` replaces the
requested depth by 0, which is none of 16, 24, 32, and returns false. -/
theorem VID_ValidMode_fullscreen_unmatched (P : SDL σ) (cv : Cvars) (width height bpp : Int)
    (hd : cv.vid_desktopfullscreen = 0) (_hw : 320 ≤ width) (_hh : 200 ≤ height)
    (hm : VID_SDL2_GetDisplayMode P width height bpp = none) :
    VID_ValidMode P cv width height bpp true = false := by
  simp only [VID_ValidMode, hd, hm]
  split
  · rename_i h
    simp at h
  · split
    · rfl
    · split
      · rfl
      · simp

/-- C3 amended, on an input: 1024x768x32 fullscreen on the display offering
800x600x16, 640x480x32 and 640x480x16. -/
theorem VID_ValidMode_fullscreen_unmatched_witness :
    VID_ValidMode someModes (request 1024 768 32 1) 1024 768 32 true = false :=
  VID_ValidMode_fullscreen_unmatched someModes (request 1024 768 32 1) 1024 768 32
    (by decide) (by decide) (by decide) (by decide)

/-! ## Cvar setters: what they leave alone -/

theorem Cvars.set_get (c : Cvars) (var : CvarId) : c.set var (c.get var) = c := by
  cases var <;> rfl

theorem Cvar_SetQuick_cv (s : VidState σ) (var : CvarId) (v : Int) :
    (Cvar_SetQuick s var v).cv = s.cv.set var v := by
  unfold Cvar_SetQuick
  split
  · rename_i h
    rw [← h, Cvars.set_get]
  · cases var <;> simp only [VID_Changed_f, VID_FSAA_f, emit]
    split <;> rfl

theorem Cvar_SetQuick_sdl (s : VidState σ) (var : CvarId) (v : Int) :
    (Cvar_SetQuick s var v).sdl = s.sdl := by
  unfold Cvar_SetQuick
  split
  · rfl
  · cases var <;> simp only [VID_Changed_f, VID_FSAA_f, emit]
    split <;> rfl

theorem Cvar_SetQuick_draw_context (s : VidState σ) (var : CvarId) (v : Int) :
    (Cvar_SetQuick s var v).draw_context = s.draw_context := by
  unfold Cvar_SetQuick
  split
  · rfl
  · cases var <;> simp only [VID_Changed_f, VID_FSAA_f, emit]
    split <;> rfl

theorem Cvar_SetQuick_vid_locked (s : VidState σ) (var : CvarId) (v : Int) :
    (Cvar_SetQuick s var v).vid_locked = s.vid_locked := by
  unfold Cvar_SetQuick
  split
  · rfl
  · cases var <;> simp only [VID_Changed_f, VID_FSAA_f, emit]
    split <;> rfl

theorem Cvar_SetQuick_of_eq (s : VidState σ) (var : CvarId) (v : Int) (h : s.cv.get var = v) :
    Cvar_SetQuick s var v = s := by
  unfold Cvar_SetQuick
  rw [if_pos h]

/-! ## Resync -/

/-- The cvars that `VID_SyncCvars` leaves behind, written out. -/
theorem VID_SyncCvars_cv (P : SDL σ) (s : VidState σ) :
    (VID_SyncCvars P s).cv =
      if s.draw_context then
        { s.cv with
          vid_width := if VID_GetDesktopFullscreen P s then s.cv.vid_width
            else VID_GetCurrentWidth P s
          vid_height := if VID_GetDesktopFullscreen P s then s.cv.vid_height
            else VID_GetCurrentHeight P s
          vid_bpp := VID_GetCurrentBPP P s
          vid_fullscreen := if VID_GetFullscreen P s then 1 else 0
          vid_vsync := if VID_GetVSync P s then 1 else 0 }
      else s.cv := by
  unfold VID_SyncCvars
  by_cases hd : s.draw_context = true
  · by_cases hf : VID_GetDesktopFullscreen P s = true
    · simp [hd, hf, Cvar_SetValueQuick, Cvar_SetQuick_cv, Cvars.set, VID_GetCurrentBPP,
        VID_GetFullscreen, VID_GetVSync, Cvar_SetQuick_sdl]
    · simp [hd, hf, Cvar_SetValueQuick, Cvar_SetQuick_cv, Cvars.set, VID_GetCurrentBPP,
        VID_GetFullscreen, VID_GetVSync, VID_GetCurrentHeight, Cvar_SetQuick_sdl]
  · simp [hd]

theorem VID_SyncCvars_sdl (P : SDL σ) (s : VidState σ) : (VID_SyncCvars P s).sdl = s.sdl := by
  unfold VID_SyncCvars
  by_cases hd : s.draw_context = true
  · by_cases hf : VID_GetDesktopFullscreen P s = true <;>
      simp [hd, hf, Cvar_SetValueQuick, Cvar_SetQuick_sdl]
  · simp [hd]

theorem VID_SyncCvars_draw_context (P : SDL σ) (s : VidState σ) :
    (VID_SyncCvars P s).draw_context = s.draw_context := by
  unfold VID_SyncCvars
  by_cases hd : s.draw_context = true
  · by_cases hf : VID_GetDesktopFullscreen P s = true <;>
      simp [hd, hf, Cvar_SetValueQuick, Cvar_SetQuick_draw_context]
  · simp [hd]

theorem VID_SyncCvars_vid_locked (P : SDL σ) (s : VidState σ) :
    (VID_SyncCvars P s).vid_locked = s.vid_locked := by
  unfold VID_SyncCvars
  by_cases hd : s.draw_context = true
  · by_cases hf : VID_GetDesktopFullscreen P s = true <;>
      simp [hd, hf, Cvar_SetValueQuick, Cvar_SetQuick_vid_locked]
  · simp [hd]

theorem VID_SyncCvars_vid_changed (P : SDL σ) (s : VidState σ) :
    (VID_SyncCvars P s).vid_changed = false := by
  unfold VID_SyncCvars
  rfl

/-- Running the resync on a state whose cvars already agree with the surface
and whose pending flag is clear changes nothing. -/
theorem VID_SyncCvars_fixed (P : SDL σ) (t : VidState σ) (hc : t.vid_changed = false)
    (h : t.draw_context = true →
      t.cv.vid_bpp = VID_GetCurrentBPP P t ∧
      t.cv.vid_fullscreen = (if VID_GetFullscreen P t then 1 else 0) ∧
      t.cv.vid_vsync = (if VID_GetVSync P t then 1 else 0) ∧
      (VID_GetDesktopFullscreen P t = false →
        t.cv.vid_width = VID_GetCurrentWidth P t ∧ t.cv.vid_height = VID_GetCurrentHeight P t)) :
    VID_SyncCvars P t = t := by
  have hfin : ({ t with vid_changed := false } : VidState σ) = t := by
    cases t
    simp_all
  unfold VID_SyncCvars
  by_cases hd : t.draw_context = true
  · obtain ⟨hb, hf, hv, hwh⟩ := h hd
    by_cases hdf : VID_GetDesktopFullscreen P t = true
    · simp only [hd, hdf, if_true, Bool.not_true, Bool.false_eq_true, if_false,
        Cvar_SetValueQuick]
      rw [Cvar_SetQuick_of_eq t .vid_bpp _ hb, Cvar_SetQuick_of_eq t .vid_fullscreen _ hf,
        Cvar_SetQuick_of_eq t .vid_vsync _ hv]
      exact hfin
    · have hdf2 : VID_GetDesktopFullscreen P t = false := by simpa using hdf
      obtain ⟨hw, hh⟩ := hwh hdf2
      simp only [hd, hdf2, if_true, Bool.not_false, Cvar_SetValueQuick]
      rw [Cvar_SetQuick_of_eq t .vid_width _ hw, Cvar_SetQuick_of_eq t .vid_height _ hh,
        Cvar_SetQuick_of_eq t .vid_bpp _ hb, Cvar_SetQuick_of_eq t .vid_fullscreen _ hf,
        Cvar_SetQuick_of_eq t .vid_vsync _ hv]
      exact hfin
  · rw [if_neg hd]
    exact hfin

/-- The queries on the live surface only read the platform state. -/
theorem queries_congr (P : SDL σ) (s t : VidState σ) (h : t.sdl = s.sdl) :
    VID_GetCurrentWidth P t = VID_GetCurrentWidth P s ∧
    VID_GetCurrentHeight P t = VID_GetCurrentHeight P s ∧
    VID_GetCurrentBPP P t = VID_GetCurrentBPP P s ∧
    VID_GetFullscreen P t = VID_GetFullscreen P s ∧
    VID_GetDesktopFullscreen P t = VID_GetDesktopFullscreen P s ∧
    VID_GetVSync P t = VID_GetVSync P s := by
  simp [VID_GetCurrentWidth, VID_GetCurrentHeight, VID_GetCurrentBPP, VID_GetFullscreen,
    VID_GetDesktopFullscreen, VID_GetVSync, h]

/-- What `VID_SyncCvars` establishes, in the form used by the later proofs. -/
theorem VID_SyncCvars_synced (P : SDL σ) (s : VidState σ) (hd : s.draw_context = true) :
    (VID_SyncCvars P s).cv.vid_bpp = VID_GetCurrentBPP P s ∧
    (VID_SyncCvars P s).cv.vid_fullscreen = (if VID_GetFullscreen P s then 1 else 0) ∧
    (VID_SyncCvars P s).cv.vid_vsync = (if VID_GetVSync P s then 1 else 0) ∧
    (VID_GetDesktopFullscreen P s = false →
      (VID_SyncCvars P s).cv.vid_width = VID_GetCurrentWidth P s ∧
      (VID_SyncCvars P s).cv.vid_height = VID_GetCurrentHeight P s) ∧
    (VID_GetDesktopFullscreen P s = true →
      (VID_SyncCvars P s).cv.vid_width = s.cv.vid_width ∧
      (VID_SyncCvars P s).cv.vid_height = s.cv.vid_height) := by
  rw [VID_SyncCvars_cv, if_pos hd]
  refine ⟨rfl, rfl, rfl, ?_, ?_⟩
  · intro h
    simp [h]
  · intro h
    simp [h]

/-- What `VID_SyncCvars` does, for every state and platform, told by the
code's own query.  The live surface is not touched and `vid_changed` is false
on return.  If a surface exists, `vid_bpp`, `vid_fullscreen` and `vid_vsync`
afterwards hold the live depth, fullscreen flag and vsync state, and
`vid_width`/`vid_height` hold the live size when `VID_GetDesktopFullscreen`
returns false and keep their previous values when it returns true (which it
does whenever any bit of `SDL_WINDOW_FULLSCREEN_DESKTOP` is set).  If no
surface exists, every cvar keeps its previous value. -/
theorem VID_SyncCvars_post (P : SDL σ) (s : VidState σ) :
    (VID_SyncCvars P s).vid_changed = false ∧
    (VID_SyncCvars P s).sdl = s.sdl ∧
    (s.draw_context = true →
      (VID_SyncCvars P s).cv.vid_bpp = VID_GetCurrentBPP P s ∧
      (VID_SyncCvars P s).cv.vid_fullscreen = (if VID_GetFullscreen P s then 1 else 0) ∧
      (VID_SyncCvars P s).cv.vid_vsync = (if VID_GetVSync P s then 1 else 0) ∧
      (VID_GetDesktopFullscreen P s = false →
        (VID_SyncCvars P s).cv.vid_width = VID_GetCurrentWidth P s ∧
        (VID_SyncCvars P s).cv.vid_height = VID_GetCurrentHeight P s) ∧
      (VID_GetDesktopFullscreen P s = true →
        (VID_SyncCvars P s).cv.vid_width = s.cv.vid_width ∧
        (VID_SyncCvars P s).cv.vid_height = s.cv.vid_height)) ∧
    (s.draw_context = false → (VID_SyncCvars P s).cv = s.cv) := by
  refine ⟨VID_SyncCvars_vid_changed P s, VID_SyncCvars_sdl P s, VID_SyncCvars_synced P s, ?_⟩
  intro hd
  rw [VID_SyncCvars_cv]
  simp [hd]

/-- C9. `VID_SyncCvars` is idempotent: a second run, with the platform state
as the first run left it (the resync never changes it), returns the very
state the first run returned, so all cvars are as the first run left them;
`vid_changed` is false after the first run and after the second. -/
theorem VID_SyncCvars_idempotent (P : SDL σ) (s : VidState σ) :
    VID_SyncCvars P (VID_SyncCvars P s) = VID_SyncCvars P s ∧
    (VID_SyncCvars P s).sdl = s.sdl ∧
    (VID_SyncCvars P s).vid_changed = false ∧
    (VID_SyncCvars P (VID_SyncCvars P s)).vid_changed = false := by
  refine ⟨?_, VID_SyncCvars_sdl P s, VID_SyncCvars_vid_changed P s,
    VID_SyncCvars_vid_changed P _⟩
  apply VID_SyncCvars_fixed P _ (VID_SyncCvars_vid_changed P s)
  intro hd
  rw [VID_SyncCvars_draw_context] at hd
  obtain ⟨hw, hh, hb, hf, hdf, hv⟩ := queries_congr P s _ (VID_SyncCvars_sdl P s)
  obtain ⟨h1, h2, h3, h4, _⟩ := VID_SyncCvars_synced P s hd
  rw [hw, hh, hb, hf, hdf, hv]
  exact ⟨h1, h2, h3, h4⟩

/-! ## `VID_SetMode`: what a returning call leaves behind -/

theorem Quiet.refl (s : VidState σ) : Quiet s s :=
  ⟨rfl, rfl, id, [], by simp, by simp⟩

theorem Quiet.trans {s t u : VidState σ} (h₁ : Quiet s t) (h₂ : Quiet t u) : Quiet s u := by
  obtain ⟨a, ha, hia⟩ := h₁.trace
  obtain ⟨b, hb, hib⟩ := h₂.trace
  refine ⟨h₂.cv.trans h₁.cv, h₂.vid_locked.trans h₁.vid_locked,
    fun h => h₂.draw_context (h₁.draw_context h), a ++ b, ?_, ?_⟩
  · rw [hb, ha, List.append_assoc]
  · intro e he
    rcases List.mem_append.mp he with h | h
    · exact hia e h
    · exact hib e h

/-- A step that keeps cvars, lock and window handle and appends one internal event. -/
theorem Quiet.step {s t : VidState σ} (e : Event) (he : e.internal = true) (hcv : t.cv = s.cv)
    (hl : t.vid_locked = s.vid_locked) (hd : t.draw_context = s.draw_context)
    (ht : t.trace = s.trace ++ [e]) : Quiet s t :=
  ⟨hcv, hl, fun h => hd.trans h, [e], ht, by simpa using he⟩

/-- A step that keeps cvars, lock, window handle and trace. -/
theorem Quiet.silent {s t : VidState σ} (hcv : t.cv = s.cv)
    (hl : t.vid_locked = s.vid_locked) (hd : t.draw_context = s.draw_context)
    (ht : t.trace = s.trace) : Quiet s t :=
  ⟨hcv, hl, fun h => hd.trans h, [], by simpa using ht, by simp⟩

theorem Quiet.emit (s : VidState σ) (e : Event) (he : e.internal = true) : Quiet s (emit s e) :=
  Quiet.step e he rfl rfl rfl rfl

theorem Quiet.SDL_GL_SetAttribute (P : SDL σ) (s : VidState σ) (a : SDL_GLattr) (v : Int) :
    Quiet s (s.SDL_GL_SetAttribute P a v) :=
  Quiet.step (.SDL_GL_SetAttribute a v) rfl rfl rfl rfl rfl

theorem Quiet.SDL_CreateWindow (P : SDL σ) (s : VidState σ) (w h : Int) (f : Nat)
    (hd : s.draw_context = false) : Quiet s (s.SDL_CreateWindow P w h f) :=
  ⟨rfl, rfl, fun h => by simp [hd] at h, [.SDL_CreateWindow w h f], rfl, by
    intro e he
    rw [List.mem_singleton.mp he]
    rfl⟩

theorem Quiet.SDL_SetWindowFullscreen (P : SDL σ) (s : VidState σ) (f : Nat) :
    Quiet s (s.SDL_SetWindowFullscreen P f).1 :=
  Quiet.step (.SDL_SetWindowFullscreen f) rfl rfl rfl rfl rfl

theorem Quiet.SDL_SetWindowSize (P : SDL σ) (s : VidState σ) (w h : Int) :
    Quiet s (s.SDL_SetWindowSize P w h) :=
  Quiet.step (.SDL_SetWindowSize w h) rfl rfl rfl rfl rfl

theorem Quiet.SDL_SetWindowPosition (P : SDL σ) (s : VidState σ) :
    Quiet s (s.SDL_SetWindowPosition P) :=
  Quiet.step .SDL_SetWindowPosition rfl rfl rfl rfl rfl

theorem Quiet.SDL_SetWindowDisplayMode (P : SDL σ) (s : VidState σ) (m : Option SDL_DisplayMode) :
    Quiet s (s.SDL_SetWindowDisplayMode P m) :=
  Quiet.step (.SDL_SetWindowDisplayMode m) rfl rfl rfl rfl rfl

theorem Quiet.SDL_ShowWindow (P : SDL σ) (s : VidState σ) : Quiet s (s.SDL_ShowWindow P) :=
  Quiet.step .SDL_ShowWindow rfl rfl rfl rfl rfl

theorem Quiet.SDL_GL_CreateContext (P : SDL σ) (s : VidState σ) :
    Quiet s (s.SDL_GL_CreateContext P) :=
  Quiet.step .SDL_GL_CreateContext rfl rfl rfl rfl rfl

theorem Quiet.SDL_GL_SetSwapInterval (P : SDL σ) (s : VidState σ) (n : Int) :
    Quiet s (s.SDL_GL_SetSwapInterval P n).1 :=
  Quiet.step (.SDL_GL_SetSwapInterval n) rfl rfl rfl rfl rfl

theorem VID_SetMode_attributes_quiet (P : SDL σ) (s : VidState σ) (bpp : Int) :
    Quiet s (VID_SetMode_attributes P s bpp) := by
  unfold VID_SetMode_attributes
  exact (((((Quiet.emit s .CDAudio_Pause rfl).trans (Quiet.emit _ .BGM_Pause rfl)).trans
    (Quiet.SDL_GL_SetAttribute P _ _ _)).trans (Quiet.SDL_GL_SetAttribute P _ _ _)).trans
    (Quiet.SDL_GL_SetAttribute P _ _ _)).trans (Quiet.SDL_GL_SetAttribute P _ _ _)

theorem VID_SetMode_window_ok (P : SDL σ) (s s' : VidState σ) (width height : Int)
    (h : VID_SetMode_window P s width height = .ok s') :
    Quiet s s' ∧ s'.draw_context = true := by
  unfold VID_SetMode_window at h
  by_cases hd : s.draw_context = true
  · simp only [hd, Bool.not_true, Bool.false_eq_true, if_false] at h
    cases h
    exact ⟨Quiet.refl s, hd⟩
  · have hd0 : s.draw_context = false := by simpa using hd
    simp only [hd0, Bool.not_false, if_true] at h
    -- the four attempts, each made only while the handle is still NULL
    have attempt : ∀ (t : VidState σ) (pre : VidState σ → VidState σ),
        (∀ u, Quiet u (pre u) ∧ (pre u).draw_context = u.draw_context) → Quiet s t →
        Quiet s (if (!t.draw_context) = true then
          (pre t).SDL_CreateWindow P width height (P.SDL_WINDOW_OPENGL ||| P.SDL_WINDOW_HIDDEN)
          else t) := by
      intro t pre hpre ht
      by_cases htd : t.draw_context = true
      · simpa [htd] using ht
      · have htd0 : t.draw_context = false := by simpa using htd
        simp only [htd0, Bool.not_false, if_true]
        exact (ht.trans (hpre t).1).trans
          (Quiet.SDL_CreateWindow P _ _ _ _ (by rw [(hpre t).2, htd0]))
    have q1 : Quiet s (s.SDL_CreateWindow P width height
        (P.SDL_WINDOW_OPENGL ||| P.SDL_WINDOW_HIDDEN)) :=
      Quiet.SDL_CreateWindow P s _ _ _ hd0
    have q2 := attempt _
      (fun u => (u.SDL_GL_SetAttribute P .SDL_GL_MULTISAMPLEBUFFERS 0).SDL_GL_SetAttribute P
        .SDL_GL_MULTISAMPLESAMPLES 0)
      (fun u => ⟨(Quiet.SDL_GL_SetAttribute P u _ _).trans (Quiet.SDL_GL_SetAttribute P _ _ _),
        rfl⟩) q1
    have q3 := attempt _ (fun u => u.SDL_GL_SetAttribute P .SDL_GL_DEPTH_SIZE 16)
      (fun u => ⟨Quiet.SDL_GL_SetAttribute P u _ _, rfl⟩) q2
    have q4 := attempt _ (fun u => u.SDL_GL_SetAttribute P .SDL_GL_STENCIL_SIZE 0)
      (fun u => ⟨Quiet.SDL_GL_SetAttribute P u _ _, rfl⟩) q3
    have last : ∀ t : VidState σ,
        (if (!t.draw_context) = true then Except.error Fatal.couldnt_create_window
          else Except.ok t) = Except.ok s' → t = s' ∧ t.draw_context = true := by
      intro t ht
      by_cases htd : t.draw_context = true
      · simp only [htd, Bool.not_true, Bool.false_eq_true, if_false] at ht
        cases ht
        exact ⟨rfl, htd⟩
      · have htd0 : t.draw_context = false := by simpa using htd
        simp only [htd0, Bool.not_false, if_true] at ht
        cases ht
    obtain ⟨rfl, hlast⟩ := last _ h
    exact ⟨q4, hlast⟩

theorem ite_error_ok {c : Prop} [Decidable c] {e : Fatal} {t s' : VidState σ}
    (h : (if c then Except.error e else Except.ok t) = Except.ok s') : ¬c ∧ t = s' := by
  by_cases hc : c
  · rw [if_pos hc] at h
    cases h
  · rw [if_neg hc] at h
    cases h
    exact ⟨hc, rfl⟩

theorem VID_SetMode_unfullscreen_ok (P : SDL σ) (s s' : VidState σ)
    (h : VID_SetMode_unfullscreen P s = .ok s') : Quiet s s' := by
  unfold VID_SetMode_unfullscreen at h
  by_cases hf : VID_GetFullscreen P s = true
  · rw [if_pos hf] at h
    obtain ⟨_, rfl⟩ := ite_error_ok h
    exact Quiet.SDL_SetWindowFullscreen P s 0
  · rw [if_neg hf] at h
    cases h
    exact Quiet.refl s

theorem VID_SetMode_size_quiet (P : SDL σ) (s : VidState σ) (width height bpp : Int) :
    Quiet s (VID_SetMode_size P s width height bpp) := by
  unfold VID_SetMode_size
  exact ((Quiet.SDL_SetWindowSize P s _ _).trans (Quiet.SDL_SetWindowPosition P _)).trans
    (Quiet.SDL_SetWindowDisplayMode P _ _)

theorem VID_SetMode_fullscreen_ok (P : SDL σ) (s s' : VidState σ) (fullscreen : Bool)
    (h : VID_SetMode_fullscreen P s fullscreen = .ok s') : Quiet s s' := by
  unfold VID_SetMode_fullscreen at h
  by_cases hf : fullscreen = true
  · rw [if_pos hf] at h
    dsimp only at h
    obtain ⟨_, rfl⟩ := ite_error_ok h
    exact Quiet.SDL_SetWindowFullscreen P s _
  · rw [if_neg hf] at h
    cases h
    exact Quiet.refl s

theorem VID_SetMode_context_ok (P : SDL σ) (s s' : VidState σ)
    (h : VID_SetMode_context P s = .ok s') : Quiet s s' := by
  unfold VID_SetMode_context at h
  by_cases hg : (!s.gl_context) = true
  · rw [if_pos hg] at h
    dsimp only at h
    obtain ⟨_, rfl⟩ := ite_error_ok h
    exact Quiet.SDL_GL_CreateContext P s
  · rw [if_neg hg] at h
    cases h
    exact Quiet.refl s

theorem VID_SetMode_swap_quiet (P : SDL σ) (s : VidState σ) :
    Quiet s (VID_SetMode_swap P s) := by
  unfold VID_SetMode_swap
  have q : Quiet s
      (({ s with gl_swap_control := true } : VidState σ).SDL_GL_SetSwapInterval P
        (if s.cv.vid_vsync != 0 then 1 else 0)).1 :=
    (Quiet.silent (s := s) (t := { s with gl_swap_control := true }) rfl rfl rfl rfl).trans
      (Quiet.SDL_GL_SetSwapInterval P _ _)
  dsimp only
  by_cases hr : (({ s with gl_swap_control := true } : VidState σ).SDL_GL_SetSwapInterval P
        (if s.cv.vid_vsync != 0 then 1 else 0)).2 = -1
  · rw [if_pos hr]
    exact q.trans (Quiet.silent rfl rfl rfl rfl)
  · rw [if_neg hr]
    exact q

theorem VID_SetMode_readback_ok (P : SDL σ) (s s' : VidState σ) (temp : Int)
    (h : VID_SetMode_readback P s temp = .ok s') :
    Quiet s s' ∧ s'.sdl = s.sdl ∧ s'.vid_changed = false ∧
      s'.vid.width = VID_GetCurrentWidth P s ∧ s'.vid.width ≠ 0 := by
  simp only [VID_SetMode_readback, emit, ClearAllStates, List.append_assoc, List.cons_append,
    List.nil_append] at h
  obtain ⟨hw, rfl⟩ := ite_error_ok h
  refine ⟨⟨rfl, rfl, id, _, rfl, ?_⟩, rfl, rfl, rfl, hw⟩
  intro e he
  simp only [List.mem_cons, List.mem_singleton, List.not_mem_nil, or_false] at he
  rcases he with rfl | rfl | rfl | rfl | rfl <;> rfl

/-- Everything the later proofs need to know about a call of `VID_SetMode` that
returns: cvars and lock untouched, a window exists, nothing is pending,
`vid.width` is the (non-zero) live width, and the trace has grown by the call
itself followed by internal events only. -/
theorem VID_SetMode_ok (P : SDL σ) (s s' : VidState σ) (width height bpp : Int)
    (fullscreen : Bool) (h : VID_SetMode P s width height bpp fullscreen = .ok s') :
    s'.cv = s.cv ∧ s'.vid_locked = s.vid_locked ∧ s'.draw_context = true ∧
    s'.vid_changed = false ∧ s'.vid.width = VID_GetCurrentWidth P s' ∧ s'.vid.width ≠ 0 ∧
    ∃ inner, s'.trace = s.trace ++ Event.VID_SetMode width height bpp fullscreen :: inner ∧
      ∀ e ∈ inner, e.internal = true := by
  unfold VID_SetMode at h
  simp only at h
  split at h
  · cases h
  · rename_i s1 h1
    split at h
    · cases h
    · rename_i s2 h2
      split at h
      · cases h
      · rename_i s3 h3
        split at h
        · cases h
        · rename_i s4 h4
          obtain ⟨q1, hd1⟩ := VID_SetMode_window_ok P _ _ _ _ h1
          have q2 := VID_SetMode_unfullscreen_ok P _ _ h2
          have q3 := VID_SetMode_fullscreen_ok P _ _ _ h3
          have q4 := VID_SetMode_context_ok P _ _ h4
          obtain ⟨q5, hsdl, hch, hvw, hne⟩ := VID_SetMode_readback_ok P _ _ _ h
          have q0 := VID_SetMode_attributes_quiet P
            ({ emit s (.VID_SetMode width height bpp fullscreen) with
                scr_disabled_for_loading := 1 } : VidState σ) bpp
          have q := (((((((q0.trans q1).trans q2).trans
            (VID_SetMode_size_quiet P _ width height bpp)).trans q3).trans
            (Quiet.SDL_ShowWindow P _)).trans q4).trans (VID_SetMode_swap_quiet P _)).trans q5
          obtain ⟨inner, hin, hint⟩ := q.trace
          have hdc : s'.draw_context = true :=
            q5.draw_context ((VID_SetMode_swap_quiet P _).draw_context (q4.draw_context
              ((Quiet.SDL_ShowWindow P _).draw_context (q3.draw_context
                ((VID_SetMode_size_quiet P _ width height bpp).draw_context
                  (q2.draw_context hd1))))))
          refine ⟨q.cv, q.vid_locked, hdc, hch, ?_, hne, inner, ?_, hint⟩
          · rw [hvw]
            exact ((queries_congr P _ _ hsdl).1).symm
          · rw [hin]
            simp [emit]

/-! ## `VID_Restart` -/

theorem Cvar_SetQuick_trace (s : VidState σ) (var : CvarId) (v : Int) (hvar : var ≠ .vid_fsaa) :
    (Cvar_SetQuick s var v).trace = s.trace := by
  unfold Cvar_SetQuick
  split
  · rfl
  · cases var <;> first | exact absurd rfl hvar | rfl

theorem VID_SyncCvars_trace (P : SDL σ) (s : VidState σ) : (VID_SyncCvars P s).trace = s.trace := by
  unfold VID_SyncCvars
  by_cases hd : s.draw_context = true
  · by_cases hf : VID_GetDesktopFullscreen P s = true <;>
      simp [hd, hf, Cvar_SetValueQuick, Cvar_SetQuick_trace]
  · simp [hd]

/-- The cvars left by the resync depend only on the cvars, the platform state
and the window handle it starts from. -/
theorem VID_SyncCvars_cv_congr (P : SDL σ) (s t : VidState σ) (hcv : t.cv = s.cv)
    (hsdl : t.sdl = s.sdl) (hd : t.draw_context = s.draw_context) :
    (VID_SyncCvars P t).cv = (VID_SyncCvars P s).cv := by
  obtain ⟨hw, hh, hb, hf, hdf, hv⟩ := queries_congr P s t hsdl
  rw [VID_SyncCvars_cv, VID_SyncCvars_cv, hcv, hd, hw, hh, hb, hf, hdf, hv]

theorem VID_Restart_console_ok (s : VidState σ) (hw : s.vid.width ≠ 0) :
    ∃ s', VID_Restart_console s = .ok s' ∧ s'.sdl = s.sdl ∧ s'.cv = s.cv ∧
      s'.draw_context = s.draw_context ∧ s'.vid_locked = s.vid_locked ∧ s'.trace = s.trace := by
  simp only [VID_Restart_console, if_neg hw]
  exact ⟨_, rfl, rfl, rfl, rfl, rfl, rfl⟩

theorem VID_Restart_grab_spec (s : VidState σ) :
    (VID_Restart_grab s).sdl = s.sdl ∧ (VID_Restart_grab s).cv = s.cv ∧
    (VID_Restart_grab s).vid_changed = s.vid_changed ∧
    (VID_Restart_grab s).vid_locked = s.vid_locked ∧
    (VID_Restart_grab s).draw_context = s.draw_context ∧
    ∃ g, (VID_Restart_grab s).trace = s.trace ++ g ∧ ∀ e ∈ g, e.internal = true := by
  unfold VID_Restart_grab
  split
  · split
    · exact ⟨rfl, rfl, rfl, rfl, rfl, [.IN_Deactivate true], rfl, by
        intro e he
        rw [List.mem_singleton.mp he]
        rfl⟩
    · split
      · exact ⟨rfl, rfl, rfl, rfl, rfl, [.IN_Activate], rfl, by
          intro e he
          rw [List.mem_singleton.mp he]
          rfl⟩
      · exact ⟨rfl, rfl, rfl, rfl, rfl, [], by simp, by simp⟩
  · exact ⟨rfl, rfl, rfl, rfl, rfl, [], by simp, by simp⟩

/-- `VID_Restart` behind its gate and the validity check, with the hook calls
gathered into the two lists. -/
theorem VID_Restart_eq (P : SDL σ) (s : VidState σ) (hl : s.vid_locked = false)
    (hc : s.vid_changed = true)
    (hv : VID_ValidMode P s.cv s.cv.vid_width s.cv.vid_height s.cv.vid_bpp
      (s.cv.vid_fullscreen != 0) = true) :
    VID_Restart P s =
      match VID_SetMode P { s with trace := s.trace ++ teardown_hooks }
          s.cv.vid_width s.cv.vid_height s.cv.vid_bpp (s.cv.vid_fullscreen != 0) with
      | .error e => .error e
      | .ok s2 =>
        match VID_Restart_console { s2 with trace := s2.trace ++ recreation_hooks } with
        | .error e => .error e
        | .ok s3 => .ok (VID_Restart_grab (VID_SyncCvars P s3)) := by
  simp only [VID_Restart, hl, hc, hv, emit, teardown_hooks, recreation_hooks, Bool.not_true,
    Bool.or_self, Bool.false_eq_true, if_false, List.append_assoc, List.cons_append,
    List.nil_append]

/-- A restart whose `VID_SetMode` call returns `s2` returns too; the summary
relates the state it returns to `s2`. -/
theorem VID_Restart_of_SetMode (P : SDL σ) (s s2 : VidState σ) (hl : s.vid_locked = false)
    (hc : s.vid_changed = true)
    (hv : VID_ValidMode P s.cv s.cv.vid_width s.cv.vid_height s.cv.vid_bpp
      (s.cv.vid_fullscreen != 0) = true)
    (h2 : VID_SetMode P { s with trace := s.trace ++ teardown_hooks }
      s.cv.vid_width s.cv.vid_height s.cv.vid_bpp (s.cv.vid_fullscreen != 0) = .ok s2) :
    ∃ s', VID_Restart P s = .ok s' ∧ s'.sdl = s2.sdl ∧ s'.cv = (VID_SyncCvars P s2).cv ∧
      s2.cv = s.cv ∧ s2.draw_context = true ∧
      s'.vid_changed = false ∧ s'.vid_locked = false ∧ s'.draw_context = true ∧
      ∃ inner post, s'.trace = s.trace ++ teardown_hooks ++
          Event.VID_SetMode s.cv.vid_width s.cv.vid_height s.cv.vid_bpp (s.cv.vid_fullscreen != 0)
            :: inner ++ recreation_hooks ++ post ∧
        (∀ e ∈ inner, e.internal = true) ∧ (∀ e ∈ post, e.internal = true) := by
  obtain ⟨hcv2, hl2, hd2, _, _, hne, inner, htr, hin⟩ := VID_SetMode_ok P _ _ _ _ _ _ h2
  obtain ⟨s3, h3, hsdl3, hcv3, hd3, hl3, htr3⟩ :=
    VID_Restart_console_ok ({ s2 with trace := s2.trace ++ recreation_hooks } : VidState σ) hne
  obtain ⟨gsdl, gcv, gch, gl, gd, post, gtr, gin⟩ := VID_Restart_grab_spec (VID_SyncCvars P s3)
  refine ⟨VID_Restart_grab (VID_SyncCvars P s3), ?_, ?_, ?_, hcv2, hd2, ?_, ?_, ?_,
    inner, post, ?_, hin, gin⟩
  · rw [VID_Restart_eq P s hl hc hv, h2]
    simp only [h3]
  · rw [gsdl, VID_SyncCvars_sdl, hsdl3]
  · rw [gcv]
    exact VID_SyncCvars_cv_congr P s2 s3 hcv3 hsdl3 hd3
  · rw [gch, VID_SyncCvars_vid_changed]
  · rw [gl, VID_SyncCvars_vid_locked, hl3]
    exact hl2.trans hl
  · rw [gd, VID_SyncCvars_draw_context, hd3]
    exact hd2
  · rw [gtr, VID_SyncCvars_trace, htr3]
    simp only [htr, List.append_assoc, List.cons_append]

/-- A restart that passes the gate and the validity check and returns has
made a returning `VID_SetMode` call. -/
theorem VID_Restart_inv (P : SDL σ) (s s' : VidState σ) (hl : s.vid_locked = false)
    (hc : s.vid_changed = true)
    (hv : VID_ValidMode P s.cv s.cv.vid_width s.cv.vid_height s.cv.vid_bpp
      (s.cv.vid_fullscreen != 0) = true)
    (h : VID_Restart P s = .ok s') :
    ∃ s2, VID_SetMode P { s with trace := s.trace ++ teardown_hooks }
      s.cv.vid_width s.cv.vid_height s.cv.vid_bpp (s.cv.vid_fullscreen != 0) = .ok s2 := by
  rw [VID_Restart_eq P s hl hc hv] at h
  cases h2 : VID_SetMode P { s with trace := s.trace ++ teardown_hooks }
      s.cv.vid_width s.cv.vid_height s.cv.vid_bpp (s.cv.vid_fullscreen != 0) with
  | error e =>
    rw [h2] at h
    cases h
  | ok s2 => exact ⟨s2, rfl⟩

/-- Behind its gate `VID_Restart` returns the state it was given. -/
theorem VID_Restart_gate (P : SDL σ) (s : VidState σ)
    (h : s.vid_locked = true ∨ s.vid_changed = false) :
    VID_Restart P s = .ok s := by
  unfold VID_Restart
  rcases h with h | h <;> simp [h]

/-- An invalid request: `VID_Restart` only reports it. -/
theorem VID_Restart_rejects (P : SDL σ) (s : VidState σ) (hl : s.vid_locked = false)
    (hc : s.vid_changed = true)
    (hv : VID_ValidMode P s.cv s.cv.vid_width s.cv.vid_height s.cv.vid_bpp
      (s.cv.vid_fullscreen != 0) = false) :
    VID_Restart P s = .ok { s with trace := s.trace ++
      [.Con_Printf_not_a_valid_mode s.cv.vid_width s.cv.vid_height s.cv.vid_bpp
        (s.cv.vid_fullscreen != 0)] } := by
  unfold VID_Restart
  rw [if_neg (by simp [hl, hc])]
  dsimp only
  rw [if_pos (by simp [hv])]
  rfl

/-- C4. While `vid_locked` is true or `vid_changed` is false, `VID_Restart`
returns the state it was given: no teardown hook, no `VID_SetMode`, no
recreation hook is called (the trace is unchanged), and the cvars, the two
flags and the platform state are unchanged. -/
theorem VID_Restart_noop (P : SDL σ) (s : VidState σ)
    (h : s.vid_locked = true ∨ s.vid_changed = false) :
    VID_Restart P s = .ok s :=
  VID_Restart_gate P s h

/-- C4, on an input: a locked session with 640x480x32 fullscreen pending over
an 800x600x16 window. -/
theorem VID_Restart_noop_witness :
    VID_Restart someModes (liveState (request 640 480 32 1) win800 true true) =
      .ok (liveState (request 640 480 32 1) win800 true true) :=
  VID_Restart_noop someModes (liveState (request 640 480 32 1) win800 true true) (Or.inl rfl)

/-- C5. Unlocked and pending, with a requested mode that fails
`VID_ValidMode`: `VID_Restart` returns the state it was given with nothing but
the "is not a valid mode" message added to the trace.  So no teardown hook
and no `VID_SetMode` call is made, and the cvars, the platform state and
`vid_changed` (still true) are unchanged. -/
theorem VID_Restart_invalid (P : SDL σ) (s : VidState σ) (hl : s.vid_locked = false)
    (hc : s.vid_changed = true)
    (hv : VID_ValidMode P s.cv s.cv.vid_width s.cv.vid_height s.cv.vid_bpp
      (s.cv.vid_fullscreen != 0) = false) :
    VID_Restart P s = .ok { s with trace := s.trace ++
      [.Con_Printf_not_a_valid_mode s.cv.vid_width s.cv.vid_height s.cv.vid_bpp
        (s.cv.vid_fullscreen != 0)] } :=
  VID_Restart_rejects P s hl hc hv

/-- C5, on an input: 1024x768x32 fullscreen requested over an 800x600x16
window on a display without that mode. -/
theorem VID_Restart_invalid_witness :
    VID_Restart someModes (liveState (request 1024 768 32 1) win800 false true) =
      .ok { liveState (request 1024 768 32 1) win800 false true with
        trace := [.Con_Printf_not_a_valid_mode 1024 768 32 true] } :=
  VID_Restart_invalid someModes (liveState (request 1024 768 32 1) win800 false true)
    rfl rfl (by decide)

theorem Event.internal_iff (e : Event) (h : e.internal = true) :
    e.isModeSwitch = false ∧ e ∉ teardown_hooks ∧ e ∉ recreation_hooks := by
  simpa [Event.internal, and_assoc] using h

/-- What a returning `VID_Restart` establishes, told by the code's own query.
Unlocked, pending, requested mode valid, and `VID_Restart` returns (no
`Sys_Error`, no zero divisor): on return `vid_changed` is false, `vid_bpp`,
`vid_fullscreen` and `vid_vsync` hold the live depth, fullscreen flag and
vsync state, and `vid_width`/`vid_height` hold the live size when
`VID_GetDesktopFullscreen` returns false. -/
theorem VID_Restart_synced (P : SDL σ) (s s' : VidState σ) (hl : s.vid_locked = false)
    (hc : s.vid_changed = true)
    (hv : VID_ValidMode P s.cv s.cv.vid_width s.cv.vid_height s.cv.vid_bpp
      (s.cv.vid_fullscreen != 0) = true)
    (h : VID_Restart P s = .ok s') :
    s'.vid_changed = false ∧
    s'.cv.vid_bpp = VID_GetCurrentBPP P s' ∧
    s'.cv.vid_fullscreen = (if VID_GetFullscreen P s' then 1 else 0) ∧
    s'.cv.vid_vsync = (if VID_GetVSync P s' then 1 else 0) ∧
    (VID_GetDesktopFullscreen P s' = false →
      s'.cv.vid_width = VID_GetCurrentWidth P s' ∧
      s'.cv.vid_height = VID_GetCurrentHeight P s') := by
  obtain ⟨s2, h2⟩ := VID_Restart_inv P s s' hl hc hv h
  obtain ⟨t, ht, hsdl, hcv, _, hd2, hch, _, _, _⟩ := VID_Restart_of_SetMode P s s2 hl hc hv h2
  rw [h] at ht
  cases ht
  obtain ⟨qw, qh, qb, qf, qdf, qv⟩ := queries_congr P s2 s' hsdl
  obtain ⟨h1, h2, h3, h4, _⟩ := VID_SyncCvars_synced P s2 hd2
  rw [hcv, qw, qh, qb, qf, qdf, qv]
  exact ⟨hch, h1, h2, h3, h4⟩

/-- On an input: 640x480x16 windowed with vsync applied over an 800x600x16
window without vsync; `VID_GetDesktopFullscreen` returns false afterwards, so
all five cvars are compared with the surface. -/
theorem VID_Restart_synced_witness :
    VID_GetDesktopFullscreen someModes
      (returned pendingWindowed (VID_Restart someModes pendingWindowed)) = false ∧
    (returned pendingWindowed (VID_Restart someModes pendingWindowed)).vid_changed = false ∧
    (returned pendingWindowed (VID_Restart someModes pendingWindowed)).cv.vid_bpp =
      VID_GetCurrentBPP someModes
        (returned pendingWindowed (VID_Restart someModes pendingWindowed)) ∧
    (returned pendingWindowed (VID_Restart someModes pendingWindowed)).cv.vid_fullscreen =
      (if VID_GetFullscreen someModes
          (returned pendingWindowed (VID_Restart someModes pendingWindowed))
        then 1 else 0) ∧
    (returned pendingWindowed (VID_Restart someModes pendingWindowed)).cv.vid_vsync =
      (if VID_GetVSync someModes
          (returned pendingWindowed (VID_Restart someModes pendingWindowed))
        then 1 else 0) ∧
    (VID_GetDesktopFullscreen someModes
        (returned pendingWindowed (VID_Restart someModes pendingWindowed)) = false →
      (returned pendingWindowed (VID_Restart someModes pendingWindowed)).cv.vid_width =
        VID_GetCurrentWidth someModes
          (returned pendingWindowed (VID_Restart someModes pendingWindowed)) ∧
      (returned pendingWindowed (VID_Restart someModes pendingWindowed)).cv.vid_height =
        VID_GetCurrentHeight someModes
          (returned pendingWindowed (VID_Restart someModes pendingWindowed))) :=
  ⟨by rfl, VID_Restart_synced someModes pendingWindowed
    (returned pendingWindowed (VID_Restart someModes pendingWindowed))
    rfl rfl (by decide) (by rfl)⟩

/-- C7. Unlocked, pending, requested mode valid, and `VID_Restart` returns:
the calls it has added to the trace are the five teardown hooks in source
order, then the one `VID_SetMode` call with the internal events of its body,
then the seven recreation hooks in source order, then the events of the
resync and mouse-grab tail.  No event of the `VID_SetMode` body or of the
tail is a teardown hook, a recreation hook or another `VID_SetMode` call;
this holds whichever window-creation attempt succeeded. -/
theorem VID_Restart_hook_order (P : SDL σ) (s s' : VidState σ) (hl : s.vid_locked = false)
    (hc : s.vid_changed = true)
    (hv : VID_ValidMode P s.cv s.cv.vid_width s.cv.vid_height s.cv.vid_bpp
      (s.cv.vid_fullscreen != 0) = true)
    (h : VID_Restart P s = .ok s') :
    ∃ inner post : List Event,
      s'.trace = s.trace ++ (teardown_hooks ++
        [Event.VID_SetMode s.cv.vid_width s.cv.vid_height s.cv.vid_bpp (s.cv.vid_fullscreen != 0)]
        ++ inner ++ recreation_hooks ++ post) ∧
      ∀ e ∈ inner ++ post,
        e.isModeSwitch = false ∧ e ∉ teardown_hooks ∧ e ∉ recreation_hooks := by
  obtain ⟨s2, h2⟩ := VID_Restart_inv P s s' hl hc hv h
  obtain ⟨t, ht, _, _, _, _, _, _, _, inner, post, htr, hin, hpost⟩ :=
    VID_Restart_of_SetMode P s s2 hl hc hv h2
  rw [h] at ht
  cases ht
  refine ⟨inner, post, ?_, ?_⟩
  · rw [htr]
    simp only [List.append_assoc, List.cons_append, List.nil_append]
  · intro e he
    rcases List.mem_append.mp he with he | he
    · exact Event.internal_iff e (hin e he)
    · exact Event.internal_iff e (hpost e he)

/-- C7, on an input: 640x480x32 fullscreen applied over an 800x600x16 window. -/
theorem VID_Restart_hook_order_witness :
    ∃ inner post : List Event,
      (returned pending640 (VID_Restart someModes pending640)).trace =
        pending640.trace ++ (teardown_hooks ++ [Event.VID_SetMode 640 480 32 true]
          ++ inner ++ recreation_hooks ++ post) ∧
      ∀ e ∈ inner ++ post,
        e.isModeSwitch = false ∧ e ∉ teardown_hooks ∧ e ∉ recreation_hooks :=
  VID_Restart_hook_order someModes pending640
    (returned pending640 (VID_Restart someModes pending640)) rfl rfl (by decide) (by rfl)

/-! ## `VID_Test` -/

theorem VID_SDL2_GetDisplayMode_some (P : SDL σ) (width height bpp : Int) (m : SDL_DisplayMode)
    (h : VID_SDL2_GetDisplayMode P width height bpp = some m) :
    m.w = width ∧ m.h = height ∧ P.SDL_BITSPERPIXEL m.format = bpp := by
  unfold VID_SDL2_GetDisplayMode at h
  obtain ⟨i, _, hi⟩ := List.exists_of_findSome?_eq_some h
  cases hm : P.SDL_GetDisplayMode (i : Int) with
  | none => simp [hm] at hi
  | some mode =>
    simp only [hm] at hi
    by_cases hc : mode.w = width ∧ mode.h = height ∧ P.SDL_BITSPERPIXEL mode.format = bpp
    · rw [if_pos hc] at hi
      cases hi
      exact hc
    · rw [if_neg hc] at hi
      cases hi

theorem Cvar_SetQuick_vid_changed (s : VidState σ) (var : CvarId) (v : Int)
    (hvar : var ≠ .vid_fsaa) :
    (s.vid_changed = true → (Cvar_SetQuick s var v).vid_changed = true) ∧
    ((Cvar_SetQuick s var v).vid_changed = true ∨
      (Cvar_SetQuick s var v = s ∧ s.cv.get var = v)) := by
  unfold Cvar_SetQuick
  by_cases h : s.cv.get var = v
  · rw [if_pos h]
    exact ⟨id, Or.inr ⟨rfl, h⟩⟩
  · rw [if_neg h]
    cases var <;> first | exact absurd rfl hvar | exact ⟨fun _ => rfl, Or.inl rfl⟩

/-- The four cvar writes by which `VID_Test` reverts to the snapshot. -/
theorem VID_Test_revert_spec (s : VidState σ) (w h b : Int) (f : Bool) :
    let r := Cvar_SetQuick (Cvar_SetValueQuick (Cvar_SetValueQuick (Cvar_SetValueQuick s
      .vid_width w) .vid_height h) .vid_bpp b) .vid_fullscreen (if f then 1 else 0)
    r.cv = { s.cv with vid_width := w, vid_height := h, vid_bpp := b,
                       vid_fullscreen := if f then 1 else 0 } ∧
    r.sdl = s.sdl ∧ r.vid_locked = s.vid_locked ∧
    (s.vid_changed = true → r.vid_changed = true) ∧
    (r.vid_changed = true ∨
      (r = s ∧ s.cv.vid_width = w ∧ s.cv.vid_height = h ∧ s.cv.vid_bpp = b ∧
        s.cv.vid_fullscreen = if f then 1 else 0)) := by
  intro r
  refine ⟨?_, ?_, ?_, ?_, ?_⟩
  · simp only [r, Cvar_SetValueQuick, Cvar_SetQuick_cv, Cvars.set]
  · simp only [r, Cvar_SetValueQuick, Cvar_SetQuick_sdl]
  · simp only [r, Cvar_SetValueQuick, Cvar_SetQuick_vid_locked]
  · intro hc
    exact (Cvar_SetQuick_vid_changed _ _ _ (by decide)).1
      ((Cvar_SetQuick_vid_changed _ _ _ (by decide)).1
        ((Cvar_SetQuick_vid_changed _ _ _ (by decide)).1
          ((Cvar_SetQuick_vid_changed s .vid_width w (by decide)).1 hc)))
  · simp only [r, Cvar_SetValueQuick]
    rcases (Cvar_SetQuick_vid_changed s .vid_width w (by decide)).2 with h1 | ⟨e1, g1⟩
    · exact Or.inl ((Cvar_SetQuick_vid_changed _ _ _ (by decide)).1
        ((Cvar_SetQuick_vid_changed _ _ _ (by decide)).1
          ((Cvar_SetQuick_vid_changed _ _ _ (by decide)).1 h1)))
    · rw [e1]
      rcases (Cvar_SetQuick_vid_changed s .vid_height h (by decide)).2 with h2 | ⟨e2, g2⟩
      · exact Or.inl ((Cvar_SetQuick_vid_changed _ _ _ (by decide)).1
          ((Cvar_SetQuick_vid_changed _ _ _ (by decide)).1 h2))
      · rw [e2]
        rcases (Cvar_SetQuick_vid_changed s .vid_bpp b (by decide)).2 with h3 | ⟨e3, g3⟩
        · exact Or.inl ((Cvar_SetQuick_vid_changed _ _ _ (by decide)).1 h3)
        · rw [e3]
          rcases (Cvar_SetQuick_vid_changed s .vid_fullscreen (if f then 1 else 0)
            (by decide)).2 with h4 | ⟨e4, g4⟩
          · exact Or.inl h4
          · exact Or.inr ⟨e4, g1, g2, g3, g4⟩

/-- A valid pending request on a platform that grants it exactly: the restart
returns, nothing is pending afterwards, and both the four cvars and the live
surface are the request. -/
theorem VID_Restart_granted (P : SDL σ) (t : VidState σ) (hl : t.vid_locked = false)
    (hc : t.vid_changed = true)
    (hv : VID_ValidMode P t.cv t.cv.vid_width t.cv.vid_height t.cv.vid_bpp
      (t.cv.vid_fullscreen != 0) = true)
    (hG : Grants P t.cv.vid_width t.cv.vid_height t.cv.vid_bpp (t.cv.vid_fullscreen != 0)) :
    ∃ s', VID_Restart P t = .ok s' ∧ s'.vid_changed = false ∧ s'.vid_locked = false ∧
      s'.cv.vid_width = t.cv.vid_width ∧ s'.cv.vid_height = t.cv.vid_height ∧
      s'.cv.vid_bpp = t.cv.vid_bpp ∧
      s'.cv.vid_fullscreen = (if (t.cv.vid_fullscreen != 0) = true then 1 else 0) ∧
      s'.cv.vid_desktopfullscreen = t.cv.vid_desktopfullscreen ∧
      VID_GetCurrentWidth P s' = t.cv.vid_width ∧ VID_GetCurrentHeight P s' = t.cv.vid_height ∧
      VID_GetCurrentBPP P s' = t.cv.vid_bpp ∧
      VID_GetFullscreen P s' = (t.cv.vid_fullscreen != 0) := by
  obtain ⟨s2, h2, gw, gh, gb, gf⟩ := hG { t with trace := t.trace ++ teardown_hooks }
  obtain ⟨s', hs', hsdl, hcv, hcv2, hd2, hch, hlk, _, _⟩ :=
    VID_Restart_of_SetMode P t s2 hl hc hv h2
  obtain ⟨qw, qh, qb, qf, _, _⟩ := queries_congr P s2 s' hsdl
  have hsync := VID_SyncCvars_cv P s2
  rw [if_pos hd2, hcv2, gw, gh, gb, gf] at hsync
  refine ⟨s', hs', hch, hlk, ?_, ?_, ?_, ?_, ?_, qw.trans gw, qh.trans gh, qb.trans gb,
    qf.trans gf⟩
  · rw [hcv, hsync]
    simp
  · rw [hcv, hsync]
    simp
  · rw [hcv, hsync]
  · rw [hcv, hsync]
  · rw [hcv, hsync]

theorem VID_ValidMode_congr (P : SDL σ) (cv cv' : Cvars) (width height bpp : Int)
    (fullscreen : Bool) (h : cv'.vid_desktopfullscreen = cv.vid_desktopfullscreen) :
    VID_ValidMode P cv' width height bpp fullscreen =
      VID_ValidMode P cv width height bpp fullscreen := by
  unfold VID_ValidMode
  rw [h]

theorem flag_ne_zero (f : Bool) : ((if f = true then (1 : Int) else 0) != 0) = f := by
  cases f <;> rfl

theorem flag_injective (f g : Bool)
    (h : (if f = true then (1 : Int) else 0) = (if g = true then (1 : Int) else 0)) : f = g := by
  cases f <;> cases g <;> simp_all

/-- The reverting restart of `VID_Test`: pending, with the snapshot in the four
cvars, the snapshot a valid mode that the platform grants exactly. -/
theorem VID_Test_final (P : SDL σ) (cv₀ : Cvars) (r : VidState σ) (w h b : Int) (f : Bool)
    (hl : r.vid_locked = false) (hc : r.vid_changed = true)
    (hw : r.cv.vid_width = w) (hh : r.cv.vid_height = h) (hb : r.cv.vid_bpp = b)
    (hf : r.cv.vid_fullscreen = (if f = true then 1 else 0))
    (hd : r.cv.vid_desktopfullscreen = cv₀.vid_desktopfullscreen)
    (hv : VID_ValidMode P cv₀ w h b f = true) (hG : Grants P w h b f) :
    ∃ s', VID_Restart P r = .ok s' ∧
      s'.cv.vid_width = w ∧ s'.cv.vid_height = h ∧ s'.cv.vid_bpp = b ∧
      s'.cv.vid_fullscreen = (if f = true then 1 else 0) ∧
      VID_GetCurrentWidth P s' = w ∧ VID_GetCurrentHeight P s' = h ∧
      VID_GetCurrentBPP P s' = b ∧ VID_GetFullscreen P s' = f := by
  have hfb : (r.cv.vid_fullscreen != 0) = f := by rw [hf, flag_ne_zero]
  have hv' : VID_ValidMode P r.cv r.cv.vid_width r.cv.vid_height r.cv.vid_bpp
      (r.cv.vid_fullscreen != 0) = true := by
    rw [hw, hh, hb, hfb, VID_ValidMode_congr P cv₀ r.cv w h b f hd]
    exact hv
  have hG' : Grants P r.cv.vid_width r.cv.vid_height r.cv.vid_bpp (r.cv.vid_fullscreen != 0) := by
    rw [hw, hh, hb, hfb]
    exact hG
  obtain ⟨s', hs', _, _, cw, ch, cb, cf, _, gw, gh, gb, gf⟩ := VID_Restart_granted P r hl hc hv' hG'
  rw [hfb] at cf gf
  exact ⟨s', hs', cw.trans hw, ch.trans hh, cb.trans hb, cf, gw.trans hw, gh.trans hh,
    gb.trans hb, gf⟩

/-- `VID_Test` with the confirmation declined, behind its gate. -/
theorem VID_Test_declined_eq (P : SDL σ) (s : VidState σ) (hl : s.vid_locked = false)
    (hc : s.vid_changed = true) :
    VID_Test P false s =
      match VID_Restart P s with
      | .error e => .error e
      | .ok s1 =>
        VID_Restart P (Cvar_SetQuick (Cvar_SetValueQuick (Cvar_SetValueQuick (Cvar_SetValueQuick
          (emit s1 .SCR_ModalMessage) .vid_width (VID_GetCurrentWidth P s))
          .vid_height (VID_GetCurrentHeight P s)) .vid_bpp (VID_GetCurrentBPP P s))
          .vid_fullscreen (if VID_GetFullscreen P s = true then 1 else 0)) := by
  unfold VID_Test
  rw [if_neg (by simp [hl, hc])]
  rfl

/-- C10, amended.  Unlocked, with a change pending; the platform grants the
requested mode exactly (if the request is valid at all) and grants the mode
of the snapshot exactly; and the snapshotted live mode (width, height, bpp,
fullscreen) itself passes `VID_ValidMode`.  Then `VID_Test` with the
confirmation declined returns, and `vid_width`, `vid_height`, `vid_bpp`,
`vid_fullscreen` and the live surface are all as snapshotted before the
trial. -/
theorem VID_Test_declined_reverts (P : SDL σ) (s : VidState σ) (hl : s.vid_locked = false)
    (hc : s.vid_changed = true)
    (hR : VID_ValidMode P s.cv s.cv.vid_width s.cv.vid_height s.cv.vid_bpp
        (s.cv.vid_fullscreen != 0) = true →
      Grants P s.cv.vid_width s.cv.vid_height s.cv.vid_bpp (s.cv.vid_fullscreen != 0))
    (hLv : VID_ValidMode P s.cv (VID_GetCurrentWidth P s) (VID_GetCurrentHeight P s)
      (VID_GetCurrentBPP P s) (VID_GetFullscreen P s) = true)
    (hL : Grants P (VID_GetCurrentWidth P s) (VID_GetCurrentHeight P s)
      (VID_GetCurrentBPP P s) (VID_GetFullscreen P s)) :
    ∃ s', VID_Test P false s = .ok s' ∧
      s'.cv.vid_width = VID_GetCurrentWidth P s ∧
      s'.cv.vid_height = VID_GetCurrentHeight P s ∧
      s'.cv.vid_bpp = VID_GetCurrentBPP P s ∧
      s'.cv.vid_fullscreen = (if VID_GetFullscreen P s = true then 1 else 0) ∧
      VID_GetCurrentWidth P s' = VID_GetCurrentWidth P s ∧
      VID_GetCurrentHeight P s' = VID_GetCurrentHeight P s ∧
      VID_GetCurrentBPP P s' = VID_GetCurrentBPP P s ∧
      VID_GetFullscreen P s' = VID_GetFullscreen P s := by
  rw [VID_Test_declined_eq P s hl hc]
  by_cases hv : VID_ValidMode P s.cv s.cv.vid_width s.cv.vid_height s.cv.vid_bpp
      (s.cv.vid_fullscreen != 0) = true
  · -- the trial is applied
    obtain ⟨s1, h1, hch1, hl1, cw, ch, cb, cf, cdf, gw, gh, gb, gf⟩ :=
      VID_Restart_granted P s hl hc hv (hR hv)
    rw [h1]
    obtain ⟨rcv, rsdl, rlk, _, rchg⟩ := VID_Test_revert_spec (emit s1 .SCR_ModalMessage)
      (VID_GetCurrentWidth P s) (VID_GetCurrentHeight P s) (VID_GetCurrentBPP P s)
      (VID_GetFullscreen P s)
    rcases rchg with hchg | ⟨req, e1, e2, e3, e4⟩
    · exact VID_Test_final P s.cv _ _ _ _ _ (rlk.trans hl1) hchg (by rw [rcv]) (by rw [rcv])
        (by rw [rcv]) (by rw [rcv]) (by rw [rcv]; exact cdf) hLv hL
    · -- the trial left the four cvars at the snapshot: nothing to revert
      dsimp only
      rw [req, VID_Restart_gate P (emit s1 .SCR_ModalMessage) (Or.inr hch1)]
      obtain ⟨qw, qh, qb, qf, _, _⟩ := queries_congr P s1 (emit s1 .SCR_ModalMessage) rfl
      have e1' : s1.cv.vid_width = VID_GetCurrentWidth P s := e1
      have e2' : s1.cv.vid_height = VID_GetCurrentHeight P s := e2
      have e3' : s1.cv.vid_bpp = VID_GetCurrentBPP P s := e3
      have e4' : s1.cv.vid_fullscreen = (if VID_GetFullscreen P s = true then 1 else 0) := e4
      refine ⟨_, rfl, e1', e2', e3', e4', ?_, ?_, ?_, ?_⟩
      · rw [qw, gw, ← cw, e1']
      · rw [qh, gh, ← ch, e2']
      · rw [qb, gb, ← cb, e3']
      · rw [qf, gf]
        exact flag_injective _ _ (cf.symm.trans e4')
  · -- the trial is rejected; the revert then runs from the untouched surface
    have hv0 : VID_ValidMode P s.cv s.cv.vid_width s.cv.vid_height s.cv.vid_bpp
        (s.cv.vid_fullscreen != 0) = false := by simpa using hv
    rw [VID_Restart_rejects P s hl hc hv0]
    obtain ⟨rcv, rsdl, rlk, rmono, _⟩ := VID_Test_revert_spec
      (emit ({ s with trace := s.trace ++ [.Con_Printf_not_a_valid_mode s.cv.vid_width
        s.cv.vid_height s.cv.vid_bpp (s.cv.vid_fullscreen != 0)] } : VidState σ)
        .SCR_ModalMessage)
      (VID_GetCurrentWidth P s) (VID_GetCurrentHeight P s) (VID_GetCurrentBPP P s)
      (VID_GetFullscreen P s)
    exact VID_Test_final P s.cv _ _ _ _ _ (rlk.trans hl) (rmono hc) (by rw [rcv]) (by rw [rcv])
      (by rw [rcv]) (by rw [rcv]) (by rw [rcv]; rfl) hLv hL

/-! ## The in-memory platform grants the modes its display lists -/

theorem memSDL_SDL_CreateWindow (modes : List SDL_DisplayMode) (p : Win) (w h : Int) (f : Nat) :
    (memSDL modes).SDL_CreateWindow p w h f = ({ p with w := w, h := h, flags := f }, true) :=
  rfl

theorem memSDL_SDL_SetWindowFullscreen (modes : List SDL_DisplayMode) (p : Win) (f : Nat) :
    (memSDL modes).SDL_SetWindowFullscreen p f = ({ p with flags := f }, 0) :=
  rfl

theorem memSDL_SDL_SetWindowSize (modes : List SDL_DisplayMode) (p : Win) (w h : Int) :
    (memSDL modes).SDL_SetWindowSize p w h = { p with w := w, h := h } :=
  rfl

theorem memSDL_SDL_SetWindowPosition (modes : List SDL_DisplayMode) (p : Win) :
    (memSDL modes).SDL_SetWindowPosition p = p :=
  rfl

theorem memSDL_SDL_SetWindowDisplayMode (modes : List SDL_DisplayMode) (p : Win)
    (m : SDL_DisplayMode) :
    (memSDL modes).SDL_SetWindowDisplayMode p (some m) = { p with format := m.format } :=
  rfl

theorem memSDL_SDL_GL_CreateContext (modes : List SDL_DisplayMode) (p : Win) :
    (memSDL modes).SDL_GL_CreateContext p = (p, true) :=
  rfl

theorem memSDL_SDL_GL_SetSwapInterval (modes : List SDL_DisplayMode) (p : Win) (n : Int) :
    (memSDL modes).SDL_GL_SetSwapInterval p n = ({ p with swap := n }, 0) :=
  rfl

theorem memSDL_SDL_GetWindowFlags (modes : List SDL_DisplayMode) (p : Win) :
    (memSDL modes).SDL_GetWindowFlags p = p.flags :=
  rfl

theorem memSDL_flag_constants (modes : List SDL_DisplayMode) :
    (memSDL modes).SDL_WINDOW_FULLSCREEN = 1 ∧
    (memSDL modes).SDL_WINDOW_FULLSCREEN_DESKTOP = 4097 :=
  ⟨rfl, rfl⟩

theorem memSDL_window (modes : List SDL_DisplayMode) (s : VidState Win) (w h : Int) :
    ∃ s1, VID_SetMode_window (memSDL modes) s w h = .ok s1 := by
  unfold VID_SetMode_window
  by_cases hd : s.draw_context = true
  · exact ⟨s, by simp [hd]⟩
  · have hd0 : s.draw_context = false := by simpa using hd
    simp only [hd0, Bool.not_false, if_true, VidState.SDL_CreateWindow, emit,
      memSDL_SDL_CreateWindow, Bool.not_true, Bool.false_eq_true, if_false]
    exact ⟨_, rfl⟩

theorem memSDL_unfullscreen (modes : List SDL_DisplayMode) (s : VidState Win) :
    ∃ s2, VID_SetMode_unfullscreen (memSDL modes) s = .ok s2 ∧ s2.sdl.flags &&& 1 = 0 := by
  unfold VID_SetMode_unfullscreen
  by_cases hf : VID_GetFullscreen (memSDL modes) s = true
  · rw [if_pos hf]
    simp only [VidState.SDL_SetWindowFullscreen, memSDL_SDL_SetWindowFullscreen, emit,
      bne_self_eq_false, Bool.false_eq_true, if_false]
    exact ⟨_, rfl, by simp⟩
  · rw [if_neg hf]
    refine ⟨s, rfl, ?_⟩
    simpa [VID_GetFullscreen, memSDL_SDL_GetWindowFlags, (memSDL_flag_constants modes).1]
      using hf

theorem memSDL_size (modes : List SDL_DisplayMode) (s : VidState Win) (w h b : Int)
    (m : SDL_DisplayMode) (hm : VID_SDL2_GetDisplayMode (memSDL modes) w h b = some m) :
    (VID_SetMode_size (memSDL modes) s w h b).sdl =
      { s.sdl with w := w, h := h, format := m.format } := by
  simp only [VID_SetMode_size, hm, VidState.SDL_SetWindowSize, VidState.SDL_SetWindowPosition,
    VidState.SDL_SetWindowDisplayMode, emit, memSDL_SDL_SetWindowSize,
    memSDL_SDL_SetWindowPosition, memSDL_SDL_SetWindowDisplayMode]

theorem memSDL_fullscreen (modes : List SDL_DisplayMode) (s : VidState Win) (f : Bool)
    (h0 : s.sdl.flags &&& 1 = 0) :
    ∃ s4, VID_SetMode_fullscreen (memSDL modes) s f = .ok s4 ∧ s4.sdl.w = s.sdl.w ∧
      s4.sdl.h = s.sdl.h ∧ s4.sdl.format = s.sdl.format ∧ (s4.sdl.flags &&& 1 != 0) = f := by
  unfold VID_SetMode_fullscreen
  cases f with
  | false =>
    refine ⟨s, by simp, rfl, rfl, rfl, ?_⟩
    simp [h0]
  | true =>
    simp only [if_true, VidState.SDL_SetWindowFullscreen, memSDL_SDL_SetWindowFullscreen, emit,
      bne_self_eq_false, Bool.false_eq_true, if_false, (memSDL_flag_constants modes).1,
      (memSDL_flag_constants modes).2]
    refine ⟨_, rfl, rfl, rfl, rfl, ?_⟩
    by_cases hd : (s.cv.vid_desktopfullscreen != 0) = true
    · simp only [hd, if_true]
      decide
    · simp only [hd, if_false]
      decide

theorem memSDL_context (modes : List SDL_DisplayMode) (s : VidState Win) :
    ∃ s5, VID_SetMode_context (memSDL modes) s = .ok s5 ∧ s5.sdl = s.sdl := by
  unfold VID_SetMode_context
  by_cases hg : s.gl_context = true
  · exact ⟨s, by simp [hg], rfl⟩
  · have hg0 : s.gl_context = false := by simpa using hg
    simp only [hg0, Bool.not_false, if_true, VidState.SDL_GL_CreateContext,
      memSDL_SDL_GL_CreateContext, emit, Bool.not_true, Bool.false_eq_true, if_false]
    exact ⟨_, rfl, rfl⟩

theorem memSDL_swap (modes : List SDL_DisplayMode) (s : VidState Win) :
    (VID_SetMode_swap (memSDL modes) s).sdl.w = s.sdl.w ∧
    (VID_SetMode_swap (memSDL modes) s).sdl.h = s.sdl.h ∧
    (VID_SetMode_swap (memSDL modes) s).sdl.format = s.sdl.format ∧
    (VID_SetMode_swap (memSDL modes) s).sdl.flags = s.sdl.flags := by
  simp only [VID_SetMode_swap, VidState.SDL_GL_SetSwapInterval, memSDL_SDL_GL_SetSwapInterval,
    emit]
  split <;> exact ⟨rfl, rfl, rfl, rfl⟩

/-- The in-memory platform grants every mode its display lists, provided the
width is not zero. -/
theorem memSDL_grants (modes : List SDL_DisplayMode) (w h b : Int) (f : Bool)
    (m : SDL_DisplayMode) (hm : VID_SDL2_GetDisplayMode (memSDL modes) w h b = some m)
    (hw : w ≠ 0) : Grants (memSDL modes) w h b f := by
  intro s
  have hfmt : (m.format : Int) = b := (VID_SDL2_GetDisplayMode_some _ _ _ _ _ hm).2.2
  unfold VID_SetMode
  dsimp only
  obtain ⟨s1, h1⟩ := memSDL_window modes (VID_SetMode_attributes (memSDL modes)
    { emit s (.VID_SetMode w h b f) with scr_disabled_for_loading := 1 } b) w h
  rw [h1]
  dsimp only
  obtain ⟨s2, h2, fl2⟩ := memSDL_unfullscreen modes s1
  rw [h2]
  dsimp only
  have h3 := memSDL_size modes s2 w h b m hm
  obtain ⟨s4, h4, w4, hh4, f4, fl4⟩ := memSDL_fullscreen modes
    (VID_SetMode_size (memSDL modes) s2 w h b) f (by rw [h3]; exact fl2)
  rw [h4]
  dsimp only
  obtain ⟨s5, h5, sdl5⟩ := memSDL_context modes (s4.SDL_ShowWindow (memSDL modes))
  rw [h5]
  dsimp only
  obtain ⟨w6, hh6, f6, fl6⟩ := memSDL_swap modes s5
  have sdl5' : s5.sdl = s4.sdl := sdl5
  have hwidth : VID_GetCurrentWidth (memSDL modes) (VID_SetMode_swap (memSDL modes) s5) = w := by
    show (VID_SetMode_swap (memSDL modes) s5).sdl.w = w
    rw [w6, sdl5', w4, h3]
  have hret : ∀ temp : Int, ∃ s7, VID_SetMode_readback (memSDL modes)
      (VID_SetMode_swap (memSDL modes) s5) temp = .ok s7 := by
    intro temp
    simp only [VID_SetMode_readback, hwidth, if_neg hw]
    exact ⟨_, rfl⟩
  obtain ⟨s7, hr⟩ := hret (emit s (.VID_SetMode w h b f)).scr_disabled_for_loading
  rw [hr]
  obtain ⟨_, sdl7, _, _, _⟩ := VID_SetMode_readback_ok _ _ _ _ hr
  refine ⟨s7, rfl, ?_, ?_, ?_, ?_⟩
  · show s7.sdl.w = w
    rw [sdl7, w6, sdl5', w4, h3]
  · show s7.sdl.h = h
    rw [sdl7, hh6, sdl5', hh4, h3]
  · show (s7.sdl.format : Int) = b
    rw [sdl7, f6, sdl5', f4, h3]
    exact hfmt
  · show (s7.sdl.flags &&& 1 != 0) = f
    rw [sdl7, fl6, sdl5']
    exact fl4

/-- C10 as stated fails.  The display offers 640x480 with 8 and with 16 bits
per pixel and the platform grants both modes exactly; the live surface is
640x480x8 windowed, 640x480x16 windowed is requested and pending, the session
is unlocked.  `VID_Test` with the confirmation declined returns with `vid_bpp`
back at 8 but with the live surface still at 16 bits per pixel: the snapshot
640x480x8 is not a valid mode, so the reverting `VID_Restart` refuses it. -/
theorem VID_Test_declined_counterexample :
    pendingLowColour.vid_locked = false ∧ pendingLowColour.vid_changed = true ∧
    Grants lowColour 640 480 16 false ∧ Grants lowColour 640 480 8 false ∧
    VID_GetCurrentWidth lowColour pendingLowColour = 640 ∧
    VID_GetCurrentHeight lowColour pendingLowColour = 480 ∧
    VID_GetCurrentBPP lowColour pendingLowColour = 8 ∧
    VID_GetFullscreen lowColour pendingLowColour = false ∧
    VID_Test lowColour false pendingLowColour =
      .ok (returned pendingLowColour (VID_Test lowColour false pendingLowColour)) ∧
    (returned pendingLowColour (VID_Test lowColour false pendingLowColour)).cv.vid_bpp = 8 ∧
    VID_GetCurrentBPP lowColour
      (returned pendingLowColour (VID_Test lowColour false pendingLowColour)) = 16 :=
  ⟨rfl, rfl,
    memSDL_grants _ 640 480 16 false ⟨16, 640, 480, 60⟩ (by decide) (by decide),
    memSDL_grants _ 640 480 8 false ⟨8, 640, 480, 60⟩ (by decide) (by decide),
    by decide, by decide, by decide, by decide, by rfl, by rfl, by rfl⟩

/-- C10 amended, on the input of the spec: live surface 800x600x16 windowed,
640x480x32 fullscreen on trial, confirmation declined. -/
theorem VID_Test_declined_reverts_witness :
    ∃ s', VID_Test someModes false pending640 = .ok s' ∧
      s'.cv.vid_width = 800 ∧ s'.cv.vid_height = 600 ∧ s'.cv.vid_bpp = 16 ∧
      s'.cv.vid_fullscreen = 0 ∧
      VID_GetCurrentWidth someModes s' = 800 ∧ VID_GetCurrentHeight someModes s' = 600 ∧
      VID_GetCurrentBPP someModes s' = 16 ∧ VID_GetFullscreen someModes s' = false :=
  VID_Test_declined_reverts someModes pending640 rfl rfl
    (fun _ => memSDL_grants _ 640 480 32 true ⟨32, 640, 480, 60⟩ (by decide) (by decide))
    (by decide)
    (memSDL_grants _ 800 600 16 false ⟨16, 800, 600, 60⟩ (by decide) (by decide))

/-! ## A rejected request is left as it is -/

/-- C13 as stated fails.  Over an 800x600x16 window, not desktop-fullscreen,
1024x768x32 fullscreen is requested on a display that does not list it; the
session is unlocked and the change pending.  `VID_Restart` rejects the mode
and returns with `vid_width` still 1024 and `vid_bpp` still 32 while the live
surface is 800 wide with 16 bits per pixel: nothing has been resynced. -/
theorem VID_Restart_invalid_not_resynced_counterexample :
    pendingInvalid.vid_locked = false ∧ pendingInvalid.vid_changed = true ∧
    VID_ValidMode someModes pendingInvalid.cv pendingInvalid.cv.vid_width
      pendingInvalid.cv.vid_height pendingInvalid.cv.vid_bpp
      (pendingInvalid.cv.vid_fullscreen != 0) = false ∧
    VID_Restart someModes pendingInvalid =
      .ok (returned pendingInvalid (VID_Restart someModes pendingInvalid)) ∧
    VID_GetDesktopFullscreen someModes
      (returned pendingInvalid (VID_Restart someModes pendingInvalid)) = false ∧
    (returned pendingInvalid (VID_Restart someModes pendingInvalid)).cv.vid_width = 1024 ∧
    VID_GetCurrentWidth someModes
      (returned pendingInvalid (VID_Restart someModes pendingInvalid)) = 800 ∧
    (returned pendingInvalid (VID_Restart someModes pendingInvalid)).cv.vid_bpp = 32 ∧
    VID_GetCurrentBPP someModes
      (returned pendingInvalid (VID_Restart someModes pendingInvalid)) = 16 := by
  refine ⟨rfl, rfl, by decide, by rfl, by rfl, by rfl, by rfl, by rfl, by rfl⟩

/-- C13, amended.  Unlocked and pending, with a requested mode that
`VID_ValidMode` rejects: `VID_Restart` returns, and on return every cvar
(`vid_width`, `vid_height`, `vid_bpp`, `vid_fullscreen`, `vid_vsync` among
them) holds the value it held before the call, the live surface is untouched
and `vid_changed` is still true.  The settings are not resynced. -/
theorem VID_Restart_invalid_keeps_request (P : SDL σ) (s : VidState σ)
    (hl : s.vid_locked = false) (hc : s.vid_changed = true)
    (hv : VID_ValidMode P s.cv s.cv.vid_width s.cv.vid_height s.cv.vid_bpp
      (s.cv.vid_fullscreen != 0) = false) :
    ∃ s', VID_Restart P s = .ok s' ∧ s'.cv = s.cv ∧ s'.sdl = s.sdl ∧
      s'.vid_changed = true ∧
      VID_GetCurrentWidth P s' = VID_GetCurrentWidth P s ∧
      VID_GetCurrentHeight P s' = VID_GetCurrentHeight P s ∧
      VID_GetCurrentBPP P s' = VID_GetCurrentBPP P s ∧
      VID_GetFullscreen P s' = VID_GetFullscreen P s ∧
      VID_GetVSync P s' = VID_GetVSync P s :=
  ⟨_, VID_Restart_rejects P s hl hc hv, rfl, rfl, hc, rfl, rfl, rfl, rfl, rfl⟩

/-- C13 amended, on an input: the rejected 1024x768x32 fullscreen request. -/
theorem VID_Restart_invalid_keeps_request_witness :
    ∃ s', VID_Restart someModes pendingInvalid = .ok s' ∧ s'.cv = pendingInvalid.cv ∧
      s'.sdl = pendingInvalid.sdl ∧ s'.vid_changed = true ∧
      VID_GetCurrentWidth someModes s' = VID_GetCurrentWidth someModes pendingInvalid ∧
      VID_GetCurrentHeight someModes s' = VID_GetCurrentHeight someModes pendingInvalid ∧
      VID_GetCurrentBPP someModes s' = VID_GetCurrentBPP someModes pendingInvalid ∧
      VID_GetFullscreen someModes s' = VID_GetFullscreen someModes pendingInvalid ∧
      VID_GetVSync someModes s' = VID_GetVSync someModes pendingInvalid :=
  VID_Restart_invalid_keeps_request someModes pendingInvalid rfl rfl (by decide)

/-! ## The console resolution -/

theorem land_FFFFFFF8 (n : Nat) (h : n < 4294967296) : n &&& 0xFFFFFFF8 = 8 * (n / 8) := by
  apply Nat.eq_of_testBit_eq
  intro i
  have hm : (0xFFFFFFF8 : Nat) = 2 ^ 3 * (2 ^ 29 - 1) := by norm_num
  have h8 : (8 : Nat) = 2 ^ 3 := by norm_num
  rw [Nat.testBit_and, hm, h8, Nat.testBit_mul_pow_two, Nat.testBit_mul_pow_two,
    Nat.testBit_two_pow_sub_one, ← Nat.shiftRight_eq_div_pow, Nat.testBit_shiftRight]
  by_cases h3 : i ≥ 3
  · have e : 3 + (i - 3) = i := by omega
    rw [e]
    by_cases h32 : i < 32
    · have : i - 3 < 29 := by omega
      simp [h3, this]
    · have hlt : n < 2 ^ i := by
        calc n < 2 ^ 32 := by simpa using h
          _ ≤ 2 ^ i := Nat.pow_le_pow_right (by norm_num) (by omega)
      simp [Nat.testBit_lt_two_pow hlt]
  · simp [h3]

/-- On a non-negative `int`, `& 0xFFFFFFF8` rounds down to a multiple of 8. -/
theorem and_FFFFFFF8_eq (x : Int) (h0 : 0 ≤ x) (h1 : x < 2147483648) :
    and_FFFFFFF8 x = x - x % 8 := by
  unfold and_FFFFFFF8
  have hx : (x % 4294967296).toNat = x.toNat := by omega
  have hn : x.toNat < 4294967296 := by omega
  simp only [hx, land_FFFFFFF8 x.toNat hn]
  rw [if_pos (by omega)]
  omega

theorem mul_int_of_fits (a b : Int) (h0 : 0 ≤ a * b) (h1 : a * b < 2147483648) :
    mul_int a b = a * b := by
  unfold mul_int
  generalize a * b = x at h0 h1
  have hx : (x % 4294967296).toNat = x.toNat := by omega
  simp only [hx]
  rw [if_pos (by omega)]
  omega

/-- Wrapping a non-negative product to 32 bits never makes it larger. -/
theorem mul_int_le (a b : Int) (h0 : 0 ≤ a * b) : mul_int a b ≤ a * b := by
  unfold mul_int
  generalize a * b = x at h0
  dsimp only
  split <;> omega

theorem tdiv_le_of_le_mul (v w h : Int) (hw : 0 < w) (hh : 0 ≤ h) (hv : v ≤ h * w) :
    Int.tdiv v w ≤ h := by
  by_cases h0 : 0 ≤ v
  · rw [Int.tdiv_eq_ediv h0 (le_of_lt hw)]
    exact Int.ediv_le_of_le_mul hw hv
  · have e : Int.tdiv v w = -(Int.tdiv (-v) w) := by
      rw [Int.neg_tdiv]
      simp
    have := Int.tdiv_nonneg (show 0 ≤ -v by omega) (le_of_lt hw)
    omega

/-- The facts about a console size computed from a masked width `c` (a
multiple of 8 between 320 and `w`) and the live size `w` x `h`. -/
theorem conheight_facts (c w h : Int) (hc0 : 0 ≤ c) (hcw : c ≤ w) (hw : 0 < w) (hh : 0 ≤ h) :
    Int.tdiv (mul_int c h) w ≤ h ∧
    (c * h < 2147483648 → Int.tdiv (mul_int c h) w = c * h / w) := by
  have hp : 0 ≤ c * h := Int.mul_nonneg hc0 hh
  refine ⟨?_, ?_⟩
  · apply tdiv_le_of_le_mul _ _ _ hw hh
    calc mul_int c h ≤ c * h := mul_int_le c h hp
      _ ≤ w * h := Int.mul_le_mul_of_nonneg_right hcw hh
      _ = h * w := Int.mul_comm w h
  · intro hfit
    rw [mul_int_of_fits c h hp hfit, Int.tdiv_eq_ediv hp (le_of_lt hw)]

/-- A masked width: a multiple of 8, the largest one not above the width. -/
theorem masked_width_facts (x : Int) (h0 : 320 ≤ x) (h1 : x < 2147483648) :
    and_FFFFFFF8 x = x - x % 8 ∧ 8 ∣ and_FFFFFFF8 x ∧ 320 ≤ and_FFFFFFF8 x ∧
    and_FFFFFFF8 x ≤ x ∧ ∀ m : Int, 8 ∣ m → m ≤ x → m ≤ and_FFFFFFF8 x := by
  have e := and_FFFFFFF8_eq x (by omega) h1
  rw [e]
  refine ⟨rfl, by omega, by omega, by omega, ?_⟩
  intro m hm hmx
  omega

theorem CLAMP_bounds (lo x hi : Int) (h : lo ≤ hi) : lo ≤ CLAMP lo x hi ∧ CLAMP lo x hi ≤ hi := by
  unfold CLAMP
  split
  · exact ⟨le_refl _, h⟩
  · split <;> constructor <;> omega

theorem VID_SetMode_readback_vid (P : SDL σ) (s s' : VidState σ) (temp : Int)
    (h : VID_SetMode_readback P s temp = .ok s') :
    s'.sdl = s.sdl ∧ s'.vid.width = VID_GetCurrentWidth P s ∧
    s'.vid.height = VID_GetCurrentHeight P s ∧
    s'.vid.conwidth = and_FFFFFFF8 (VID_GetCurrentWidth P s) ∧
    s'.vid.conheight = Int.tdiv (mul_int (and_FFFFFFF8 (VID_GetCurrentWidth P s))
      (VID_GetCurrentHeight P s)) (VID_GetCurrentWidth P s) := by
  simp only [VID_SetMode_readback, emit, ClearAllStates, List.append_assoc, List.cons_append,
    List.nil_append] at h
  obtain ⟨_, rfl⟩ := ite_error_ok h
  exact ⟨rfl, rfl, rfl, rfl, rfl⟩

theorem VID_SetMode_readback_total (P : SDL σ) (s : VidState σ) (temp : Int)
    (hw : VID_GetCurrentWidth P s ≠ 0) : ∃ s', VID_SetMode_readback P s temp = .ok s' := by
  simp only [VID_SetMode_readback, if_neg hw]
  exact ⟨_, rfl⟩

/-- A returning `VID_SetMode` ends in its read-back part. -/
theorem VID_SetMode_readback_of_ok (P : SDL σ) (s s' : VidState σ) (width height bpp : Int)
    (fullscreen : Bool) (h : VID_SetMode P s width height bpp fullscreen = .ok s') :
    ∃ t temp, VID_SetMode_readback P t temp = .ok s' := by
  unfold VID_SetMode at h
  simp only at h
  split at h
  · cases h
  · split at h
    · cases h
    · split at h
      · cases h
      · split at h
        · cases h
        · exact ⟨_, _, h⟩

/-- The `vid` record after a returning `VID_SetMode`, in terms of the live size. -/
theorem VID_SetMode_vid (P : SDL σ) (s s' : VidState σ) (width height bpp : Int)
    (fullscreen : Bool) (h : VID_SetMode P s width height bpp fullscreen = .ok s') :
    s'.vid.width = VID_GetCurrentWidth P s' ∧ s'.vid.height = VID_GetCurrentHeight P s' ∧
    s'.vid.conwidth = and_FFFFFFF8 s'.vid.width ∧
    s'.vid.conheight = Int.tdiv (mul_int s'.vid.conwidth s'.vid.height) s'.vid.width := by
  obtain ⟨t, temp, ht⟩ := VID_SetMode_readback_of_ok P s s' width height bpp fullscreen h
  obtain ⟨hsdl, hw, hh, hcw, hch⟩ := VID_SetMode_readback_vid P t s' temp ht
  obtain ⟨qw, qh, _⟩ := queries_congr P t s' hsdl
  rw [qw, qh, hcw, hch, hw, hh]
  exact ⟨rfl, rfl, rfl, rfl⟩

theorem Cvar_SetQuick_vid (s : VidState σ) (var : CvarId) (v : Int) :
    (Cvar_SetQuick s var v).vid = s.vid := by
  unfold Cvar_SetQuick
  split
  · rfl
  · cases var <;> simp only [VID_Changed_f, VID_FSAA_f, emit]
    split <;> rfl

theorem VID_SyncCvars_vid (P : SDL σ) (s : VidState σ) : (VID_SyncCvars P s).vid = s.vid := by
  unfold VID_SyncCvars
  by_cases hd : s.draw_context = true
  · by_cases hf : VID_GetDesktopFullscreen P s = true <;>
      simp [hd, hf, Cvar_SetValueQuick, Cvar_SetQuick_vid]
  · simp [hd]

theorem VID_Restart_grab_vid (s : VidState σ) : (VID_Restart_grab s).vid = s.vid := by
  unfold VID_Restart_grab
  split
  · split
    · rfl
    · split <;> rfl
  · rfl

/-- What `VID_Restart_console` computes, when the width is not zero. -/
theorem VID_Restart_console_vid (s s' : VidState σ) (h : VID_Restart_console s = .ok s') :
    s'.sdl = s.sdl ∧ s'.vid.width = s.vid.width ∧ s'.vid.height = s.vid.height ∧
    (∃ x, s'.vid.conwidth = and_FFFFFFF8 (CLAMP 320 x s.vid.width)) ∧
    s'.vid.conheight = Int.tdiv (mul_int s'.vid.conwidth s.vid.height) s.vid.width := by
  simp only [VID_Restart_console] at h
  obtain ⟨_, rfl⟩ := ite_error_ok h
  exact ⟨rfl, rfl, rfl, ⟨_, rfl⟩, rfl⟩

/-- The `vid` record after a returning restart that changed the mode. -/
theorem VID_Restart_vid (P : SDL σ) (s s' : VidState σ) (hl : s.vid_locked = false)
    (hc : s.vid_changed = true)
    (hv : VID_ValidMode P s.cv s.cv.vid_width s.cv.vid_height s.cv.vid_bpp
      (s.cv.vid_fullscreen != 0) = true)
    (h : VID_Restart P s = .ok s') :
    s'.vid.width = VID_GetCurrentWidth P s' ∧ s'.vid.height = VID_GetCurrentHeight P s' ∧
    (∃ x, s'.vid.conwidth = and_FFFFFFF8 (CLAMP 320 x s'.vid.width)) ∧
    s'.vid.conheight = Int.tdiv (mul_int s'.vid.conwidth s'.vid.height) s'.vid.width := by
  obtain ⟨s2, h2⟩ := VID_Restart_inv P s s' hl hc hv h
  rw [VID_Restart_eq P s hl hc hv, h2] at h
  obtain ⟨vw, vh, _, _⟩ := VID_SetMode_vid P _ s2 _ _ _ _ h2
  cases h3 : VID_Restart_console ({ s2 with trace := s2.trace ++ recreation_hooks } : VidState σ) with
  | error e =>
    simp only [h3] at h
    cases h
  | ok s3 =>
    simp only [h3] at h
    cases h
    obtain ⟨csdl, cw, ch, ⟨x, ccw⟩, cch⟩ := VID_Restart_console_vid _ s3 h3
    have hsdl : (VID_Restart_grab (VID_SyncCvars P s3)).sdl = s2.sdl := by
      rw [(VID_Restart_grab_spec _).1, VID_SyncCvars_sdl, csdl]
    obtain ⟨qw, qh, _⟩ := queries_congr P s2 _ hsdl
    have cw' : s3.vid.width = s2.vid.width := cw
    have ch' : s3.vid.height = s2.vid.height := ch
    rw [VID_Restart_grab_vid, VID_SyncCvars_vid, qw, qh, cw', ch']
    refine ⟨vw, vh, ⟨x, ccw⟩, cch⟩

theorem console_resolution_ok_of (v : viddef_t) (hw : 320 ≤ v.width) (hw2 : v.width < 2147483648)
    (hh : 0 ≤ v.height) (hc : ∃ x, v.conwidth = and_FFFFFFF8 (CLAMP 320 x v.width))
    (hch : v.conheight = Int.tdiv (mul_int v.conwidth v.height) v.width) :
    console_resolution_ok v := by
  obtain ⟨x, hx⟩ := hc
  obtain ⟨b1, b2⟩ := CLAMP_bounds 320 x v.width hw
  obtain ⟨_, m8, m320, mle, _⟩ := masked_width_facts (CLAMP 320 x v.width) b1 (by omega)
  rw [← hx] at m8 m320 mle
  obtain ⟨f1, f2⟩ := conheight_facts v.conwidth v.width v.height (by omega) (by omega)
    (by omega) hh
  rw [← hch] at f1 f2
  exact ⟨m8, m320, by omega, hch, f2, f1⟩

theorem CLAMP_self (w : Int) (hw : 320 ≤ w) : CLAMP 320 w w = w := by
  unfold CLAMP
  rw [if_neg (by omega), if_neg (by omega)]

theorem conwidth_is_masked_width_of (v : viddef_t) (hw : 320 ≤ v.width)
    (hw2 : v.width < 2147483648) (hc : v.conwidth = and_FFFFFFF8 v.width) :
    conwidth_is_masked_width v := by
  obtain ⟨e, _, _, _, hmax⟩ := masked_width_facts v.width hw hw2
  unfold conwidth_is_masked_width
  rw [hc]
  exact ⟨e, hmax⟩

/-- C19. For a live surface of width at least 320 (and within the range of
an `int`) and height at least 0:
(1) the read-back part of `VID_SetMode` returns, so its division has no zero
divisor, and leaves `vid.width`, `vid.height` at the live size with
`vid.conwidth` the largest multiple of 8 not exceeding `vid.width`, at least
320, and `vid.conheight = vid.conwidth * vid.height / vid.width <= vid.height`;
(2) the console part of `VID_Restart` returns too and leaves `vid.conwidth` a
multiple of 8 between 320 and `vid.width`, with the same `vid.conheight`;
(3), (4) the same holds of the state returned by the whole `VID_SetMode` and
by a whole `VID_Restart` that changed the mode. -/
theorem console_resolution (P : SDL σ) :
    (∀ (s : VidState σ) (temp : Int), 320 ≤ VID_GetCurrentWidth P s →
      VID_GetCurrentWidth P s < 2147483648 → 0 ≤ VID_GetCurrentHeight P s →
      ∃ s', VID_SetMode_readback P s temp = .ok s' ∧
        s'.vid.width = VID_GetCurrentWidth P s ∧ s'.vid.height = VID_GetCurrentHeight P s ∧
        console_resolution_ok s'.vid ∧ conwidth_is_masked_width s'.vid) ∧
    (∀ s : VidState σ, 320 ≤ s.vid.width → s.vid.width < 2147483648 → 0 ≤ s.vid.height →
      ∃ s', VID_Restart_console s = .ok s' ∧
        s'.vid.width = s.vid.width ∧ s'.vid.height = s.vid.height ∧
        console_resolution_ok s'.vid) ∧
    (∀ (s s' : VidState σ) (width height bpp : Int) (fullscreen : Bool),
      VID_SetMode P s width height bpp fullscreen = .ok s' →
      320 ≤ VID_GetCurrentWidth P s' → VID_GetCurrentWidth P s' < 2147483648 →
      0 ≤ VID_GetCurrentHeight P s' →
      s'.vid.width = VID_GetCurrentWidth P s' ∧ s'.vid.height = VID_GetCurrentHeight P s' ∧
        console_resolution_ok s'.vid ∧ conwidth_is_masked_width s'.vid) ∧
    (∀ s s' : VidState σ, s.vid_locked = false → s.vid_changed = true →
      VID_ValidMode P s.cv s.cv.vid_width s.cv.vid_height s.cv.vid_bpp
        (s.cv.vid_fullscreen != 0) = true →
      VID_Restart P s = .ok s' →
      320 ≤ VID_GetCurrentWidth P s' → VID_GetCurrentWidth P s' < 2147483648 →
      0 ≤ VID_GetCurrentHeight P s' →
      s'.vid.width = VID_GetCurrentWidth P s' ∧ s'.vid.height = VID_GetCurrentHeight P s' ∧
        console_resolution_ok s'.vid) := by
  refine ⟨?_, ?_, ?_, ?_⟩
  · intro s temp hw hw2 hh
    obtain ⟨s', hs'⟩ := VID_SetMode_readback_total P s temp (by omega)
    obtain ⟨_, vw, vh, vcw, vch⟩ := VID_SetMode_readback_vid P s s' temp hs'
    rw [← vw] at hw hw2
    rw [← vh] at hh
    rw [← vw] at vcw
    rw [← vw, ← vh, ← vcw] at vch
    exact ⟨s', hs', vw, vh,
      console_resolution_ok_of s'.vid hw hw2 hh
        ⟨s'.vid.width, by rw [CLAMP_self _ hw]; exact vcw⟩ vch,
      conwidth_is_masked_width_of s'.vid hw hw2 vcw⟩
  · intro s hw hw2 hh
    obtain ⟨s', hs', _⟩ := VID_Restart_console_ok s (by omega)
    obtain ⟨_, vw, vh, ⟨x, vcw⟩, vch⟩ := VID_Restart_console_vid s s' hs'
    rw [← vw] at hw hw2 vcw vch
    rw [← vh] at hh vch
    exact ⟨s', hs', vw, vh, console_resolution_ok_of s'.vid hw hw2 hh ⟨x, vcw⟩ vch⟩
  · intro s s' width height bpp fullscreen h hw hw2 hh
    obtain ⟨vw, vh, vcw, vch⟩ := VID_SetMode_vid P s s' width height bpp fullscreen h
    rw [← vw] at hw hw2
    rw [← vh] at hh
    exact ⟨vw, vh,
      console_resolution_ok_of s'.vid hw hw2 hh
        ⟨s'.vid.width, by rw [CLAMP_self _ hw]; exact vcw⟩ vch,
      conwidth_is_masked_width_of s'.vid hw hw2 vcw⟩
  · intro s s' hl hc hv h hw hw2 hh
    obtain ⟨vw, vh, vcw, vch⟩ := VID_Restart_vid P s s' hl hc hv h
    rw [← vw] at hw hw2
    rw [← vh] at hh
    exact ⟨vw, vh, console_resolution_ok_of s'.vid hw hw2 hh vcw vch⟩

/-! ## The fullscreen toggle -/

theorem Cvar_SetQuick_vid_toggle_works (s : VidState σ) (var : CvarId) (v : Int) :
    (Cvar_SetQuick s var v).vid_toggle_works = s.vid_toggle_works := by
  unfold Cvar_SetQuick
  split
  · rfl
  · cases var <;> simp only [VID_Changed_f, VID_FSAA_f, emit]
    split <;> rfl

theorem VID_Toggle_vrestart_spec (P : SDL σ) (s : VidState σ) :
    (VID_Toggle_vrestart P s).trace = s.trace ++ [.Cbuf_AddText_vid_restart] ∧
    (VID_Toggle_vrestart P s).sdl = s.sdl ∧
    (VID_Toggle_vrestart P s).cv =
      s.cv.set .vid_fullscreen (if VID_GetFullscreen P s then 0 else 1) ∧
    (VID_Toggle_vrestart P s).vid_toggle_works = s.vid_toggle_works := by
  unfold VID_Toggle_vrestart
  refine ⟨?_, ?_, ?_, ?_⟩
  · show (Cvar_SetQuick s _ _).trace ++ _ = _
    rw [Cvar_SetQuick_trace _ _ _ (by decide)]
  · show (Cvar_SetQuick s _ _).sdl = _
    rw [Cvar_SetQuick_sdl]
  · show (Cvar_SetQuick s _ _).cv = _
    rw [Cvar_SetQuick_cv]
  · show (Cvar_SetQuick s _ _).vid_toggle_works = _
    rw [Cvar_SetQuick_vid_toggle_works]

/-- With the capability flag false, `VID_Toggle` takes the full-restart path
and leaves the flag false. -/
theorem VID_Toggle_restart_path (P : SDL σ) (s : VidState σ) (h : s.vid_toggle_works = false) :
    full_restart_path P s (VID_Toggle P s) ∧ (VID_Toggle P s).vid_toggle_works = false := by
  have e : VID_Toggle P s = VID_Toggle_vrestart P (emit s .S_ClearBuffer) := by
    unfold VID_Toggle
    have : (emit s .S_ClearBuffer).vid_toggle_works = false := h
    simp only [this, Bool.not_false, if_true]
  obtain ⟨ht, hs, hc, hw⟩ := VID_Toggle_vrestart_spec P (emit s .S_ClearBuffer)
  rw [e]
  refine ⟨⟨?_, hs, hc, ?_⟩, hw.trans h⟩
  · rw [ht]
    simp [emit]
  · rw [hc]
    rfl

/-- A rejected direct flip switches the capability flag off. -/
theorem VID_Toggle_rejected (P : SDL σ) (s : VidState σ) (h : flip_rejected P s) :
    (VID_Toggle P s).vid_toggle_works = false := by
  obtain ⟨hw, hv, hr⟩ := h
  have hw' : (emit s .S_ClearBuffer).vid_toggle_works = true := hw
  have hv' : (emit s .S_ClearBuffer).gl_vbo_able = false := hv
  unfold VID_Toggle
  simp only [hw', hv', Bool.not_true, Bool.false_eq_true, if_false]
  have hr' : (((emit s .S_ClearBuffer).SDL_SetWindowFullscreen P
      (if (!VID_GetFullscreen P (emit s .S_ClearBuffer)) = true then
        (if (s.cv.vid_desktopfullscreen != 0) = true then P.SDL_WINDOW_FULLSCREEN_DESKTOP
          else P.SDL_WINDOW_FULLSCREEN)
        else 0)).2 == 0) = false := by
    have hq : VID_GetFullscreen P (emit s .S_ClearBuffer) = VID_GetFullscreen P s := rfl
    rw [hq]
    exact beq_false_of_ne hr
  have hc : (emit s .S_ClearBuffer).cv = s.cv := rfl
  simp only [hc, hr', Bool.false_eq_true, if_false]
  rw [(VID_Toggle_vrestart_spec P _).2.2.2]
  rfl

/-- `VID_Toggle` never switches the capability flag on. -/
theorem VID_Toggle_flag_mono (P : SDL σ) (s : VidState σ)
    (h : (VID_Toggle P s).vid_toggle_works = true) : s.vid_toggle_works = true := by
  by_contra hn
  have hf : s.vid_toggle_works = false := by simpa using hn
  rw [(VID_Toggle_restart_path P s hf).2] at h
  cases h

theorem toggle_or_other_flag (P : SDL σ) (s t : VidState σ)
    (hst : Relation.ReflTransGen (toggle_or_other P) s t) (h : s.vid_toggle_works = false) :
    t.vid_toggle_works = false := by
  induction hst with
  | refl => exact h
  | tail _ hstep ih =>
    rcases hstep with rfl | hk
    · exact (VID_Toggle_restart_path P _ ih).2
    · exact hk.trans ih

/-- C12. The capability flag of `VID_Toggle` is never re-enabled.  Let `s` be a
state in which the flag is false, or the state `VID_Toggle` returns when the
platform has rejected its direct fullscreen flip, and let `t` be any state
reached from `s` by calls of `VID_Toggle` and by steps of other code (which
cannot write the function-local flag).  Then the flag is false in `t`, and a
call of `VID_Toggle` in `t` takes the full-restart path: its outgoing calls
are `S_ClearBuffer` and the queueing of `vid_restart` and no direct flip, the
platform state is untouched, `vid_fullscreen` becomes the negation of the live
fullscreen state, and the flag remains false. -/
theorem VID_Toggle_never_reenabled (P : SDL σ) (s₀ s t : VidState σ)
    (h : s.vid_toggle_works = false ∨ (flip_rejected P s₀ ∧ s = VID_Toggle P s₀))
    (hst : Relation.ReflTransGen (toggle_or_other P) s t) :
    t.vid_toggle_works = false ∧ full_restart_path P t (VID_Toggle P t) ∧
    (VID_Toggle P t).vid_toggle_works = false := by
  have hs : s.vid_toggle_works = false := by
    rcases h with h | ⟨hr, rfl⟩
    · exact h
    · exact VID_Toggle_rejected P s₀ hr
  have ht := toggle_or_other_flag P s t hst hs
  exact ⟨ht, VID_Toggle_restart_path P t ht⟩

/-- On a platform that rejects the flip, the first `VID_Toggle` of a session
with the flag set tries the flip once; the third one (after a second one) does
not try it again. -/
theorem VID_Toggle_never_reenabled_witness :
    flip_rejected noFlip flipUntried ∧
    (VID_Toggle noFlip flipUntried).trace =
      [.S_ClearBuffer, .SDL_SetWindowFullscreen 1, .Con_DPrintf_toggle_failed,
       .Cbuf_AddText_vid_restart] ∧
    (VID_Toggle noFlip (VID_Toggle noFlip flipUntried)).vid_toggle_works = false ∧
    full_restart_path noFlip (VID_Toggle noFlip (VID_Toggle noFlip flipUntried))
      (VID_Toggle noFlip (VID_Toggle noFlip (VID_Toggle noFlip flipUntried))) ∧
    (VID_Toggle noFlip (VID_Toggle noFlip (VID_Toggle noFlip flipUntried))).vid_toggle_works
      = false :=
  have hr : flip_rejected noFlip flipUntried := ⟨rfl, rfl, by decide⟩
  ⟨hr, by decide,
    VID_Toggle_never_reenabled noFlip flipUntried (VID_Toggle noFlip flipUntried)
      (VID_Toggle noFlip (VID_Toggle noFlip flipUntried)) (Or.inr ⟨hr, rfl⟩)
      (.tail .refl (Or.inl rfl))⟩

/-! ## The menu's list of sizes -/

theorem mem_first_occurrences {α : Type} [DecidableEq α] (l : List α) (a : α) :
    a ∈ first_occurrences l ↔ a ∈ l := by
  induction l with
  | nil => simp [first_occurrences]
  | cons x xs ih =>
    simp only [first_occurrences, List.mem_cons, List.mem_filter, ih, decide_eq_true_eq]
    by_cases h : a = x
    · simp [h]
    · simp [h]

theorem nodup_first_occurrences {α : Type} [DecidableEq α] (l : List α) :
    (first_occurrences l).Nodup := by
  induction l with
  | nil => simp [first_occurrences]
  | cons x xs ih =>
    simp only [first_occurrences, List.nodup_cons, List.mem_filter, decide_eq_true_eq]
    exact ⟨fun h => h.2 rfl, ih.filter _⟩

theorem length_first_occurrences_le {α : Type} [DecidableEq α] (l : List α) :
    (first_occurrences l).length ≤ l.length := by
  induction l with
  | nil => simp [first_occurrences]
  | cons x xs ih =>
    simp only [first_occurrences, List.length_cons]
    exact Nat.succ_le_succ ((List.length_filter_le _ _).trans ih)

/-- The elements of `first_occurrences l` stand in the order of their first
positions in `l`. -/
theorem first_occurrences_sorted {α : Type} [DecidableEq α] (l : List α) :
    (first_occurrences l).Pairwise (fun a b => l.indexOf a < l.indexOf b) := by
  induction l with
  | nil => simp [first_occurrences]
  | cons x xs ih =>
    simp only [first_occurrences, List.pairwise_cons, List.mem_filter, decide_eq_true_eq]
    constructor
    · rintro b ⟨_, hb⟩
      rw [List.indexOf_cons_self, List.indexOf_cons_ne _ (Ne.symm hb)]
      exact Nat.succ_pos _
    · refine List.Pairwise.imp_of_mem ?_ (ih.filter _)
      intro a b ha hb hab
      have ha' := (List.mem_filter.mp ha).2
      have hb' := (List.mem_filter.mp hb).2
      simp only [decide_eq_true_eq] at ha' hb'
      rw [List.indexOf_cons_ne _ (Ne.symm ha'), List.indexOf_cons_ne _ (Ne.symm hb')]
      exact Nat.succ_lt_succ hab

/-- Appending every element not yet in the accumulator appends the first
occurrences of the new elements. -/
theorem foldl_append_new {α : Type} [DecidableEq α] (l acc : List α) :
    l.foldl (fun acc x => if x ∈ acc then acc else acc ++ [x]) acc =
      acc ++ (first_occurrences l).filter (fun x => x ∉ acc) := by
  induction l generalizing acc with
  | nil => simp [first_occurrences]
  | cons x xs ih =>
    rw [List.foldl_cons, ih]
    by_cases hx : x ∈ acc
    · rw [if_pos hx]
      simp only [first_occurrences, List.filter_cons, hx, not_true_eq_false, decide_False,
        Bool.false_eq_true, if_false, List.filter_filter]
      congr 1
      apply List.filter_congr
      intro a _
      by_cases ha : a ∈ acc
      · simp [ha]
      · have : a ≠ x := fun e => ha (e ▸ hx)
        simp [ha, this]
    · rw [if_neg hx]
      simp only [first_occurrences, List.filter_cons, hx, not_false_eq_true, decide_True,
        if_true, List.filter_filter, List.append_assoc, List.singleton_append]
      congr 2
      apply List.filter_congr
      intro a _
      simp [not_or]

/-- The inner loop of `VID_Menu_Init` runs to the end of the list exactly when
the size is not in the list yet. -/
theorem VID_Menu_Init_step_eq (menu : List vid_menu_mode) (m : vmode_t) :
    VID_Menu_Init_step menu m =
      if (⟨m.width, m.height⟩ : vid_menu_mode) ∈ menu then menu
      else menu ++ [⟨m.width, m.height⟩] := by
  unfold VID_Menu_Init_step
  by_cases hm : (⟨m.width, m.height⟩ : vid_menu_mode) ∈ menu
  · rw [if_pos hm, if_neg]
    intro hj
    have := (List.findIdx_eq_length.mp hj) _ hm
    simp at this
  · rw [if_neg hm, if_pos]
    rw [List.findIdx_eq_length]
    intro x hx
    by_contra hp
    simp only [Bool.not_eq_false, Bool.and_eq_true, beq_iff_eq] at hp
    apply hm
    have : x = ⟨m.width, m.height⟩ := by
      cases x
      simp only [vid_menu_mode.mk.injEq]
      exact hp
    rw [← this]
    exact hx

theorem VID_Menu_Init_list (s : VidState σ) :
    (VID_Menu_Init s).vid_menu_modes =
      s.vid_menu_modes ++
        (first_occurrences (menu_sizes s.modelist)).filter (fun e => e ∉ s.vid_menu_modes) := by
  have e : VID_Menu_Init_step =
      fun acc (m : vmode_t) =>
        (fun (acc : List vid_menu_mode) x => if x ∈ acc then acc else acc ++ [x]) acc
          ((fun m : vmode_t => (⟨m.width, m.height⟩ : vid_menu_mode)) m) := by
    funext acc m
    exact VID_Menu_Init_step_eq acc m
  show s.modelist.foldl VID_Menu_Init_step s.vid_menu_modes = _
  rw [e]
  exact (List.foldl_map (fun m : vmode_t => (⟨m.width, m.height⟩ : vid_menu_mode))
    (fun (acc : List vid_menu_mode) x => if x ∈ acc then acc else acc ++ [x])
    s.modelist s.vid_menu_modes).symm.trans (foldl_append_new _ _)

/-- C15. Starting from an empty menu list, `VID_Menu_Init` leaves in
`vid_menu_modes` the distinct (width, height) pairs of the catalog in order of
first occurrence: no pair stands twice in the list, a pair is in the list
exactly when some catalog entry has it, pairs stand in the order of their
first positions in the catalog, and the list is no longer than the catalog. -/
theorem VID_Menu_Init_dedup (s : VidState σ) (h : s.vid_menu_modes = []) :
    (VID_Menu_Init s).vid_menu_modes = first_occurrences (menu_sizes s.modelist) ∧
    (VID_Menu_Init s).vid_menu_modes.Nodup ∧
    (∀ e : vid_menu_mode, e ∈ (VID_Menu_Init s).vid_menu_modes ↔
      ∃ m ∈ s.modelist, m.width = e.width ∧ m.height = e.height) ∧
    (VID_Menu_Init s).vid_menu_modes.Pairwise (fun a b =>
      (menu_sizes s.modelist).indexOf a < (menu_sizes s.modelist).indexOf b) ∧
    (VID_Menu_Init s).vid_menu_modes.length ≤ s.modelist.length := by
  have e : (VID_Menu_Init s).vid_menu_modes = first_occurrences (menu_sizes s.modelist) := by
    rw [VID_Menu_Init_list, h]
    simp
  rw [e]
  refine ⟨rfl, nodup_first_occurrences _, ?_, first_occurrences_sorted _, ?_⟩
  · intro e
    rw [mem_first_occurrences]
    simp only [menu_sizes, List.mem_map]
    constructor
    · rintro ⟨m, hm, rfl⟩
      exact ⟨m, hm, rfl, rfl⟩
    · rintro ⟨m, hm, hw, hh⟩
      refine ⟨m, hm, ?_⟩
      cases e
      simp only [vid_menu_mode.mk.injEq]
      exact ⟨hw, hh⟩
  · have := length_first_occurrences_le (menu_sizes s.modelist)
    simpa [menu_sizes] using this

/-- On the sample catalog the menu shows 800x600 and 640x480, once each. -/
theorem VID_Menu_Init_dedup_witness :
    menuSample.vid_menu_modes = [] ∧
    (VID_Menu_Init menuSample).vid_menu_modes = [⟨800, 600⟩, ⟨640, 480⟩] ∧
    (VID_Menu_Init menuSample).vid_menu_modes = first_occurrences (menu_sizes menuSample.modelist) ∧
    (VID_Menu_Init menuSample).vid_menu_modes.Nodup :=
  ⟨rfl, by decide, (VID_Menu_Init_dedup menuSample rfl).1, (VID_Menu_Init_dedup menuSample rfl).2.1⟩

/-! ## The menu's list of depths -/

/-- With a bound on the length, the loop that appends new elements keeps the
first `n` of what it would append without the bound. -/
theorem foldl_append_new_capped {α : Type} [DecidableEq α] (n : Nat) (l acc : List α)
    (h : acc.length ≤ n) :
    l.foldl (fun acc x => if n ≤ acc.length then acc
      else if x ∈ acc then acc else acc ++ [x]) acc =
    (l.foldl (fun acc x => if x ∈ acc then acc else acc ++ [x]) acc).take n := by
  induction l generalizing acc with
  | nil => simp [List.take_of_length_le h]
  | cons x xs ih =>
    rw [List.foldl_cons, List.foldl_cons]
    by_cases hn : n ≤ acc.length
    · rw [if_pos hn, ih acc h, foldl_append_new, foldl_append_new]
      have hl : acc.length = n := Nat.le_antisymm h hn
      rw [List.take_append_of_le_length (by omega), List.take_of_length_le (by omega)]
      by_cases hx : x ∈ acc
      · rw [if_pos hx, List.take_append_of_le_length (by omega), List.take_of_length_le (by omega)]
      · rw [if_neg hx, List.append_assoc, List.take_append_of_le_length (by omega),
          List.take_of_length_le (by omega)]
    · rw [if_neg hn]
      apply ih
      by_cases hx : x ∈ acc
      · rw [if_pos hx]; exact h
      · rw [if_neg hx]
        simp only [List.length_append, List.length_singleton]
        omega

/-- A loop that skips the entries failing a test is the loop over the entries
that pass it. -/
theorem foldl_skip {α β : Type} (p : β → Prop) [DecidablePred p] (g : α → β → α) (l : List β)
    (acc : α) :
    l.foldl (fun acc m => if p m then g acc m else acc) acc = (l.filter p).foldl g acc := by
  induction l generalizing acc with
  | nil => rfl
  | cons x xs ih =>
    rw [List.foldl_cons, ih, List.filter_cons]
    by_cases hp : p x
    · simp [hp]
    · simp [hp]

theorem findIdx_beq_eq_length (l : List Int) (v : Int) :
    (l.findIdx fun x => x == v) = l.length ↔ v ∉ l := by
  rw [List.findIdx_eq_length]
  constructor
  · intro h hv
    have := h v hv
    simp at this
  · intro h x hx
    by_contra hp
    simp only [Bool.not_eq_false, beq_iff_eq] at hp
    exact h (hp ▸ hx)

theorem VID_Menu_RebuildBppList_step_eq (w h : Int) (bpps : List Int) (m : vmode_t) :
    VID_Menu_RebuildBppList_step w h bpps m =
      if m.width = w ∧ m.height = h then
        (fun (acc : List Int) x => if MAX_BPPS_LIST ≤ acc.length then acc
          else if x ∈ acc then acc else acc ++ [x]) bpps ((fun m : vmode_t => m.bpp) m)
      else bpps := by
  unfold VID_Menu_RebuildBppList_step
  by_cases hc : bpps.length ≥ MAX_BPPS_LIST
  · have hc' : MAX_BPPS_LIST ≤ bpps.length := hc
    simp only [if_pos hc, if_pos hc', ite_self]
  · have hc' : ¬ MAX_BPPS_LIST ≤ bpps.length := hc
    rw [if_neg hc]
    by_cases hm : m.width = w ∧ m.height = h
    · rw [if_pos hm, if_neg (by tauto)]
      simp only [if_neg hc']
      by_cases hb : m.bpp ∈ bpps
      · rw [if_pos hb, if_neg (fun e => ((findIdx_beq_eq_length _ _).mp e) hb)]
      · rw [if_neg hb, if_pos ((findIdx_beq_eq_length _ _).mpr hb)]
    · rw [if_neg hm, if_pos (by tauto)]

/-- The first loop of `VID_Menu_RebuildBppList` collects the first
`MAX_BPPS_LIST` distinct depths of the matching catalog entries. -/
theorem VID_Menu_RebuildBppList_loop (w h : Int) (modelist : List vmode_t) :
    modelist.foldl (VID_Menu_RebuildBppList_step w h) [] =
      (first_occurrences (matching_depths modelist w h)).take MAX_BPPS_LIST := by
  have e : VID_Menu_RebuildBppList_step w h = fun acc m =>
      if m.width = w ∧ m.height = h then
        (fun (acc : List Int) x => if MAX_BPPS_LIST ≤ acc.length then acc
          else if x ∈ acc then acc else acc ++ [x]) acc ((fun m : vmode_t => m.bpp) m)
      else acc := by
    funext acc m
    exact VID_Menu_RebuildBppList_step_eq w h acc m
  rw [e, foldl_skip (fun m : vmode_t => m.width = w ∧ m.height = h)
    (fun acc m => (fun (acc : List Int) x => if MAX_BPPS_LIST ≤ acc.length then acc
          else if x ∈ acc then acc else acc ++ [x]) acc ((fun m : vmode_t => m.bpp) m))]
  rw [← List.foldl_map (fun m : vmode_t => m.bpp)
    (fun (acc : List Int) x => if MAX_BPPS_LIST ≤ acc.length then acc
          else if x ∈ acc then acc else acc ++ [x])]
  rw [foldl_append_new_capped MAX_BPPS_LIST _ [] (Nat.zero_le _), foldl_append_new]
  simp [matching_depths]

theorem Cvar_SetQuick_lists (s : VidState σ) (var : CvarId) (v : Int) :
    (Cvar_SetQuick s var v).modelist = s.modelist ∧
    (Cvar_SetQuick s var v).vid_menu_modes = s.vid_menu_modes ∧
    (Cvar_SetQuick s var v).vid_menu_bpps = s.vid_menu_bpps := by
  unfold Cvar_SetQuick
  split
  · exact ⟨rfl, rfl, rfl⟩
  · cases var
    all_goals simp only [VID_Changed_f, VID_FSAA_f, emit]
    all_goals first | exact ⟨trivial, trivial, trivial⟩ | (split <;> exact ⟨rfl, rfl, rfl⟩)

/-- The depth list and the cvars `VID_Menu_RebuildBppList` leaves behind. -/
theorem VID_Menu_RebuildBppList_eq (s : VidState σ) :
    (VID_Menu_RebuildBppList s).vid_menu_bpps =
      (first_occurrences (matching_depths s.modelist s.cv.vid_width s.cv.vid_height)).take
        MAX_BPPS_LIST ∧
    (VID_Menu_RebuildBppList s).cv = s.cv.set .vid_bpp
      (if (VID_Menu_RebuildBppList s).vid_menu_bpps = [] then
        (s.modelist.head?.map fun m => m.bpp).getD 0
      else if s.cv.vid_bpp ∈ (VID_Menu_RebuildBppList s).vid_menu_bpps then s.cv.vid_bpp
      else (VID_Menu_RebuildBppList s).vid_menu_bpps.getD 0 0) := by
  have hl := VID_Menu_RebuildBppList_loop s.cv.vid_width s.cv.vid_height s.modelist
  generalize hbd : s.modelist.foldl
    (VID_Menu_RebuildBppList_step s.cv.vid_width s.cv.vid_height) [] = bpps at hl
  have key : (VID_Menu_RebuildBppList s).vid_menu_bpps = bpps ∧
      (VID_Menu_RebuildBppList s).cv = s.cv.set .vid_bpp
        (if bpps = [] then (s.modelist.head?.map fun m => m.bpp).getD 0
         else if s.cv.vid_bpp ∈ bpps then s.cv.vid_bpp else bpps.getD 0 0) := by
    unfold VID_Menu_RebuildBppList
    simp only [hbd, Cvar_SetValueQuick]
    by_cases h0 : bpps = []
    · rw [if_pos (by simp [h0]), if_pos h0]
      exact ⟨(Cvar_SetQuick_lists _ _ _).2.2, Cvar_SetQuick_cv _ _ _⟩
    · rw [if_neg (by simpa using h0), if_neg h0]
      by_cases hm : s.cv.vid_bpp ∈ bpps
      · rw [if_neg (fun e => ((findIdx_beq_eq_length _ _).mp e) hm), if_pos hm]
        exact ⟨rfl, (Cvars.set_get s.cv .vid_bpp).symm⟩
      · rw [if_pos ((findIdx_beq_eq_length _ _).mpr hm), if_neg hm]
        exact ⟨(Cvar_SetQuick_lists _ _ _).2.2, Cvar_SetQuick_cv _ _ _⟩
  rw [key.1]
  exact ⟨hl, key.2⟩

/-- C16. After `VID_Menu_RebuildBppList`, for every catalog and every current
`vid_width`, `vid_height`: the depth list is the first `MAX_BPPS_LIST` distinct
depths of the catalog entries with that width and height, so it has at most 5
entries, no depth twice, and every depth in it comes from such an entry.  If
the list is empty, `vid_bpp` is the depth of the first catalog entry (0 when
the catalog is empty too); otherwise `vid_bpp` is in the list: unchanged if it
already was, else the first entry of the list.  No other cvar is written. -/
theorem VID_Menu_RebuildBppList_post (s : VidState σ) :
    (VID_Menu_RebuildBppList s).vid_menu_bpps =
      (first_occurrences (matching_depths s.modelist s.cv.vid_width s.cv.vid_height)).take
        MAX_BPPS_LIST ∧
    (VID_Menu_RebuildBppList s).vid_menu_bpps.length ≤ 5 ∧
    (VID_Menu_RebuildBppList s).vid_menu_bpps.Nodup ∧
    (∀ b ∈ (VID_Menu_RebuildBppList s).vid_menu_bpps,
      ∃ m ∈ s.modelist, m.width = s.cv.vid_width ∧ m.height = s.cv.vid_height ∧ m.bpp = b) ∧
    ((VID_Menu_RebuildBppList s).vid_menu_bpps = [] →
      (∀ m rest, s.modelist = m :: rest → (VID_Menu_RebuildBppList s).cv.vid_bpp = m.bpp) ∧
      (s.modelist = [] → (VID_Menu_RebuildBppList s).cv.vid_bpp = 0)) ∧
    ((VID_Menu_RebuildBppList s).vid_menu_bpps ≠ [] →
      (VID_Menu_RebuildBppList s).cv.vid_bpp ∈ (VID_Menu_RebuildBppList s).vid_menu_bpps ∧
      (s.cv.vid_bpp ∈ (VID_Menu_RebuildBppList s).vid_menu_bpps →
        (VID_Menu_RebuildBppList s).cv.vid_bpp = s.cv.vid_bpp) ∧
      (s.cv.vid_bpp ∉ (VID_Menu_RebuildBppList s).vid_menu_bpps →
        (VID_Menu_RebuildBppList s).vid_menu_bpps.head? =
          some (VID_Menu_RebuildBppList s).cv.vid_bpp)) ∧
    (VID_Menu_RebuildBppList s).cv = s.cv.set .vid_bpp (VID_Menu_RebuildBppList s).cv.vid_bpp := by
  obtain ⟨hl, hcv⟩ := VID_Menu_RebuildBppList_eq s
  generalize (VID_Menu_RebuildBppList s).vid_menu_bpps = bpps at hl hcv
  generalize (VID_Menu_RebuildBppList s).cv = cv' at hcv
  have hv : ∀ v, (s.cv.set .vid_bpp v).vid_bpp = v := fun _ => rfl
  have hset : ∀ v, (s.cv.set .vid_bpp v) = s.cv.set .vid_bpp (s.cv.set .vid_bpp v).vid_bpp :=
    fun _ => rfl
  refine ⟨hl, ?_, ?_, ?_, ?_, ?_, ?_⟩
  · rw [hl]
    exact List.length_take_le _ _
  · rw [hl]
    exact (nodup_first_occurrences _).sublist (List.take_sublist _ _)
  · intro b hb
    rw [hl] at hb
    have hb' := (mem_first_occurrences _ _).mp (List.mem_of_mem_take hb)
    simp only [matching_depths, List.mem_map, List.mem_filter, decide_eq_true_eq] at hb'
    obtain ⟨m, ⟨hm, hw, hh⟩, rfl⟩ := hb'
    exact ⟨m, hm, hw, hh, rfl⟩
  · intro h0
    rw [hcv, if_pos h0, hv]
    constructor
    · intro m rest hm
      rw [hm]
      rfl
    · intro hm
      rw [hm]
      rfl
  · intro h0
    rw [hcv, if_neg h0, hv]
    by_cases hm : s.cv.vid_bpp ∈ bpps
    · rw [if_pos hm]
      exact ⟨hm, fun _ => rfl, fun hn => absurd hm hn⟩
    · rw [if_neg hm]
      cases bpps with
      | nil => exact absurd rfl h0
      | cons b rest =>
        exact ⟨List.mem_cons_self _ _, fun hn => absurd hn hm, fun _ => rfl⟩
  · rw [hcv]
    exact hset _

/-! ## Stepping through the menu lists -/

/-- The search loop stops at `i` when the entry at `i` is the wanted one and no
earlier entry is. -/
theorem findIdx_first {α : Type} (l : List α) (p : α → Bool) (c : α)
    (hp : ∀ x, p x = true ↔ x = c) (i : Nat) (hi : l[i]? = some c)
    (hfirst : l.Nodup ∨ ∀ j < i, l[j]? ≠ some c) : l.findIdx p = i := by
  obtain ⟨hlt, hc⟩ := List.getElem?_eq_some_iff.mp hi
  rw [List.findIdx_eq hlt]
  refine ⟨(hp _).mpr hc, ?_⟩
  intro j hji
  by_contra hpj
  have hj : l[j] = c := (hp _).mp (by simpa using hpj)
  rcases hfirst with hn | hf
  · have hji' : j = i := (List.Nodup.getElem_inj_iff hn).mp (hj.trans hc.symm)
    omega
  · exact hf j hji (List.getElem?_eq_some_iff.mpr ⟨by omega, hj⟩)

theorem findIdx_absent {α : Type} (l : List α) (p : α → Bool) (c : α)
    (hp : ∀ x, p x = true ↔ x = c) (h : c ∉ l) : l.findIdx p = l.length := by
  rw [List.findIdx_eq_length]
  intro x hx
  by_contra hpx
  exact h ((hp x).mp (by simpa using hpx) ▸ hx)

/-- The index arithmetic, for a search that stopped inside the list. -/
theorem VID_Menu_next_index_found (i n : Nat) (dir : Int) (hd : dir = 1 ∨ dir = -1)
    (hi : i < n) :
    VID_Menu_next_index i n dir = ((i : Int) + dir) % n ∧ 0 ≤ ((i : Int) + dir) % n ∧
      ((i : Int) + dir) % n < n := by
  have hn : (0 : Int) < n := by omega
  refine ⟨?_, Int.emod_nonneg _ (by omega), Int.emod_lt_of_pos _ hn⟩
  unfold VID_Menu_next_index
  rw [if_neg (by omega)]
  dsimp only
  rcases hd with rfl | rfl
  · by_cases h : (i : Int) + 1 ≥ n
    · rw [if_pos h]
      have : (i : Int) + 1 = n := by omega
      rw [this, Int.emod_self]
    · rw [if_neg h, if_neg (by omega), Int.emod_eq_of_lt (by omega) (by omega)]
  · rw [if_neg (by omega)]
    by_cases h : (i : Int) + -1 < 0
    · rw [if_pos h]
      have : (i : Int) + -1 = -1 := by omega
      rw [this, ← Int.add_emod_self, Int.emod_eq_of_lt (by omega) (by omega)]
      omega
    · rw [if_neg h, Int.emod_eq_of_lt (by omega) (by omega)]

theorem VID_Menu_RebuildBppList_size (t : VidState σ) :
    (VID_Menu_RebuildBppList t).cv.vid_width = t.cv.vid_width ∧
    (VID_Menu_RebuildBppList t).cv.vid_height = t.cv.vid_height := by
  rw [(VID_Menu_RebuildBppList_eq t).2]
  exact ⟨rfl, rfl⟩

/-- The size `VID_Menu_ChooseNextMode` leaves in the cvars. -/
theorem VID_Menu_ChooseNextMode_cv (s : VidState σ) (dir : Int) (h : s.vid_menu_modes ≠ []) :
    (⟨(VID_Menu_ChooseNextMode s dir).cv.vid_width,
      (VID_Menu_ChooseNextMode s dir).cv.vid_height⟩ : vid_menu_mode) =
    s.vid_menu_modes.getD (VID_Menu_next_index
      (s.vid_menu_modes.findIdx fun e => e.width == s.cv.vid_width && e.height == s.cv.vid_height)
      s.vid_menu_modes.length dir).toNat ⟨0, 0⟩ := by
  unfold VID_Menu_ChooseNextMode
  rw [if_pos (by simpa using h)]
  simp only [Cvar_SetValueQuick]
  rw [(VID_Menu_RebuildBppList_size _).1, (VID_Menu_RebuildBppList_size _).2,
    Cvar_SetQuick_cv, Cvar_SetQuick_cv]
  rfl

/-- The depth `VID_Menu_ChooseNextBpp` leaves in `vid_bpp`. -/
theorem VID_Menu_ChooseNextBpp_cv (s : VidState σ) (dir : Int) (h : s.vid_menu_bpps ≠ []) :
    (VID_Menu_ChooseNextBpp s dir).cv.vid_bpp =
    s.vid_menu_bpps.getD (VID_Menu_next_index
      (s.vid_menu_bpps.findIdx fun x => x == s.cv.vid_bpp) s.vid_menu_bpps.length dir).toNat 0 := by
  unfold VID_Menu_ChooseNextBpp
  rw [if_pos (by simpa using h)]
  simp only [Cvar_SetValueQuick]
  rw [Cvar_SetQuick_cv]
  rfl

/-- Stepping from the first position of `c` in `l`, by the rule of
`VID_Menu_next_index`, reaches the entry at `(i + dir) mod n`. -/
theorem next_entry_found {α : Type} (l : List α) (p : α → Bool) (c d : α) (dir : Int)
    (hd : dir = 1 ∨ dir = -1) (hp : ∀ x, p x = true ↔ x = c) (i : Nat) (hi : l[i]? = some c)
    (hfirst : l.Nodup ∨ ∀ j < i, l[j]? ≠ some c) :
    l[(((i : Int) + dir) % l.length).toNat]? =
      some (l.getD (VID_Menu_next_index (l.findIdx p) l.length dir).toNat d) := by
  obtain ⟨hlt, _⟩ := List.getElem?_eq_some_iff.mp hi
  obtain ⟨e, h0, h1⟩ := VID_Menu_next_index_found i l.length dir hd hlt
  rw [findIdx_first l p c hp i hi hfirst, e]
  have hk : (((i : Int) + dir) % l.length).toNat < l.length := by omega
  rw [List.getD_eq_getElem _ _ hk]
  exact List.getElem?_eq_getElem hk

theorem next_entry_absent {α : Type} (l : List α) (p : α → Bool) (c d : α) (dir : Int)
    (hp : ∀ x, p x = true ↔ x = c) (hne : l ≠ []) (h : c ∉ l) :
    l[0]? = some (l.getD (VID_Menu_next_index (l.findIdx p) l.length dir).toNat d) := by
  rw [findIdx_absent l p c hp h]
  unfold VID_Menu_next_index
  rw [if_pos rfl]
  cases l with
  | nil => exact absurd rfl hne
  | cons x xs => simp

/-- C18. For `dir` in {1, -1}: if the current (`vid_width`, `vid_height`) is
the entry of the menu mode list at index `i` (the first such index; in a list
without repetitions, the only one), `VID_Menu_ChooseNextMode (dir)` sets
`vid_width`, `vid_height` to the entry at index `(i + dir) mod n`, `n` being
the length of the list; if the list is not empty and the current pair is not
in it, to entry 0.  `VID_Menu_ChooseNextBpp (dir)` steps `vid_bpp` through the
depth list by the same rule. -/
theorem VID_Menu_ChooseNext_wraps (s : VidState σ) (dir : Int) (hd : dir = 1 ∨ dir = -1) :
    (∀ i : Nat, s.vid_menu_modes[i]? = some ⟨s.cv.vid_width, s.cv.vid_height⟩ →
      (s.vid_menu_modes.Nodup ∨
        ∀ j < i, s.vid_menu_modes[j]? ≠ some ⟨s.cv.vid_width, s.cv.vid_height⟩) →
      s.vid_menu_modes[(((i : Int) + dir) % s.vid_menu_modes.length).toNat]? =
        some ⟨(VID_Menu_ChooseNextMode s dir).cv.vid_width,
              (VID_Menu_ChooseNextMode s dir).cv.vid_height⟩) ∧
    (s.vid_menu_modes ≠ [] →
      (⟨s.cv.vid_width, s.cv.vid_height⟩ : vid_menu_mode) ∉ s.vid_menu_modes →
      s.vid_menu_modes[0]? =
        some ⟨(VID_Menu_ChooseNextMode s dir).cv.vid_width,
              (VID_Menu_ChooseNextMode s dir).cv.vid_height⟩) ∧
    (∀ i : Nat, s.vid_menu_bpps[i]? = some s.cv.vid_bpp →
      (s.vid_menu_bpps.Nodup ∨ ∀ j < i, s.vid_menu_bpps[j]? ≠ some s.cv.vid_bpp) →
      s.vid_menu_bpps[(((i : Int) + dir) % s.vid_menu_bpps.length).toNat]? =
        some (VID_Menu_ChooseNextBpp s dir).cv.vid_bpp) ∧
    (s.vid_menu_bpps ≠ [] → s.cv.vid_bpp ∉ s.vid_menu_bpps →
      s.vid_menu_bpps[0]? = some (VID_Menu_ChooseNextBpp s dir).cv.vid_bpp) := by
  have hpm : ∀ x : vid_menu_mode,
      (x.width == s.cv.vid_width && x.height == s.cv.vid_height) = true ↔
        x = ⟨s.cv.vid_width, s.cv.vid_height⟩ := by
    intro x
    cases x
    simp
  have hpb : ∀ x : Int, (x == s.cv.vid_bpp) = true ↔ x = s.cv.vid_bpp := by
    intro x
    simp
  refine ⟨?_, ?_, ?_, ?_⟩
  · intro i hi hfirst
    have hne : s.vid_menu_modes ≠ [] := by
      intro h0
      rw [h0] at hi
      simp at hi
    rw [VID_Menu_ChooseNextMode_cv s dir hne]
    exact next_entry_found _ _ _ _ dir hd hpm i hi hfirst
  · intro hne habs
    rw [VID_Menu_ChooseNextMode_cv s dir hne]
    exact next_entry_absent _ _ _ _ dir hpm hne habs
  · intro i hi hfirst
    have hne : s.vid_menu_bpps ≠ [] := by
      intro h0
      rw [h0] at hi
      simp at hi
    rw [VID_Menu_ChooseNextBpp_cv s dir hne]
    exact next_entry_found _ _ _ _ dir hd hpb i hi hfirst
  · intro hne habs
    rw [VID_Menu_ChooseNextBpp_cv s dir hne]
    exact next_entry_absent _ _ _ _ dir hpb hne habs

/-- In the session `menuReady` (800x600x16 current; sizes 800x600, 640x480;
depths 32, 16, 24) stepping the size back from index 0 wraps to the last
entry, 640x480, and stepping the depth forward from index 1 gives 24. -/
theorem VID_Menu_ChooseNext_wraps_witness :
    ((-1 : Int) = 1 ∨ (-1 : Int) = -1) ∧
    menuReady.vid_menu_modes = [⟨800, 600⟩, ⟨640, 480⟩] ∧
    menuReady.vid_menu_bpps = [32, 16, 24] ∧
    (VID_Menu_ChooseNextMode menuReady (-1)).cv.vid_width = 640 ∧
    (VID_Menu_ChooseNextMode menuReady (-1)).cv.vid_height = 480 ∧
    (VID_Menu_ChooseNextBpp menuReady 1).cv.vid_bpp = 24 ∧
    menuReady.vid_menu_modes[((((0 : Nat) : Int) + -1) % menuReady.vid_menu_modes.length).toNat]? =
      some ⟨(VID_Menu_ChooseNextMode menuReady (-1)).cv.vid_width,
            (VID_Menu_ChooseNextMode menuReady (-1)).cv.vid_height⟩ :=
  ⟨Or.inr rfl, by decide, by decide, by decide, by decide, by decide,
    (VID_Menu_ChooseNext_wraps menuReady (-1) (Or.inr rfl)).1 0 (by decide)
      (Or.inl (by decide))⟩

/-! ## `vid_describemodes` -/

theorem printed_modes_append (a b : List Event) :
    printed_modes (a ++ b) = printed_modes a ++ printed_modes b := by
  induction a with
  | nil => rfl
  | cons e t ih => cases e <;> simp [printed_modes, ih]

theorem VID_DescribeModes_step_same (d : DescribeModes) (m : vmode_t) (h : d.last = m) :
    VID_DescribeModes_step d m = d := by
  unfold VID_DescribeModes_step
  rw [if_neg]
  rw [h]
  simp

theorem VID_DescribeModes_step_new (d : DescribeModes) (m : vmode_t) (h : d.last ≠ m) :
    (VID_DescribeModes_step d m).last = m ∧
    (VID_DescribeModes_step d m).count = d.count + 1 ∧
    printed_modes (VID_DescribeModes_step d m).out = printed_modes d.out ++ [m] := by
  have hc : d.last.width ≠ m.width ∨ d.last.height ≠ m.height ∨ d.last.bpp ≠ m.bpp := by
    by_contra hn
    simp only [not_or, not_not] at hn
    apply h
    cases hd : d.last
    cases m
    rw [hd] at hn
    simp only [vmode_t.mk.injEq]
    exact hn
  unfold VID_DescribeModes_step
  rw [if_pos hc]
  refine ⟨rfl, rfl, ?_⟩
  dsimp only
  by_cases h0 : d.count > 0
  · rw [if_pos h0, printed_modes_append, printed_modes_append]
    simp [printed_modes]
  · rw [if_neg h0, printed_modes_append]
    simp [printed_modes]

/-- What the loop of `VID_DescribeModes_f` prints and counts: the entries that
differ from the entry before them. -/
theorem VID_DescribeModes_fold (l : List vmode_t) (d : DescribeModes) :
    printed_modes (l.foldl VID_DescribeModes_step d).out =
      printed_modes d.out ++ adjacent_distinct d.last l ∧
    (l.foldl VID_DescribeModes_step d).count = d.count + (adjacent_distinct d.last l).length := by
  induction l generalizing d with
  | nil => simp [adjacent_distinct]
  | cons m t ih =>
    rw [List.foldl_cons]
    by_cases h : d.last = m
    · rw [VID_DescribeModes_step_same d m h]
      simp only [adjacent_distinct, h, ne_eq, not_true_eq_false, if_false]
      rw [← h]
      exact ih d
    · obtain ⟨hl, hc, hp⟩ := VID_DescribeModes_step_new d m h
      obtain ⟨i1, i2⟩ := ih (VID_DescribeModes_step d m)
      rw [i1, i2, hl, hc, hp]
      simp only [adjacent_distinct, ne_eq, h, not_false_eq_true, if_true, List.append_assoc,
        List.singleton_append, List.length_cons, Nat.cast_add, Nat.cast_one, true_and]
      omega

theorem equal_entries_adjacent_tail (a : vmode_t) (l : List vmode_t)
    (h : equal_entries_adjacent (a :: l)) : equal_entries_adjacent l := by
  intro l₁ x y l₂ hl hxy
  exact h (a :: l₁) x y l₂ (by rw [hl]; rfl) hxy

/-- In a list whose equal entries are adjacent, the entries that differ from
their predecessor are the distinct entries, once each. -/
theorem adjacent_distinct_grouped (l : List vmode_t) (a : vmode_t)
    (h : equal_entries_adjacent (a :: l)) :
    (adjacent_distinct a l).Nodup ∧ a ∉ adjacent_distinct a l ∧
    ∀ m, m ∈ adjacent_distinct a l ↔ (m ∈ l ∧ m ≠ a) := by
  induction l generalizing a with
  | nil => simp [adjacent_distinct]
  | cons b t ih =>
    by_cases hab : a = b
    · subst hab
      have ht : equal_entries_adjacent (a :: t) := equal_entries_adjacent_tail a _ h
      obtain ⟨n, na, hm⟩ := ih a ht
      simp only [adjacent_distinct, ne_eq, not_true_eq_false, if_false]
      refine ⟨n, na, ?_⟩
      intro m
      rw [hm m]
      simp only [List.mem_cons]
      tauto
    · have ht : equal_entries_adjacent (b :: t) := equal_entries_adjacent_tail a _ h
      have hat : a ∉ t := h [] a b t rfl hab
      obtain ⟨n, nb, hm⟩ := ih b ht
      simp only [adjacent_distinct, ne_eq, hab, not_false_eq_true, if_true, List.nodup_cons,
        List.mem_cons, not_or]
      refine ⟨⟨nb, n⟩, ⟨trivial, fun hin => hat ((hm a).mp hin).1⟩, ?_⟩
      intro m
      rw [hm m]
      constructor
      · rintro (rfl | ⟨hmt, _⟩)
        · exact ⟨Or.inl rfl, fun e => hab e.symm⟩
        · exact ⟨Or.inr hmt, fun e => hat (e ▸ hmt)⟩
      · rintro ⟨rfl | hmt, _⟩
        · exact Or.inl rfl
        · by_cases hmb : m = b
          · exact Or.inl hmb
          · exact Or.inr ⟨hmt, hmb⟩

/-- The trace of `VID_DescribeModes_f`, and what it prints on a catalog whose
equal entries are adjacent. -/
theorem VID_DescribeModes_f_spec (s : VidState σ) :
    ∃ (out : List Event) (count : Int),
      (VID_DescribeModes_f s).trace = s.trace ++ out ++ [.Con_Printf_modes count] ∧
      printed_modes out = adjacent_distinct ⟨0, 0, 0⟩ s.modelist ∧
      count = (printed_modes out).length ∧
      (equal_entries_adjacent s.modelist → (⟨0, 0, 0⟩ : vmode_t) ∉ s.modelist →
        (printed_modes out).Nodup ∧ (∀ m, m ∈ printed_modes out ↔ m ∈ s.modelist) ∧
        (∀ m ∈ s.modelist, (printed_modes out).count m = 1) ∧
        count = s.modelist.toFinset.card) := by
  obtain ⟨hp, hc⟩ := VID_DescribeModes_fold s.modelist ⟨⟨0, 0, 0⟩, 0, []⟩
  have hp' : printed_modes (VID_DescribeModes_loop s.modelist).out =
      adjacent_distinct ⟨0, 0, 0⟩ s.modelist := by
    simpa [printed_modes] using hp
  have hc' : (VID_DescribeModes_loop s.modelist).count =
      (printed_modes (VID_DescribeModes_loop s.modelist).out).length := by
    rw [hp']
    simpa using hc
  refine ⟨(VID_DescribeModes_loop s.modelist).out, (VID_DescribeModes_loop s.modelist).count,
    rfl, hp', hc', ?_⟩
  intro hadj hz
  have hg : equal_entries_adjacent (⟨0, 0, 0⟩ :: s.modelist) := by
    intro l₁ a b l₂ hl hab
    cases l₁ with
    | nil =>
      simp only [List.nil_append, List.cons.injEq] at hl
      obtain ⟨rfl, hl⟩ := hl
      intro hin
      apply hz
      rw [hl]
      exact List.mem_cons_of_mem _ hin
    | cons x l₁ =>
      simp only [List.cons_append, List.cons.injEq] at hl
      exact hadj l₁ a b l₂ hl.2 hab
  obtain ⟨n, _, hm⟩ := adjacent_distinct_grouped s.modelist ⟨0, 0, 0⟩ hg
  have hmem : ∀ m, m ∈ printed_modes (VID_DescribeModes_loop s.modelist).out ↔ m ∈ s.modelist := by
    intro m
    rw [hp', hm m]
    exact ⟨fun h => h.1, fun h => ⟨h, fun e => hz (e ▸ h)⟩⟩
  have hn : (printed_modes (VID_DescribeModes_loop s.modelist).out).Nodup := by
    rw [hp']
    exact n
  refine ⟨hn, hmem, ?_, ?_⟩
  · intro m hmm
    exact List.count_eq_one_of_mem hn ((hmem m).mpr hmm)
  · rw [hc', ← List.toFinset_card_of_nodup hn]
    congr 2
    ext m
    simp only [List.mem_toFinset]
    exact hmem m

theorem equal_entries_adjacent_single (a : vmode_t) : equal_entries_adjacent [a] := by
  intro l₁ x y l₂ hl _
  cases l₁ with
  | nil => simp at hl
  | cons c l₁ => simp at hl

theorem equal_entries_adjacent_cons (a b : vmode_t) (l : List vmode_t) (h₁ : a ≠ b → a ∉ l)
    (h₂ : equal_entries_adjacent (b :: l)) : equal_entries_adjacent (a :: b :: l) := by
  intro l₁ x y l₂ hl hxy
  cases l₁ with
  | nil =>
    simp only [List.nil_append, List.cons.injEq] at hl
    obtain ⟨rfl, rfl, rfl⟩ := hl
    exact h₁ hxy
  | cons c l₁ =>
    simp only [List.cons_append, List.cons.injEq] at hl
    exact h₂ l₁ x y l₂ hl.2 hxy

/-- A catalog that lists 800x600x16 again after 640x480x16: `vid_describemodes`
prints 800x600x16 twice and reports 3 modes, while the catalog has 2 distinct
entries. -/
theorem VID_DescribeModes_f_dedup_counterexample :
    (VID_DescribeModes_f describeSplit).trace =
      [.Con_SafePrintf_mode 800 600 16, .Con_SafePrintf_newline,
       .Con_SafePrintf_mode 640 480 16, .Con_SafePrintf_newline,
       .Con_SafePrintf_mode 800 600 16, .Con_Printf_modes 3] ∧
    (printed_modes (VID_DescribeModes_f describeSplit).trace).count ⟨800, 600, 16⟩ = 2 ∧
    describeSplit.modelist.toFinset.card = 2 := by
  refine ⟨by decide, by decide, by decide⟩

/-- C17 (amended). For every mode catalog in which equal entries stand next to
each other and which has no 0x0x0 entry, `vid_describemodes` prints a
de-duplicated catalog: its outgoing calls are console lines followed by the
mode count; every distinct (width, height, bpp) entry of the catalog is
printed exactly once, nothing else is printed, and the reported count is the
number of distinct entries.  (On every catalog, the entries printed are those
that differ from the entry before them.) -/
theorem VID_DescribeModes_f_dedup_adjacent (s : VidState σ)
    (hadj : equal_entries_adjacent s.modelist) (hz : (⟨0, 0, 0⟩ : vmode_t) ∉ s.modelist) :
    ∃ (out : List Event) (count : Int),
      (VID_DescribeModes_f s).trace = s.trace ++ out ++ [.Con_Printf_modes count] ∧
      printed_modes out = adjacent_distinct ⟨0, 0, 0⟩ s.modelist ∧
      (∀ m ∈ s.modelist, (printed_modes out).count m = 1) ∧
      (∀ m ∈ printed_modes out, m ∈ s.modelist) ∧
      (printed_modes out).Nodup ∧
      count = s.modelist.toFinset.card := by
  obtain ⟨out, count, ht, hp, _, h⟩ := VID_DescribeModes_f_spec s
  obtain ⟨hn, hmem, hone, hcard⟩ := h hadj hz
  exact ⟨out, count, ht, hp, hone, fun m hm => (hmem m).mp hm, hn, hcard⟩

/-- A catalog that lists 800x600x16 twice in a row, then 640x480x16: two lines
are printed and 2 modes reported. -/
theorem VID_DescribeModes_f_dedup_adjacent_witness :
    equal_entries_adjacent describeGrouped.modelist ∧
    (⟨0, 0, 0⟩ : vmode_t) ∉ describeGrouped.modelist ∧
    (VID_DescribeModes_f describeGrouped).trace =
      [.Con_SafePrintf_mode 800 600 16, .Con_SafePrintf_newline,
       .Con_SafePrintf_mode 640 480 16, .Con_Printf_modes 2] ∧
    ∃ (out : List Event) (count : Int),
      (VID_DescribeModes_f describeGrouped).trace =
        describeGrouped.trace ++ out ++ [.Con_Printf_modes count] ∧
      printed_modes out = adjacent_distinct ⟨0, 0, 0⟩ describeGrouped.modelist ∧
      (∀ m ∈ describeGrouped.modelist, (printed_modes out).count m = 1) ∧
      (∀ m ∈ printed_modes out, m ∈ describeGrouped.modelist) ∧
      (printed_modes out).Nodup ∧
      count = describeGrouped.modelist.toFinset.card :=
  have hadj : equal_entries_adjacent describeGrouped.modelist :=
    equal_entries_adjacent_cons _ _ _ (by decide)
      (equal_entries_adjacent_cons _ _ _ (by decide) (equal_entries_adjacent_single _))
  ⟨hadj, by decide, by decide, VID_DescribeModes_f_dedup_adjacent describeGrouped hadj (by decide)⟩

/-! ## Window creation: the fallback order -/

/-- A chain of retries, each made only while the handle is still NULL, returns
the state after the first attempt that succeeds. -/
theorem retry_chain (a1 : VidState σ) (f2 f3 f4 : VidState σ → VidState σ) :
    (let s := a1
     let s := if !s.draw_context then f2 s else s
     let s := if !s.draw_context then f3 s else s
     let s := if !s.draw_context then f4 s else s
     if !s.draw_context then Except.error Fatal.couldnt_create_window else Except.ok s) =
    if a1.draw_context then .ok a1
    else if (f2 a1).draw_context then .ok (f2 a1)
    else if (f3 (f2 a1)).draw_context then .ok (f3 (f2 a1))
    else if (f4 (f3 (f2 a1))).draw_context then .ok (f4 (f3 (f2 a1)))
    else .error .couldnt_create_window := by
  cases h1 : a1.draw_context
  · cases h2 : (f2 a1).draw_context
    · cases h3 : (f3 (f2 a1)).draw_context
      · cases h4 : (f4 (f3 (f2 a1))).draw_context <;> simp [h1, h2, h3, h4]
      · simp [h1, h2, h3]
    · simp [h1, h2]
  · simp [h1]

/-- The window step of `VID_SetMode`, when there is no window yet, in terms of
the four attempts: it returns the state after the first attempt that
succeeds, and fails when all four fail. -/
theorem VID_SetMode_window_attempts (P : SDL σ) (s : VidState σ) (width height : Int)
    (hd : s.draw_context = false) :
    ∃ a1 a2 a3 a4, fallback_attempts P s width height = [a1, a2, a3, a4] ∧
      VID_SetMode_window P s width height =
        if a1.draw_context then .ok a1
        else if a2.draw_context then .ok a2
        else if a3.draw_context then .ok a3
        else if a4.draw_context then .ok a4
        else .error .couldnt_create_window := by
  refine ⟨_, _, _, _, rfl, ?_⟩
  unfold VID_SetMode_window
  rw [if_pos (by simp [hd])]
  exact retry_chain
    (s.SDL_CreateWindow P width height (P.SDL_WINDOW_OPENGL ||| P.SDL_WINDOW_HIDDEN))
    (fun u => ((u.SDL_GL_SetAttribute P .SDL_GL_MULTISAMPLEBUFFERS 0).SDL_GL_SetAttribute P
      .SDL_GL_MULTISAMPLESAMPLES 0).SDL_CreateWindow P width height
        (P.SDL_WINDOW_OPENGL ||| P.SDL_WINDOW_HIDDEN))
    (fun u => (u.SDL_GL_SetAttribute P .SDL_GL_DEPTH_SIZE 16).SDL_CreateWindow P width height
        (P.SDL_WINDOW_OPENGL ||| P.SDL_WINDOW_HIDDEN))
    (fun u => (u.SDL_GL_SetAttribute P .SDL_GL_STENCIL_SIZE 0).SDL_CreateWindow P width height
        (P.SDL_WINDOW_OPENGL ||| P.SDL_WINDOW_HIDDEN))

theorem AfterWindow.same (s : VidState σ) : AfterWindow s s :=
  ⟨rfl, [], by simp, by simp⟩

theorem AfterWindow.comp {s t u : VidState σ} (h₁ : AfterWindow s t) (h₂ : AfterWindow t u) :
    AfterWindow s u := by
  obtain ⟨a, ha, hia⟩ := h₁.trace
  obtain ⟨b, hb, hib⟩ := h₂.trace
  refine ⟨h₂.vid_toggle_works.trans h₁.vid_toggle_works, a ++ b, ?_, ?_⟩
  · rw [hb, ha, List.append_assoc]
  · intro e he
    rcases List.mem_append.mp he with h | h
    · exact hia e h
    · exact hib e h

/-- A step that keeps the capability flag and appends one call that takes no
part in creating the window. -/
theorem AfterWindow.call {s t : VidState σ} (e : Event) (he : e.isWindowCreation = false)
    (hw : t.vid_toggle_works = s.vid_toggle_works) (ht : t.trace = s.trace ++ [e]) :
    AfterWindow s t :=
  ⟨hw, [e], ht, by simpa using he⟩

/-- A step that keeps the capability flag and the trace. -/
theorem AfterWindow.keep {s t : VidState σ} (hw : t.vid_toggle_works = s.vid_toggle_works)
    (ht : t.trace = s.trace) : AfterWindow s t :=
  ⟨hw, [], by simpa using ht, by simp⟩

theorem VID_SetMode_unfullscreen_after (P : SDL σ) (s s' : VidState σ)
    (h : VID_SetMode_unfullscreen P s = .ok s') : AfterWindow s s' := by
  unfold VID_SetMode_unfullscreen at h
  by_cases hf : VID_GetFullscreen P s = true
  · rw [if_pos hf] at h
    obtain ⟨_, rfl⟩ := ite_error_ok h
    exact AfterWindow.call (.SDL_SetWindowFullscreen 0) rfl rfl rfl
  · rw [if_neg hf] at h
    cases h
    exact AfterWindow.same s

theorem VID_SetMode_size_after (P : SDL σ) (s : VidState σ) (width height bpp : Int) :
    AfterWindow s (VID_SetMode_size P s width height bpp) := by
  unfold VID_SetMode_size
  have q1 : AfterWindow s (s.SDL_SetWindowSize P width height) :=
    AfterWindow.call (.SDL_SetWindowSize width height) rfl rfl rfl
  have q2 : AfterWindow (s.SDL_SetWindowSize P width height)
      ((s.SDL_SetWindowSize P width height).SDL_SetWindowPosition P) :=
    AfterWindow.call .SDL_SetWindowPosition rfl rfl rfl
  have q3 : AfterWindow ((s.SDL_SetWindowSize P width height).SDL_SetWindowPosition P)
      (((s.SDL_SetWindowSize P width height).SDL_SetWindowPosition P).SDL_SetWindowDisplayMode P
        (VID_SDL2_GetDisplayMode P width height bpp)) :=
    AfterWindow.call (.SDL_SetWindowDisplayMode (VID_SDL2_GetDisplayMode P width height bpp))
      rfl rfl rfl
  exact (q1.comp q2).comp q3

theorem VID_SetMode_fullscreen_after (P : SDL σ) (s s' : VidState σ) (fullscreen : Bool)
    (h : VID_SetMode_fullscreen P s fullscreen = .ok s') : AfterWindow s s' := by
  unfold VID_SetMode_fullscreen at h
  by_cases hf : fullscreen = true
  · rw [if_pos hf] at h
    dsimp only at h
    obtain ⟨_, rfl⟩ := ite_error_ok h
    exact AfterWindow.call (.SDL_SetWindowFullscreen _) rfl rfl rfl
  · rw [if_neg hf] at h
    cases h
    exact AfterWindow.same s

theorem VID_SetMode_context_after (P : SDL σ) (s s' : VidState σ)
    (h : VID_SetMode_context P s = .ok s') : AfterWindow s s' := by
  unfold VID_SetMode_context at h
  by_cases hg : (!s.gl_context) = true
  · rw [if_pos hg] at h
    dsimp only at h
    obtain ⟨_, rfl⟩ := ite_error_ok h
    exact AfterWindow.call .SDL_GL_CreateContext rfl rfl rfl
  · rw [if_neg hg] at h
    cases h
    exact AfterWindow.same s

theorem VID_SetMode_swap_after (P : SDL σ) (s : VidState σ) :
    AfterWindow s (VID_SetMode_swap P s) := by
  unfold VID_SetMode_swap
  have q : AfterWindow s
      (({ s with gl_swap_control := true } : VidState σ).SDL_GL_SetSwapInterval P
        (if s.cv.vid_vsync != 0 then 1 else 0)).1 :=
    AfterWindow.call (.SDL_GL_SetSwapInterval (if s.cv.vid_vsync != 0 then 1 else 0)) rfl rfl rfl
  dsimp only
  by_cases hr : (({ s with gl_swap_control := true } : VidState σ).SDL_GL_SetSwapInterval P
        (if s.cv.vid_vsync != 0 then 1 else 0)).2 = -1
  · rw [if_pos hr]
    exact q.comp (AfterWindow.keep rfl rfl)
  · rw [if_neg hr]
    exact q

theorem VID_SetMode_readback_after (P : SDL σ) (s s' : VidState σ) (temp : Int)
    (h : VID_SetMode_readback P s temp = .ok s') : AfterWindow s s' := by
  simp only [VID_SetMode_readback, emit, ClearAllStates, List.append_assoc, List.cons_append,
    List.nil_append] at h
  obtain ⟨hw, rfl⟩ := ite_error_ok h
  refine ⟨rfl, _, rfl, ?_⟩
  intro e he
  simp only [List.mem_cons, List.mem_singleton, List.not_mem_nil, or_false] at he
  rcases he with rfl | rfl | rfl | rfl | rfl <;> rfl

/-- The error of a failing window step is "Couldn't create window". -/
theorem VID_SetMode_window_error (P : SDL σ) (s : VidState σ) (width height : Int) (e : Fatal)
    (h : VID_SetMode_window P s width height = .error e) : e = .couldnt_create_window := by
  by_cases hd : s.draw_context = true
  · unfold VID_SetMode_window at h
    rw [if_neg (by simp [hd])] at h
    cases h
  · obtain ⟨a1, a2, a3, a4, _, hc⟩ :=
      VID_SetMode_window_attempts P s width height (by simpa using hd)
    rw [hc] at h
    split_ifs at h
    cases h
    rfl

theorem ite_error_error {c : Prop} [Decidable c] {e e' : Fatal} {t : VidState σ}
    (h : (if c then Except.error e else Except.ok t) = Except.error e') : e' = e := by
  by_cases hc : c
  · rw [if_pos hc] at h
    cases h
    rfl
  · rw [if_neg hc] at h
    cases h

theorem VID_SetMode_unfullscreen_error (P : SDL σ) (s : VidState σ) (e : Fatal)
    (h : VID_SetMode_unfullscreen P s = .error e) : e = .couldnt_set_fullscreen_state := by
  unfold VID_SetMode_unfullscreen at h
  by_cases hf : VID_GetFullscreen P s = true
  · rw [if_pos hf] at h
    exact ite_error_error h
  · rw [if_neg hf] at h
    cases h

theorem VID_SetMode_fullscreen_error (P : SDL σ) (s : VidState σ) (fullscreen : Bool) (e : Fatal)
    (h : VID_SetMode_fullscreen P s fullscreen = .error e) :
    e = .couldnt_set_fullscreen_state := by
  unfold VID_SetMode_fullscreen at h
  by_cases hf : fullscreen = true
  · rw [if_pos hf] at h
    dsimp only at h
    exact ite_error_error h
  · rw [if_neg hf] at h
    cases h

theorem VID_SetMode_context_error (P : SDL σ) (s : VidState σ) (e : Fatal)
    (h : VID_SetMode_context P s = .error e) : e = .couldnt_create_GL_context := by
  unfold VID_SetMode_context at h
  by_cases hg : (!s.gl_context) = true
  · rw [if_pos hg] at h
    dsimp only at h
    exact ite_error_error h
  · rw [if_neg hg] at h
    cases h

theorem VID_SetMode_readback_error (P : SDL σ) (s : VidState σ) (temp : Int) (e : Fatal)
    (h : VID_SetMode_readback P s temp = .error e) : e = .divide_by_zero := by
  simp only [VID_SetMode_readback] at h
  exact ite_error_error h

/-- A call of `VID_SetMode` that returns: the window step has returned and the
rest of the work took no part in creating the window. -/
theorem VID_SetMode_ok_window (P : SDL σ) (s s' : VidState σ) (width height bpp : Int)
    (fullscreen : Bool) (h : VID_SetMode P s width height bpp fullscreen = .ok s') :
    ∃ s1, VID_SetMode_window P (VID_SetMode_before_window P s width height bpp fullscreen)
      width height = .ok s1 ∧ AfterWindow s1 s' := by
  unfold VID_SetMode at h
  unfold VID_SetMode_before_window
  simp only at h
  split at h
  · cases h
  · rename_i s1 h1
    split at h
    · cases h
    · rename_i s2 h2
      split at h
      · cases h
      · rename_i s3 h3
        split at h
        · cases h
        · rename_i s4 h4
          refine ⟨s1, h1, ?_⟩
          exact (((((VID_SetMode_unfullscreen_after P _ _ h2).comp
            (VID_SetMode_size_after P _ width height bpp)).comp
            (VID_SetMode_fullscreen_after P _ _ _ h3)).comp
            (AfterWindow.call (t := s3.SDL_ShowWindow P) .SDL_ShowWindow rfl rfl rfl)).comp
            (VID_SetMode_context_after P _ _ h4)).comp
            ((VID_SetMode_swap_after P _).comp (VID_SetMode_readback_after P _ _ _ h))

/-- A call of `VID_SetMode` fails with "Couldn't create window" exactly when
its window step fails. -/
theorem VID_SetMode_error_window (P : SDL σ) (s : VidState σ) (width height bpp : Int)
    (fullscreen : Bool) :
    VID_SetMode P s width height bpp fullscreen = .error .couldnt_create_window ↔
      ∃ e, VID_SetMode_window P (VID_SetMode_before_window P s width height bpp fullscreen)
        width height = .error e := by
  constructor
  · intro h
    unfold VID_SetMode at h
    unfold VID_SetMode_before_window
    simp only at h
    split at h
    · rename_i e h1
      exact ⟨e, h1⟩
    · rename_i s1 h1
      split at h
      · rename_i e h2
        rw [VID_SetMode_unfullscreen_error P _ _ h2] at h
        cases h
      · rename_i s2 h2
        split at h
        · rename_i e h3
          rw [VID_SetMode_fullscreen_error P _ _ _ h3] at h
          cases h
        · rename_i s3 h3
          split at h
          · rename_i e h4
            rw [VID_SetMode_context_error P _ _ h4] at h
            cases h
          · have := VID_SetMode_readback_error P _ _ _ h
            cases this
  · rintro ⟨e, h⟩
    have he := VID_SetMode_window_error P _ _ _ _ h
    subst he
    unfold VID_SetMode_before_window at h
    unfold VID_SetMode
    simp only [h]

theorem window_attempts_quiet (a : GLAttrs) (rest : List Event)
    (h : ∀ e ∈ rest, e.isWindowCreation = false) : window_attempts a rest = [] := by
  induction rest with
  | nil => rfl
  | cons e t ih =>
    have ht : ∀ e ∈ t, e.isWindowCreation = false := fun x hx => h x (List.mem_cons_of_mem _ hx)
    have he := h e (List.mem_cons_self _ _)
    cases e <;> first | exact ih ht | cases he

/-- Calls that take no part in creating the window add no attempt. -/
theorem window_attempts_append (a : GLAttrs) (l rest : List Event)
    (h : ∀ e ∈ rest, e.isWindowCreation = false) :
    window_attempts a (l ++ rest) = window_attempts a l := by
  induction l generalizing a with
  | nil => exact window_attempts_quiet a rest h
  | cons e t ih => cases e <;> simp [window_attempts, ih]

/-- The traces of the four attempts of a `VID_SetMode` call: the first `k + 1`
attribute sets of the fallback order are attempted up to attempt `k`. -/
theorem fallback_attempts_trace (P : SDL σ) (s : VidState σ) (width height bpp : Int)
    (fullscreen : Bool) (k : Nat) (t : VidState σ)
    (hk : (fallback_attempts P (VID_SetMode_before_window P s width height bpp fullscreen)
      width height)[k]? = some t) :
    t.vid_toggle_works = s.vid_toggle_works ∧
    ∃ added, t.trace = s.trace ++ added ∧
      ∀ a, window_attempts a added = (fallback_order bpp s.fsaa).take (k + 1) := by
  simp only [fallback_attempts] at hk
  rcases k with _ | _ | _ | _ | k
  · simp only [List.getElem?_cons_succ, List.getElem?_cons_zero, Option.some.injEq] at hk
    subst hk
    refine ⟨rfl, [.VID_SetMode width height bpp fullscreen, .CDAudio_Pause, .BGM_Pause,
        .SDL_GL_SetAttribute .SDL_GL_DEPTH_SIZE (if bpp = 16 then 16 else 24),
        .SDL_GL_SetAttribute .SDL_GL_STENCIL_SIZE (if bpp = 16 then 0 else 8),
        .SDL_GL_SetAttribute .SDL_GL_MULTISAMPLEBUFFERS (if s.fsaa > 0 then 1 else 0),
        .SDL_GL_SetAttribute .SDL_GL_MULTISAMPLESAMPLES s.fsaa,
        .SDL_CreateWindow width height (P.SDL_WINDOW_OPENGL ||| P.SDL_WINDOW_HIDDEN)], ?_, ?_⟩
    · simp only [VID_SetMode_before_window, VID_SetMode_attributes, VidState.SDL_CreateWindow,
        VidState.SDL_GL_SetAttribute, emit, List.append_assoc, List.cons_append,
        List.nil_append, List.singleton_append]
    · intro a
      simp [window_attempts, GLAttrs.set, fallback_order]
  · simp only [List.getElem?_cons_succ, List.getElem?_cons_zero, Option.some.injEq] at hk
    subst hk
    refine ⟨rfl, [.VID_SetMode width height bpp fullscreen, .CDAudio_Pause, .BGM_Pause,
        .SDL_GL_SetAttribute .SDL_GL_DEPTH_SIZE (if bpp = 16 then 16 else 24),
        .SDL_GL_SetAttribute .SDL_GL_STENCIL_SIZE (if bpp = 16 then 0 else 8),
        .SDL_GL_SetAttribute .SDL_GL_MULTISAMPLEBUFFERS (if s.fsaa > 0 then 1 else 0),
        .SDL_GL_SetAttribute .SDL_GL_MULTISAMPLESAMPLES s.fsaa,
        .SDL_CreateWindow width height (P.SDL_WINDOW_OPENGL ||| P.SDL_WINDOW_HIDDEN),
        .SDL_GL_SetAttribute .SDL_GL_MULTISAMPLEBUFFERS 0,
        .SDL_GL_SetAttribute .SDL_GL_MULTISAMPLESAMPLES 0,
        .SDL_CreateWindow width height (P.SDL_WINDOW_OPENGL ||| P.SDL_WINDOW_HIDDEN)], ?_, ?_⟩
    · simp only [VID_SetMode_before_window, VID_SetMode_attributes, VidState.SDL_CreateWindow,
        VidState.SDL_GL_SetAttribute, emit, List.append_assoc, List.cons_append,
        List.nil_append, List.singleton_append]
    · intro a
      simp [window_attempts, GLAttrs.set, fallback_order]
  · simp only [List.getElem?_cons_succ, List.getElem?_cons_zero, Option.some.injEq] at hk
    subst hk
    refine ⟨rfl, [.VID_SetMode width height bpp fullscreen, .CDAudio_Pause, .BGM_Pause,
        .SDL_GL_SetAttribute .SDL_GL_DEPTH_SIZE (if bpp = 16 then 16 else 24),
        .SDL_GL_SetAttribute .SDL_GL_STENCIL_SIZE (if bpp = 16 then 0 else 8),
        .SDL_GL_SetAttribute .SDL_GL_MULTISAMPLEBUFFERS (if s.fsaa > 0 then 1 else 0),
        .SDL_GL_SetAttribute .SDL_GL_MULTISAMPLESAMPLES s.fsaa,
        .SDL_CreateWindow width height (P.SDL_WINDOW_OPENGL ||| P.SDL_WINDOW_HIDDEN),
        .SDL_GL_SetAttribute .SDL_GL_MULTISAMPLEBUFFERS 0,
        .SDL_GL_SetAttribute .SDL_GL_MULTISAMPLESAMPLES 0,
        .SDL_CreateWindow width height (P.SDL_WINDOW_OPENGL ||| P.SDL_WINDOW_HIDDEN),
        .SDL_GL_SetAttribute .SDL_GL_DEPTH_SIZE 16,
        .SDL_CreateWindow width height (P.SDL_WINDOW_OPENGL ||| P.SDL_WINDOW_HIDDEN)], ?_, ?_⟩
    · simp only [VID_SetMode_before_window, VID_SetMode_attributes, VidState.SDL_CreateWindow,
        VidState.SDL_GL_SetAttribute, emit, List.append_assoc, List.cons_append,
        List.nil_append, List.singleton_append]
    · intro a
      simp [window_attempts, GLAttrs.set, fallback_order]
  · simp only [List.getElem?_cons_succ, List.getElem?_cons_zero, Option.some.injEq] at hk
    subst hk
    refine ⟨rfl, [.VID_SetMode width height bpp fullscreen, .CDAudio_Pause, .BGM_Pause,
        .SDL_GL_SetAttribute .SDL_GL_DEPTH_SIZE (if bpp = 16 then 16 else 24),
        .SDL_GL_SetAttribute .SDL_GL_STENCIL_SIZE (if bpp = 16 then 0 else 8),
        .SDL_GL_SetAttribute .SDL_GL_MULTISAMPLEBUFFERS (if s.fsaa > 0 then 1 else 0),
        .SDL_GL_SetAttribute .SDL_GL_MULTISAMPLESAMPLES s.fsaa,
        .SDL_CreateWindow width height (P.SDL_WINDOW_OPENGL ||| P.SDL_WINDOW_HIDDEN),
        .SDL_GL_SetAttribute .SDL_GL_MULTISAMPLEBUFFERS 0,
        .SDL_GL_SetAttribute .SDL_GL_MULTISAMPLESAMPLES 0,
        .SDL_CreateWindow width height (P.SDL_WINDOW_OPENGL ||| P.SDL_WINDOW_HIDDEN),
        .SDL_GL_SetAttribute .SDL_GL_DEPTH_SIZE 16,
        .SDL_CreateWindow width height (P.SDL_WINDOW_OPENGL ||| P.SDL_WINDOW_HIDDEN),
        .SDL_GL_SetAttribute .SDL_GL_STENCIL_SIZE 0,
        .SDL_CreateWindow width height (P.SDL_WINDOW_OPENGL ||| P.SDL_WINDOW_HIDDEN)], ?_, ?_⟩
    · simp only [VID_SetMode_before_window, VID_SetMode_attributes, VidState.SDL_CreateWindow,
        VidState.SDL_GL_SetAttribute, emit, List.append_assoc, List.cons_append,
        List.nil_append, List.singleton_append]
    · intro a
      simp [window_attempts, GLAttrs.set, fallback_order]
  · simp at hk

/-- The window step of `VID_SetMode`, when there is no window yet, returns the
first of the four attempts that has a window. -/
theorem VID_SetMode_window_find (P : SDL σ) (s : VidState σ) (width height : Int)
    (hd : s.draw_context = false) :
    VID_SetMode_window P s width height =
      match (fallback_attempts P s width height).find? (fun t => t.draw_context) with
      | some t => .ok t
      | none => .error .couldnt_create_window := by
  obtain ⟨a1, a2, a3, a4, hl, hc⟩ := VID_SetMode_window_attempts P s width height hd
  rw [hl, hc]
  cases h1 : a1.draw_context
  · cases h2 : a2.draw_context
    · cases h3 : a3.draw_context
      · cases h4 : a4.draw_context <;> simp [List.find?, h1, h2, h3, h4]
      · simp [List.find?, h1, h2, h3]
    · simp [List.find?, h1, h2]
  · simp [List.find?, h1]

/-- The position of the first element that passes a test. -/
theorem find?_position {α : Type} (l : List α) (p : α → Bool) (b : α)
    (h : l.find? p = some b) :
    ∃ k : Nat, l[k]? = some b ∧ p b = true ∧
      ∀ j : Nat, j < k → ∀ u, l[j]? = some u → p u = false := by
  obtain ⟨hb, as, bs, hl, has⟩ := List.find?_eq_some.mp h
  refine ⟨as.length, ?_, hb, ?_⟩
  · rw [hl, List.getElem?_append_right (Nat.le_refl _)]
    simp
  · intro j hj u hu
    rw [hl, List.getElem?_append_left hj] at hu
    have := has u (List.getElem?_mem hu)
    simpa using this

/-- A returning call of `VID_SetMode` without a window to start from: the
first attempt that succeeded, and the attribute sets seen in the trace. -/
theorem VID_SetMode_first_success (P : SDL σ) (s s' : VidState σ) (width height bpp : Int)
    (fullscreen : Bool) (hd : s.draw_context = false)
    (h : VID_SetMode P s width height bpp fullscreen = .ok s') :
    ∃ (k : Nat) (t : VidState σ),
      (VID_SetMode_attempts P s width height bpp fullscreen)[k]? = some t ∧
      t.draw_context = true ∧
      (∀ j : Nat, j < k → ∀ u, (VID_SetMode_attempts P s width height bpp fullscreen)[j]? = some u →
        u.draw_context = false) ∧
      s'.vid_toggle_works = s.vid_toggle_works ∧
      ∃ added, s'.trace = s.trace ++ added ∧
        ∀ a, window_attempts a added = (fallback_order bpp s.fsaa).take (k + 1) := by
  obtain ⟨s1, hw, haft⟩ := VID_SetMode_ok_window P s s' width height bpp fullscreen h
  rw [VID_SetMode_window_find P (VID_SetMode_before_window P s width height bpp fullscreen)
    width height hd] at hw
  cases hf : (fallback_attempts P (VID_SetMode_before_window P s width height bpp fullscreen)
      width height).find? (fun t => t.draw_context) with
  | none =>
    rw [hf] at hw
    cases hw
  | some t =>
    rw [hf] at hw
    cases hw
    obtain ⟨k, hk, hdc, hbefore⟩ := find?_position _ _ _ hf
    obtain ⟨hflag, added, htr, hatt⟩ :=
      fallback_attempts_trace P s width height bpp fullscreen k s1 hk
    obtain ⟨rest, hrest, hquiet⟩ := haft.trace
    refine ⟨k, s1, hk, hdc, hbefore, haft.vid_toggle_works.trans hflag, added ++ rest, ?_, ?_⟩
    · rw [hrest, htr, List.append_assoc]
    · intro a
      rw [window_attempts_append a added rest hquiet]
      exact hatt a

/-- C11. When `VID_SetMode` has to create the window (there is none yet):
(1) four attempts are provided for, and up to attempt `k` the attribute sets
with which `SDL_CreateWindow` has been called are, in order, the first `k` of
(depth = 16 if bpp = 16 else 24, stencil = 0 if bpp = 16 else 8, samples =
fsaa), the same with multisampling disabled, then with depth 16, then with
stencil 0;
(2) the window step returns the state after the first attempt that succeeds;
(3) the call is fatal with "Couldn't create window" exactly when all four
attempts fail;
(4) a returning call has stopped at the first attempt that succeeded, and its
trace shows the attribute sets up to that attempt and no other;
(5) in particular, if only the first attempt fails, the window is created
with multisample buffers and samples 0 after two attempts, and the depth and
stencil fallback steps are not attempted. -/
theorem VID_SetMode_fallback_order (P : SDL σ) (s : VidState σ) (width height bpp : Int)
    (fullscreen : Bool) (hd : s.draw_context = false) :
    ((VID_SetMode_attempts P s width height bpp fullscreen).length = 4 ∧
      ∀ (k : Nat) (t : VidState σ),
        (VID_SetMode_attempts P s width height bpp fullscreen)[k]? = some t →
        ∃ added, t.trace = s.trace ++ added ∧
          ∀ a, window_attempts a added = (fallback_order bpp s.fsaa).take (k + 1)) ∧
    (VID_SetMode_window P (VID_SetMode_before_window P s width height bpp fullscreen)
        width height =
      match (VID_SetMode_attempts P s width height bpp fullscreen).find?
          (fun t => t.draw_context) with
      | some t => .ok t
      | none => .error .couldnt_create_window) ∧
    (VID_SetMode P s width height bpp fullscreen = .error .couldnt_create_window ↔
      ∀ t ∈ VID_SetMode_attempts P s width height bpp fullscreen, t.draw_context = false) ∧
    (∀ s', VID_SetMode P s width height bpp fullscreen = .ok s' →
      ∃ (k : Nat) (t : VidState σ),
        (VID_SetMode_attempts P s width height bpp fullscreen)[k]? = some t ∧
        t.draw_context = true ∧
        (∀ j : Nat, j < k → ∀ u,
          (VID_SetMode_attempts P s width height bpp fullscreen)[j]? = some u →
          u.draw_context = false) ∧
        ∃ added, s'.trace = s.trace ++ added ∧
          ∀ a, window_attempts a added = (fallback_order bpp s.fsaa).take (k + 1)) ∧
    (((VID_SetMode_attempts P s width height bpp fullscreen).map
        fun t => t.draw_context).take 2 = [false, true] →
      ∀ s', VID_SetMode P s width height bpp fullscreen = .ok s' →
        ∃ added, s'.trace = s.trace ++ added ∧
          ∀ a, window_attempts a added =
            [⟨if bpp = 16 then 16 else 24, if bpp = 16 then 0 else 8,
              if s.fsaa > 0 then 1 else 0, s.fsaa⟩,
             ⟨if bpp = 16 then 16 else 24, if bpp = 16 then 0 else 8, 0, 0⟩]) := by
  have hfind := VID_SetMode_window_find P
    (VID_SetMode_before_window P s width height bpp fullscreen) width height hd
  refine ⟨⟨rfl, fun k t hk => (fallback_attempts_trace P s width height bpp fullscreen k t hk).2⟩,
    hfind, ?_, ?_, ?_⟩
  · rw [VID_SetMode_error_window, hfind]
    unfold VID_SetMode_attempts
    cases hf : (fallback_attempts P (VID_SetMode_before_window P s width height bpp fullscreen)
        width height).find? (fun t => t.draw_context) with
    | none =>
      simp only [List.find?_eq_none, Bool.not_eq_true] at hf
      exact ⟨fun _ => hf, fun _ => ⟨_, rfl⟩⟩
    | some t =>
      obtain ⟨hb, as, bs, hl, _⟩ := List.find?_eq_some.mp hf
      constructor
      · rintro ⟨e, he⟩
        cases he
      · intro hall
        have := hall t (by rw [hl]; simp)
        rw [this] at hb
        cases hb
  · intro s' h
    obtain ⟨k, t, hk, hdc, hbefore, _, hadded⟩ :=
      VID_SetMode_first_success P s s' width height bpp fullscreen hd h
    exact ⟨k, t, hk, hdc, hbefore, hadded⟩
  · intro h2 s' h
    obtain ⟨k, t, hk, hdc, hbefore, _, added, htr, hatt⟩ :=
      VID_SetMode_first_success P s s' width height bpp fullscreen hd h
    obtain ⟨a1, a2, a3, a4, hl, _⟩ := VID_SetMode_window_attempts P
      (VID_SetMode_before_window P s width height bpp fullscreen) width height hd
    have hl' : VID_SetMode_attempts P s width height bpp fullscreen = [a1, a2, a3, a4] := hl
    rw [hl'] at h2 hk hbefore
    simp only [List.map_cons, List.map_nil, List.take_succ_cons, List.take_zero, List.cons.injEq,
      and_true] at h2
    obtain ⟨h1f, h2t⟩ := h2
    have hk1 : k = 1 := by
      rcases k with _ | _ | k
      · simp only [List.getElem?_cons_zero, Option.some.injEq] at hk
        rw [← hk, h1f] at hdc
        cases hdc
      · rfl
      · have := hbefore 1 (by omega) a2 rfl
        rw [this] at h2t
        cases h2t
    subst hk1
    refine ⟨added, htr, fun a => ?_⟩
    rw [hatt a]
    simp [fallback_order]

/-- On a platform that cannot create a multisampled window, with 4x
antialiasing asked for: the first attempt fails, the second succeeds, the call
returns, two attribute sets were attempted, and the platform reports 0
samples and a 24-bit depth buffer. -/
theorem VID_SetMode_fallback_order_witness :
    noWindow.draw_context = false ∧
    ((VID_SetMode_attempts noMultisample noWindow 800 600 32 false).map
      fun t => t.draw_context) = [false, true, true, true] ∧
    (∃ s', VID_SetMode noMultisample noWindow 800 600 32 false = .ok s' ∧
      noMultisample.SDL_GL_GetAttribute s'.sdl .SDL_GL_MULTISAMPLESAMPLES = some 0 ∧
      noMultisample.SDL_GL_GetAttribute s'.sdl .SDL_GL_DEPTH_SIZE = some 24 ∧
      ∃ added, s'.trace = noWindow.trace ++ added ∧
        ∀ a, window_attempts a added = [⟨24, 8, 1, 4⟩, ⟨24, 8, 0, 0⟩]) :=
  ⟨rfl, by decide,
    returned noWindow (VID_SetMode noMultisample noWindow 800 600 32 false), by rfl,
    by decide, by decide,
    (VID_SetMode_fallback_order noMultisample noWindow 800 600 32 false rfl).2.2.2.2
      (by decide) _ (by rfl)⟩

/-! ## The capability flag is left alone by everything but `VID_Toggle` -/

theorem VID_SyncCvars_vid_toggle_works (P : SDL σ) (s : VidState σ) :
    (VID_SyncCvars P s).vid_toggle_works = s.vid_toggle_works := by
  unfold VID_SyncCvars
  by_cases hd : s.draw_context = true
  · by_cases hf : VID_GetDesktopFullscreen P s = true <;>
      simp [hd, hf, Cvar_SetValueQuick, Cvar_SetQuick_vid_toggle_works]
  · simp [hd]

theorem VID_Restart_grab_vid_toggle_works (s : VidState σ) :
    (VID_Restart_grab s).vid_toggle_works = s.vid_toggle_works := by
  unfold VID_Restart_grab
  split
  · split
    · rfl
    · split <;> rfl
  · rfl

theorem VID_Restart_console_vid_toggle_works (s s' : VidState σ)
    (h : VID_Restart_console s = .ok s') : s'.vid_toggle_works = s.vid_toggle_works := by
  simp only [VID_Restart_console] at h
  obtain ⟨_, rfl⟩ := ite_error_ok h
  rfl

theorem VID_SetMode_window_vid_toggle_works (P : SDL σ) (s s' : VidState σ) (width height : Int)
    (h : VID_SetMode_window P s width height = .ok s') :
    s'.vid_toggle_works = s.vid_toggle_works := by
  by_cases hd : s.draw_context = true
  · unfold VID_SetMode_window at h
    rw [if_neg (by simp [hd])] at h
    cases h
    rfl
  · have hd0 : s.draw_context = false := by simpa using hd
    unfold VID_SetMode_window at h
    rw [if_pos (by simp [hd0])] at h
    have h' := (retry_chain
      (s.SDL_CreateWindow P width height (P.SDL_WINDOW_OPENGL ||| P.SDL_WINDOW_HIDDEN))
      (fun u => ((u.SDL_GL_SetAttribute P .SDL_GL_MULTISAMPLEBUFFERS 0).SDL_GL_SetAttribute P
        .SDL_GL_MULTISAMPLESAMPLES 0).SDL_CreateWindow P width height
          (P.SDL_WINDOW_OPENGL ||| P.SDL_WINDOW_HIDDEN))
      (fun u => (u.SDL_GL_SetAttribute P .SDL_GL_DEPTH_SIZE 16).SDL_CreateWindow P width height
          (P.SDL_WINDOW_OPENGL ||| P.SDL_WINDOW_HIDDEN))
      (fun u => (u.SDL_GL_SetAttribute P .SDL_GL_STENCIL_SIZE 0).SDL_CreateWindow P width height
          (P.SDL_WINDOW_OPENGL ||| P.SDL_WINDOW_HIDDEN))).symm.trans h
    split_ifs at h' <;> cases h' <;> rfl

theorem VID_SetMode_vid_toggle_works (P : SDL σ) (s s' : VidState σ) (width height bpp : Int)
    (fullscreen : Bool) (h : VID_SetMode P s width height bpp fullscreen = .ok s') :
    s'.vid_toggle_works = s.vid_toggle_works := by
  obtain ⟨s1, hw, haft⟩ := VID_SetMode_ok_window P s s' width height bpp fullscreen h
  rw [haft.vid_toggle_works, VID_SetMode_window_vid_toggle_works P _ _ _ _ hw]
  rfl

theorem windowed_surface_iff (P : SDL σ) (s : VidState σ) :
    windowed_surface P s ↔ VID_GetDesktopFullscreen P s = false := by
  simp [windowed_surface, VID_GetDesktopFullscreen]

/-- The two ways in which `VID_Restart` returns: without a mode switch, with
cvars, platform state, pending flag and window handle as before; or after a
mode switch, with a surface open, nothing pending and the requested
configuration in line with the live surface, in the sense of `in_sync`.
Either way the capability flag of `VID_Toggle` is as before. -/
theorem VID_Restart_cases (P : SDL σ) (s s' : VidState σ) (h : VID_Restart P s = .ok s') :
    s'.vid_toggle_works = s.vid_toggle_works ∧
    ((s'.cv = s.cv ∧ s'.sdl = s.sdl ∧ s'.vid_changed = s.vid_changed ∧
        s'.draw_context = s.draw_context) ∨
      (s'.draw_context = true ∧ s'.vid_changed = false ∧ in_sync P s')) := by
  by_cases hg : s.vid_locked = true ∨ s.vid_changed = false
  · rw [VID_Restart_gate P s hg] at h
    cases h
    exact ⟨rfl, Or.inl ⟨rfl, rfl, rfl, rfl⟩⟩
  · have hl : s.vid_locked = false := by
      cases hx : s.vid_locked
      · rfl
      · exact absurd (Or.inl hx) hg
    have hc : s.vid_changed = true := by
      cases hx : s.vid_changed
      · exact absurd (Or.inr hx) hg
      · rfl
    cases hv : VID_ValidMode P s.cv s.cv.vid_width s.cv.vid_height s.cv.vid_bpp
        (s.cv.vid_fullscreen != 0) with
    | false =>
      rw [VID_Restart_rejects P s hl hc hv] at h
      cases h
      exact ⟨rfl, Or.inl ⟨rfl, rfl, rfl, rfl⟩⟩
    | true =>
      obtain ⟨s2, h2⟩ := VID_Restart_inv P s s' hl hc hv h
      obtain ⟨s'', hs'', hsdl, hcv, _, hd2, hch, _, hdc, _⟩ :=
        VID_Restart_of_SetMode P s s2 hl hc hv h2
      have hflag : s'.vid_toggle_works = s.vid_toggle_works := by
        rw [VID_Restart_eq P s hl hc hv, h2] at h
        cases h3 : VID_Restart_console
            ({ s2 with trace := s2.trace ++ recreation_hooks } : VidState σ) with
        | error e =>
          simp only [h3] at h
          cases h
        | ok s3 =>
          simp only [h3] at h
          cases h
          have e3 : s3.vid_toggle_works = s2.vid_toggle_works :=
            VID_Restart_console_vid_toggle_works
              ({ s2 with trace := s2.trace ++ recreation_hooks } : VidState σ) s3 h3
          have e2 : s2.vid_toggle_works = s.vid_toggle_works :=
            VID_SetMode_vid_toggle_works P
              ({ s with trace := s.trace ++ teardown_hooks } : VidState σ) s2 _ _ _ _ h2
          rw [VID_Restart_grab_vid_toggle_works, VID_SyncCvars_vid_toggle_works, e3, e2]
      rw [hs''] at h
      cases h
      refine ⟨hflag, Or.inr ⟨hdc, hch, ?_⟩⟩
      obtain ⟨qw, qh, qb, qf, qd, qv⟩ := queries_congr P s2 s' hsdl
      obtain ⟨yb, yf, yv, ywh, _⟩ := VID_SyncCvars_synced P s2 hd2
      unfold in_sync
      simp only [windowed_surface_iff]
      rw [hcv, qw, qh, qb, qf, qd, qv]
      exact ⟨yb, yf, yv, ywh⟩

/-! ## The session invariant -/

theorem in_sync_congr (P : SDL σ) (s t : VidState σ) (hcv : t.cv = s.cv) (hsdl : t.sdl = s.sdl)
    (h : in_sync P s) : in_sync P t := by
  obtain ⟨qw, qh, qb, qf, qd, qv⟩ := queries_congr P s t hsdl
  unfold in_sync at h ⊢
  simp only [windowed_surface_iff] at h ⊢
  rw [hcv, qw, qh, qb, qf, qd, qv]
  exact h

theorem session_ok_congr (P : SDL σ) (s t : VidState σ) (hcv : t.cv = s.cv)
    (hsdl : t.sdl = s.sdl) (hch : t.vid_changed = s.vid_changed)
    (hdc : t.draw_context = s.draw_context) (hfl : t.vid_toggle_works = s.vid_toggle_works)
    (h : session_ok P s) : session_ok P t :=
  ⟨⟨hdc.trans h.1.1, hfl.trans h.1.2⟩,
    fun hc => in_sync_congr P s t hcv hsdl (h.2 (hch.symm.trans hc))⟩

theorem Cvar_SetQuick_fsaa_vid_changed (s : VidState σ) (v : Int) :
    (Cvar_SetQuick s .vid_fsaa v).vid_changed = s.vid_changed := by
  unfold Cvar_SetQuick
  split
  · rfl
  · simp only [VID_FSAA_f, emit]
    split <;> rfl

theorem surface_ok_set (s : VidState σ) (var : CvarId) (v : Int) (h : surface_ok s) :
    surface_ok (Cvar_SetQuick s var v) :=
  ⟨(Cvar_SetQuick_draw_context s var v).trans h.1,
    (Cvar_SetQuick_vid_toggle_works s var v).trans h.2⟩

theorem session_ok_set (P : SDL σ) (s : VidState σ) (var : CvarId) (v : Int)
    (h : session_ok P s) : session_ok P (Cvar_SetQuick s var v) := by
  refine ⟨surface_ok_set s var v h.1, fun hc => ?_⟩
  by_cases hvar : var = .vid_fsaa
  · subst hvar
    rw [Cvar_SetQuick_fsaa_vid_changed] at hc
    have hs := h.2 hc
    obtain ⟨qw, qh, qb, qf, qd, qv⟩ :=
      queries_congr P s (Cvar_SetQuick s .vid_fsaa v) (Cvar_SetQuick_sdl s .vid_fsaa v)
    unfold in_sync at hs ⊢
    simp only [windowed_surface_iff] at hs ⊢
    rw [Cvar_SetQuick_cv, qw, qh, qb, qf, qd, qv]
    exact hs
  · rcases (Cvar_SetQuick_vid_changed s var v hvar).2 with h1 | ⟨h1, _⟩
    · rw [h1] at hc
      cases hc
    · rw [h1] at hc ⊢
      exact h.2 hc

theorem surface_ok_emit (s : VidState σ) (e : Event) (h : surface_ok s) : surface_ok (emit s e) :=
  h

theorem session_ok_emit (P : SDL σ) (s : VidState σ) (e : Event) (h : session_ok P s) :
    session_ok P (emit s e) :=
  session_ok_congr P s (emit s e) rfl rfl rfl rfl rfl h

theorem surface_ok_sync (P : SDL σ) (s : VidState σ) (h : surface_ok s) :
    surface_ok (VID_SyncCvars P s) :=
  ⟨(VID_SyncCvars_draw_context P s).trans h.1, (VID_SyncCvars_vid_toggle_works P s).trans h.2⟩

/-- The resync establishes the invariant wherever a surface is open. -/
theorem session_ok_sync (P : SDL σ) (s : VidState σ) (h : surface_ok s) :
    session_ok P (VID_SyncCvars P s) := by
  refine ⟨surface_ok_sync P s h, fun _ => ?_⟩
  obtain ⟨qw, qh, qb, qf, qd, qv⟩ := queries_congr P s (VID_SyncCvars P s) (VID_SyncCvars_sdl P s)
  obtain ⟨yb, yf, yv, ywh, _⟩ := VID_SyncCvars_synced P s h.1
  unfold in_sync
  simp only [windowed_surface_iff]
  rw [qw, qh, qb, qf, qd, qv]
  exact ⟨yb, yf, yv, ywh⟩

theorem surface_ok_restart (P : SDL σ) (s s' : VidState σ) (h : VID_Restart P s = .ok s')
    (hs : surface_ok s) : surface_ok s' := by
  obtain ⟨hfl, hc | hc⟩ := VID_Restart_cases P s s' h
  · exact ⟨hc.2.2.2.trans hs.1, hfl.trans hs.2⟩
  · exact ⟨hc.1, hfl.trans hs.2⟩

theorem session_ok_restart (P : SDL σ) (s s' : VidState σ) (h : VID_Restart P s = .ok s')
    (hs : session_ok P s) : session_ok P s' := by
  obtain ⟨hfl, hc | hc⟩ := VID_Restart_cases P s s' h
  · exact session_ok_congr P s s' hc.1 hc.2.1 hc.2.2.1 hc.2.2.2 hfl hs
  · exact ⟨⟨hc.1, hfl.trans hs.1.2⟩, fun _ => hc.2.2⟩

/-- Whatever cvar writes, returning restarts and the confirmation dialogue
preserve, a returning `VID_Test` preserves. -/
theorem VID_Test_preserves (P : SDL σ) (Q : VidState σ → Prop)
    (hset : ∀ s var v, Q s → Q (Cvar_SetQuick s var v))
    (hrestart : ∀ s s', VID_Restart P s = .ok s' → Q s → Q s')
    (hemit : ∀ s, Q s → Q (emit s .SCR_ModalMessage))
    (keep : Bool) (s s' : VidState σ) (h : VID_Test P keep s = .ok s') (hs : Q s) : Q s' := by
  unfold VID_Test at h
  by_cases hg : (s.vid_locked || !s.vid_changed) = true
  · rw [if_pos hg] at h
    cases h
    exact hs
  · rw [if_neg hg] at h
    simp only at h
    cases h1 : VID_Restart P s with
    | error e =>
      rw [h1] at h
      cases h
    | ok s1 =>
      rw [h1] at h
      simp only at h
      have q1 := hemit s1 (hrestart s s1 h1 hs)
      cases keep with
      | true =>
        simp only [Bool.not_true, Bool.false_eq_true, if_false] at h
        cases h
        exact q1
      | false =>
        simp only [Bool.not_false, if_true, Cvar_SetValueQuick] at h
        exact hrestart _ _ h (hset _ _ _ (hset _ _ _ (hset _ _ _ (hset _ _ _ q1))))

/-- With the capability flag off, `VID_Toggle` is a cvar write between two
outgoing calls. -/
theorem VID_Toggle_eq (P : SDL σ) (s : VidState σ) (h : s.vid_toggle_works = false) :
    VID_Toggle P s = emit (Cvar_SetQuick (emit s .S_ClearBuffer) .vid_fullscreen
      (if VID_GetFullscreen P (emit s .S_ClearBuffer) then 0 else 1)) .Cbuf_AddText_vid_restart := by
  unfold VID_Toggle
  have : (emit s .S_ClearBuffer).vid_toggle_works = false := h
  simp only [this, Bool.not_false, if_true]
  rfl

theorem surface_ok_step (P : SDL σ) (s s' : VidState σ) (hstep : Step P s s')
    (h : surface_ok s) : surface_ok s' := by
  cases hstep with
  | set var value => exact surface_ok_set s var value h
  | restart _ hr => exact surface_ok_restart P s s' hr h
  | test _ keep ht =>
    exact VID_Test_preserves P surface_ok surface_ok_set (surface_ok_restart P)
      (fun t ht => surface_ok_emit t _ ht) keep s s' ht h
  | unlock => exact surface_ok_sync P _ h
  | toggle =>
    rw [VID_Toggle_eq P s h.2]
    exact surface_ok_emit _ _ (surface_ok_set _ _ _ (surface_ok_emit _ _ h))
  | sync => exact surface_ok_sync P s h

theorem session_ok_step (P : SDL σ) (s s' : VidState σ) (hstep : Step P s s')
    (h : session_ok P s) : session_ok P s' := by
  cases hstep with
  | set var value => exact session_ok_set P s var value h
  | restart _ hr => exact session_ok_restart P s s' hr h
  | test _ keep ht =>
    exact VID_Test_preserves P (session_ok P) (session_ok_set P) (session_ok_restart P)
      (fun t ht => session_ok_emit P t _ ht) keep s s' ht h
  | unlock => exact session_ok_sync P _ h.1
  | toggle =>
    rw [VID_Toggle_eq P s h.1.2]
    exact session_ok_emit P _ _ (session_ok_set P _ _ _ (session_ok_emit P _ _ h))
  | sync => exact session_ok_sync P s h.1

theorem surface_ok_reaches (P : SDL σ) (s s' : VidState σ)
    (hr : Relation.ReflTransGen (Step P) s s') (h : surface_ok s) : surface_ok s' := by
  induction hr with
  | refl => exact h
  | tail _ hstep ih => exact surface_ok_step P _ _ hstep ih

theorem session_ok_reaches (P : SDL σ) (s s' : VidState σ)
    (hr : Relation.ReflTransGen (Step P) s s') (h : session_ok P s) : session_ok P s' := by
  induction hr with
  | refl => exact h
  | tail _ hstep ih => exact session_ok_step P _ _ hstep ih

theorem CFG_ReadCvars_vid_toggle_works (s : VidState σ) (values : List (CvarId × Int)) :
    (CFG_ReadCvars s values).vid_toggle_works = s.vid_toggle_works := by
  unfold CFG_ReadCvars
  induction values generalizing s with
  | nil => rfl
  | cons a t ih =>
    rw [List.foldl_cons, ih]
    exact Cvar_SetQuick_vid_toggle_works s a.1 a.2

/-- A returning `VID_Init` leaves a surface open, the mode locked, nothing
pending, and the capability flag as it found it. -/
theorem VID_Init_ok (P : SDL σ) (desktop : SDL_DisplayMode)
    (config overrides : List (CvarId × Int)) (args : CommandLine) (s₀ s₁ : VidState σ)
    (h : VID_Init P desktop config overrides args s₀ = .ok s₁) :
    s₁.draw_context = true ∧ s₁.vid_toggle_works = s₀.vid_toggle_works ∧
    s₁.vid_locked = true ∧ s₁.vid_changed = false := by
  unfold VID_Init at h
  simp only at h
  split at h
  · cases h
  · rename_i s2 h2
    cases h
    obtain ⟨_, _, hd2, hc2, _⟩ := VID_SetMode_ok P _ _ _ _ _ _ h2
    have hf2 := VID_SetMode_vid_toggle_works P _ _ _ _ _ _ h2
    simp only [emit, VID_InitModelist] at hf2
    simp only [VID_Menu_Init, emit]
    refine ⟨hd2, ?_, trivial, hc2⟩
    rw [hf2, CFG_ReadCvars_vid_toggle_works, CFG_ReadCvars_vid_toggle_works]
    exact Cvar_SetQuick_vid_toggle_works s₀ _ _

/-- C14 as stated fails.  Started with `-width 1024 -height 768` on a 16-bit
desktop, with the cvars at their defaults and no configuration file,
`VID_Init` returns with a 1024x768 surface open, windowed (so not
desktop-fullscreen, by the code's query and by the window flags), and
`vid_changed` false, while `vid_width` and `vid_height` are 800 and 600; a
`VID_Restart` in that state returns the same state. -/
theorem sync_invariant_counterexample :
    ∃ s₁, VID_Init someModes desktop1280 [] [] args1024 startup = .ok s₁ ∧
      VID_Restart someModes s₁ = .ok s₁ ∧
      s₁.draw_context = true ∧ s₁.vid_changed = false ∧
      VID_GetFullscreen someModes s₁ = false ∧
      VID_GetDesktopFullscreen someModes s₁ = false ∧
      desktop_fullscreen someModes s₁ = false ∧
      VID_GetCurrentWidth someModes s₁ = 1024 ∧ VID_GetCurrentHeight someModes s₁ = 768 ∧
      s₁.cv.vid_width = 800 ∧ s₁.cv.vid_height = 600 ∧ ¬ in_sync someModes s₁ := by
  refine ⟨returned startup (VID_Init someModes desktop1280 [] [] args1024 startup), by rfl,
    by rfl, by decide, by decide, by decide, by decide, by decide, by decide, by decide,
    by decide, by decide, ?_⟩
  intro h
  have hw : windowed_surface someModes
      (returned startup (VID_Init someModes desktop1280 [] [] args1024 startup)) := by
    unfold windowed_surface
    decide
  have := (h.2.2.2 hw).1
  revert this
  decide

/-- C14 (amended). Let `s₁` be the state a returning `VID_Init` leaves, started
with the capability flag of `VID_Toggle` at its initial value false; let `s₂`
be reached from `s₁` by settings changes and returning calls of `VID_Restart`,
`VID_Test`, `VID_Unlock`, `VID_Toggle` and `VID_SyncCvars` (the configuration
files being read), and let `s` be reached in the same way from the state
`VID_Unlock` leaves when called in `s₂`.  Then a surface is open in `s`, and
if `vid_changed` is false in `s`, then `vid_bpp`, `vid_fullscreen` and
`vid_vsync` equal the live surface's values, and on a windowed surface
`vid_width`, `vid_height` equal the live width and height.  Width and height
on a fullscreen surface are left out: nothing is stated of them. -/
theorem sync_invariant (P : SDL σ) (desktop : SDL_DisplayMode)
    (config overrides : List (CvarId × Int)) (args : CommandLine) (s₀ s₁ s₂ s : VidState σ)
    (h0 : s₀.vid_toggle_works = false)
    (hinit : VID_Init P desktop config overrides args s₀ = .ok s₁)
    (hload : Relation.ReflTransGen (Step P) s₁ s₂)
    (hrun : Relation.ReflTransGen (Step P) (VID_Unlock P s₂) s)
    (hc : s.vid_changed = false) :
    s.draw_context = true ∧ in_sync P s := by
  obtain ⟨hd1, hf1, _, _⟩ := VID_Init_ok P desktop config overrides args s₀ s₁ hinit
  have h1 : surface_ok s₁ := ⟨hd1, hf1.trans h0⟩
  have h2 : surface_ok s₂ := surface_ok_reaches P s₁ s₂ hload h1
  have h3 : session_ok P (VID_Unlock P s₂) := session_ok_sync P _ h2
  have h4 : session_ok P s := session_ok_reaches P _ s hrun h3
  exact ⟨h4.1.1, h4.2 hc⟩

/-- The session started with `-width 1024 -height 768`, then unlocked, then
asked for 640x480 and restarted: nothing is pending and the cvars equal the
live 640x480x16 windowed surface. -/
theorem sync_invariant_witness :
    startup.vid_toggle_works = false ∧
    VID_Init someModes desktop1280 [] [] args1024 startup = .ok afterInit ∧
    (VID_Unlock someModes afterInit).cv = ⟨0, 1024, 768, 16, 0, 0, 0⟩ ∧
    Relation.ReflTransGen (Step someModes) (VID_Unlock someModes afterInit) afterRestart ∧
    afterRestart.vid_changed = false ∧
    afterRestart.cv = ⟨0, 640, 480, 16, 0, 0, 0⟩ ∧
    VID_GetCurrentWidth someModes afterRestart = 640 ∧
    VID_GetCurrentHeight someModes afterRestart = 480 ∧
    windowed_surface someModes afterRestart ∧
    afterRestart.draw_context = true ∧ in_sync someModes afterRestart :=
  have hrun : Relation.ReflTransGen (Step someModes) (VID_Unlock someModes afterInit)
      afterRestart :=
    .tail (.tail (.tail .refl (Step.set _ .vid_width 640)) (Step.set _ .vid_height 480))
      (Step.restart request640 afterRestart (by rfl))
  ⟨rfl, by rfl, by decide, hrun, by decide, by decide, by decide, by decide,
    by unfold windowed_surface; decide,
    sync_invariant someModes desktop1280 [] [] args1024 startup afterInit afterInit afterRestart
      rfl (by rfl) .refl hrun (by decide)⟩

/-! ## Exclusive fullscreen: the width and height are not resynced

`VID_GetDesktopFullscreen` tests `(flags & SDL_WINDOW_FULLSCREEN_DESKTOP) != 0`.
With the SDL2 values `SDL_WINDOW_FULLSCREEN = 0x1` and
`SDL_WINDOW_FULLSCREEN_DESKTOP = 0x1001` the test succeeds on every
fullscreen window, so `VID_SyncCvars` skips `vid_width` and `vid_height` on an
exclusive-fullscreen surface too. -/

/-- C8, the code at a failing input.  On an exclusive-fullscreen 800x600x16
surface (window flags `0x1`: not in desktop-fullscreen presentation) with
`vid_width` 1024 and `vid_height` 768, the code's query
`VID_GetDesktopFullscreen` returns true and `VID_SyncCvars` returns with
`vid_width` and `vid_height` still 1024 and 768, not the live 800 and 600,
and `vid_changed` false.  The same happens in a run: started with
`-fullscreen -width 800 -height 600` over a configuration holding 1024x768,
`VID_Init` opens that surface, and the `VID_SyncCvars` of `VID_Unlock` leaves
`vid_width` and `vid_height` at 1024 and 768. -/
theorem VID_SyncCvars_exclusive_fullscreen :
    (exclusive800.draw_context = true ∧
      someModes.SDL_GetWindowFlags exclusive800.sdl = someModes.SDL_WINDOW_FULLSCREEN ∧
      desktop_fullscreen someModes exclusive800 = false ∧
      VID_GetDesktopFullscreen someModes exclusive800 = true ∧
      VID_GetCurrentWidth someModes exclusive800 = 800 ∧
      VID_GetCurrentHeight someModes exclusive800 = 600 ∧
      (VID_SyncCvars someModes exclusive800).cv.vid_width = 1024 ∧
      (VID_SyncCvars someModes exclusive800).cv.vid_height = 768 ∧
      (VID_SyncCvars someModes exclusive800).vid_changed = false) ∧
    (VID_Init someModes desktop1280 [(.vid_width, 1024), (.vid_height, 768)] []
        argsFullscreen800 startup = .ok afterInitFullscreen ∧
      afterInitFullscreen.draw_context = true ∧
      someModes.SDL_GetWindowFlags afterInitFullscreen.sdl = someModes.SDL_WINDOW_FULLSCREEN ∧
      desktop_fullscreen someModes afterInitFullscreen = false ∧
      VID_GetCurrentWidth someModes (VID_Unlock someModes afterInitFullscreen) = 800 ∧
      VID_GetCurrentHeight someModes (VID_Unlock someModes afterInitFullscreen) = 600 ∧
      (VID_Unlock someModes afterInitFullscreen).cv.vid_width = 1024 ∧
      (VID_Unlock someModes afterInitFullscreen).cv.vid_height = 768 ∧
      (VID_Unlock someModes afterInitFullscreen).vid_changed = false) := by
  refine ⟨⟨by decide, by decide, by decide, by decide, by decide, by decide, by decide,
    by decide, by decide⟩, by rfl, by decide, by decide, by decide, by decide, by decide,
    by decide, by decide, by decide⟩

/-- C6, the code at a failing input.  On a platform where a window made
fullscreen takes the 1920x1080 size of the desktop, with 640x480x32 exclusive
fullscreen requested (a mode the display lists) over an 800x600x16 window,
unlocked and pending: `VID_Restart` returns with `vid_changed` false and
`vid_width`, `vid_height` at 640 and 480 while the live surface is 1920x1080,
in exclusive fullscreen (window flags `0x1`), not in desktop-fullscreen
presentation.  The other three settings do hold the live values. -/
theorem VID_Restart_exclusive_fullscreen :
    pending640.vid_locked = false ∧ pending640.vid_changed = true ∧
    VID_ValidMode resizingFullscreen pending640.cv pending640.cv.vid_width
      pending640.cv.vid_height pending640.cv.vid_bpp (pending640.cv.vid_fullscreen != 0) = true ∧
    ∃ s', VID_Restart resizingFullscreen pending640 = .ok s' ∧
      s'.vid_changed = false ∧
      resizingFullscreen.SDL_GetWindowFlags s'.sdl = resizingFullscreen.SDL_WINDOW_FULLSCREEN ∧
      desktop_fullscreen resizingFullscreen s' = false ∧
      VID_GetDesktopFullscreen resizingFullscreen s' = true ∧
      VID_GetCurrentWidth resizingFullscreen s' = 1920 ∧
      VID_GetCurrentHeight resizingFullscreen s' = 1080 ∧
      s'.cv.vid_width = 640 ∧ s'.cv.vid_height = 480 ∧
      s'.cv.vid_bpp = VID_GetCurrentBPP resizingFullscreen s' ∧
      s'.cv.vid_fullscreen = (if VID_GetFullscreen resizingFullscreen s' then 1 else 0) ∧
      s'.cv.vid_vsync = (if VID_GetVSync resizingFullscreen s' then 1 else 0) := by
  refine ⟨rfl, rfl, by decide,
    returned pending640 (VID_Restart resizingFullscreen pending640), by rfl, by decide,
    by decide, by decide, by decide, by decide, by decide, by decide, by decide, by decide,
    by decide, by decide⟩

end GLVidSDL
